import Mathlib

/-!
ERF: advection tendency kernels and MOST surface-flux iteration.

A shallow embedding of

* `Source/IndexDefines.H` (the `AdvType` tags),
* `Source/Advection/Advection.H` (`EfficientAdvType`),
* `Source/Advection/AdvectionSrcForMom_T.H` (the momentum advection kernels and
  their dispatcher),
* `Source/BoundaryConditions/MOSTStress.H` (the `iterate_flux` family, `moeng_flux`,
  `donelan_flux`),
* `Source/BoundaryConditions/ABLMost.H`, `ABLMost.cpp` (the constructor,
  `time_interp_tsurf`, `update_fluxes`),
* `Source/DataStructs/DataStruct.H` (`SolverChoice::init_params`),
* `Source/TimeIntegration/TI_fast_rhs_fun.H`, `TI_slow_rhs_fun.H` (the fast right-hand
  side wrapper and the terrain velocity),
* `Source/ERF.H` (`ComputeGhostCells`),

followed by theorems about these definitions.

`amrex::Real` is modelled by an arbitrary linearly ordered field `α` (so every
statement holds for `ℚ`, where the definitions evaluate, and for `ℝ`); the
transcendental functions of `<cmath>` are passed in a record `CMath α`.
`int` is modelled by `Int`; none of the index arithmetic here can overflow for
indices of a real grid.
-/

namespace ERF

/-! ## `IndexDefines.H` -/

/-- The advection scheme tags, `enum struct AdvType` of `IndexDefines.H`. -/
inductive AdvType
  | Centered_2nd
  | Upwind_3rd
  | Centered_4th
  | Upwind_5th
  | Centered_6th
  | Weno_3
  | Weno_3Z
  | Weno_5
  | Weno_5Z
  | Weno_3MZQ
  | Unknown
  deriving DecidableEq, Repr

/-! ## `Advection.H` -/

/-- The effective scheme of Runge-Kutta stage `nrk`, `EfficientAdvType` of `Advection.H`. -/
def EfficientAdvType (nrk : Int) (adv_type : AdvType) : AdvType :=
  if nrk = 0 then
    AdvType.Centered_2nd
  else if nrk = 1 then
    if adv_type = AdvType.Centered_2nd ∨
       adv_type = AdvType.Upwind_3rd ∨
       adv_type = AdvType.Centered_4th ∨
       adv_type = AdvType.Weno_3 ∨
       adv_type = AdvType.Weno_3Z ∨
       adv_type = AdvType.Weno_3MZQ then
      AdvType.Centered_2nd
    else if adv_type = AdvType.Upwind_5th ∨
            adv_type = AdvType.Weno_5 ∨
            adv_type = AdvType.Weno_5Z then
      AdvType.Upwind_3rd
    else
      AdvType.Centered_4th
  else
    adv_type


/-! ## Collaborators of the advection kernels

`AMReX`, `TerrainMetrics.H` and `Interpolation.H` are not part of the embedded
sources; what the kernels use of them is taken as a parameter. -/

/-- Read access `a(i,j,k)` to an `amrex::Array4<const amrex::Real>`. -/
abbrev Array4 (α : Type) := Int → Int → Int → α

/-- An `amrex::GpuArray<amrex::Real, AMREX_SPACEDIM>`, indexed `[0]`, `[1]`, `[2]`. -/
abbrev GpuArray3 (α : Type) := Fin 3 → α

/-- An `amrex::Box`: the index triples between `lo` and `hi`, both included. -/
structure Box where
  lo : Int × Int × Int
  hi : Int × Int × Int

/-- Whether `(i,j,k)` is one of the indices `amrex::ParallelFor` visits for the box. -/
def Box.contains (bx : Box) (i j k : Int) : Bool :=
  decide (bx.lo.1 ≤ i ∧ i ≤ bx.hi.1 ∧
          bx.lo.2.1 ≤ j ∧ j ≤ bx.hi.2.1 ∧
          bx.lo.2.2 ≤ k ∧ k ≤ bx.hi.2.2)

/-- The four `Compute_h_zeta_At...` functions of `TerrainMetrics.H`, each called as
`f(i,j,k,cellSizeInv,z_nd)`. -/
structure TerrainMetrics (α : Type) where
  Compute_h_zeta_AtCellCenter : Int → Int → Int → GpuArray3 α → Array4 α → α
  Compute_h_zeta_AtEdgeCenterK : Int → Int → Int → GpuArray3 α → Array4 α → α
  Compute_h_zeta_AtEdgeCenterJ : Int → Int → Int → GpuArray3 α → Array4 α → α
  Compute_h_zeta_AtEdgeCenterI : Int → Int → Int → GpuArray3 α → Array4 α → α

/-- A horizontal interpolation object (`InterpType_H`).  A call
`InterpolateInX(i,j,k,qty_index,val,upw)` overwrites the reference argument `val`;
here it returns the new `val`, given the indices, the old `val` and `upw`. -/
structure InterpType_H (α : Type) where
  InterpolateInX : Int → Int → Int → Int → α → α → α
  InterpolateInY : Int → Int → Int → Int → α → α → α

/-- A vertical interpolation object (`InterpType_V`); `InterpolateInZ(i,j,k,qty_index,val,upw)`
returns the new `val`. -/
structure InterpType_V (α : Type) where
  InterpolateInZ : Int → Int → Int → Int → α → α → α

/-- The wall interpolation object (`WallInterpType`), whose
`InterpolateInZ(i,j,k,qty_index,val,upw,adv_type)` takes the scheme at run time. -/
structure WallInterpType (α : Type) where
  InterpolateInZ : Int → Int → Int → Int → α → α → AdvType → α

/-- The interpolation classes of `Interpolation.H` that `AdvectionSrcForMomVert_T`
instantiates, each constructed from a velocity array. -/
structure InterpClasses (α : Type) where
  CENTERED2 : Array4 α → InterpType_V α
  UPWIND3 : Array4 α → InterpType_V α
  CENTERED4 : Array4 α → InterpType_V α
  UPWIND5 : Array4 α → InterpType_V α
  CENTERED6 : Array4 α → InterpType_V α
  UPWINDALL : Array4 α → WallInterpType α

/-! ## `AdvectionSrcForMom_T.H` -/

section Advection

variable {α : Type} [LinearOrderedField α]

/-- `AdvectionSrcForXMom_T`: advective tendency of the x-momentum at the x-face `(i,j,k)`. -/
def AdvectionSrcForXMom_T (tm : TerrainMetrics α) (i j k : Int)
    (rho_u rho_v Omega z_nd detJ : Array4 α)
    (interp_u_h : InterpType_H α) (interp_u_v : InterpType_V α)
    (cellSizeInv : GpuArray3 α) (mf_u_inv mf_v_inv : Array4 α) : α :=
  let dxInv := cellSizeInv 0
  let dyInv := cellSizeInv 1
  let dzInv := cellSizeInv 2
  let interp_hi : α := 0
  let interp_lo : α := 0
  -- X-fluxes (at cell centers)
  let rho_u_avg_hi := 0.5 * (rho_u (i+1) j k * mf_u_inv (i+1) j 0 + rho_u i j k * mf_u_inv i j 0)
  let interp_hi := interp_u_h.InterpolateInX (i+1) j k 0 interp_hi rho_u_avg_hi
  let rho_u_avg_lo := 0.5 * (rho_u (i-1) j k * mf_u_inv (i-1) j 0 + rho_u i j k * mf_u_inv i j 0)
  let interp_lo := interp_u_h.InterpolateInX i j k 0 interp_lo rho_u_avg_lo
  let centFluxXXNext :=
    rho_u_avg_hi * tm.Compute_h_zeta_AtCellCenter i j k cellSizeInv z_nd * interp_hi
  let centFluxXXPrev :=
    rho_u_avg_lo * tm.Compute_h_zeta_AtCellCenter (i-1) j k cellSizeInv z_nd * interp_lo
  -- Y-fluxes (at edges in k-direction)
  let rho_v_avg_hi :=
    0.5 * (rho_v i (j+1) k * mf_v_inv i (j+1) 0 + rho_v (i-1) (j+1) k * mf_v_inv (i-1) (j+1) 0)
  let interp_hi := interp_u_h.InterpolateInY i (j+1) k 0 interp_hi rho_v_avg_hi
  let rho_v_avg_lo :=
    0.5 * (rho_v i j k * mf_v_inv i j 0 + rho_v (i-1) j k * mf_v_inv (i-1) j 0)
  let interp_lo := interp_u_h.InterpolateInY i j k 0 interp_lo rho_v_avg_lo
  let edgeFluxXYNext :=
    rho_v_avg_hi * tm.Compute_h_zeta_AtEdgeCenterK i (j+1) k cellSizeInv z_nd * interp_hi
  let edgeFluxXYPrev :=
    rho_v_avg_lo * tm.Compute_h_zeta_AtEdgeCenterK i j k cellSizeInv z_nd * interp_lo
  -- Z-fluxes (at edges in j-direction)
  let Omega_avg_hi := 0.5 * (Omega i j (k+1) + Omega (i-1) j (k+1))
  let Omega_avg_lo := 0.5 * (Omega i j k + Omega (i-1) j k)
  let interp_hi := interp_u_v.InterpolateInZ i j (k+1) 0 interp_hi Omega_avg_hi
  let interp_lo := interp_u_v.InterpolateInZ i j k 0 interp_lo Omega_avg_lo
  let edgeFluxXZNext := Omega_avg_hi * interp_hi
  let edgeFluxXZPrev := Omega_avg_lo * interp_lo
  let mfsq := 1 / (mf_u_inv i j 0 * mf_u_inv i j 0)
  let advectionSrc := (centFluxXXNext - centFluxXXPrev) * dxInv * mfsq
                    + (edgeFluxXYNext - edgeFluxXYPrev) * dyInv * mfsq
                    + (edgeFluxXZNext - edgeFluxXZPrev) * dzInv
  advectionSrc / (0.5 * (detJ i j k + detJ (i-1) j k))

/-- `AdvectionSrcForYMom_T`: advective tendency of the y-momentum at the y-face `(i,j,k)`. -/
def AdvectionSrcForYMom_T (tm : TerrainMetrics α) (i j k : Int)
    (rho_u rho_v Omega z_nd detJ : Array4 α)
    (interp_v_h : InterpType_H α) (interp_v_v : InterpType_V α)
    (cellSizeInv : GpuArray3 α) (mf_u_inv mf_v_inv : Array4 α) : α :=
  let dxInv := cellSizeInv 0
  let dyInv := cellSizeInv 1
  let dzInv := cellSizeInv 2
  let interp_hi : α := 0
  let interp_lo : α := 0
  -- x-fluxes (at edges in k-direction)
  let rho_u_avg_hi :=
    0.5 * (rho_u (i+1) j k * mf_u_inv (i+1) j 0 + rho_u (i+1) (j-1) k * mf_u_inv (i+1) (j-1) 0)
  let interp_hi := interp_v_h.InterpolateInX (i+1) j k 0 interp_hi rho_u_avg_hi
  let rho_u_avg_lo :=
    0.5 * (rho_u i j k * mf_u_inv i j 0 + rho_u i (j-1) k * mf_u_inv i (j-1) 0)
  let interp_lo := interp_v_h.InterpolateInX i j k 0 interp_lo rho_u_avg_lo
  let edgeFluxYXNext :=
    rho_u_avg_hi * tm.Compute_h_zeta_AtEdgeCenterK (i+1) j k cellSizeInv z_nd * interp_hi
  let edgeFluxYXPrev :=
    rho_u_avg_lo * tm.Compute_h_zeta_AtEdgeCenterK i j k cellSizeInv z_nd * interp_lo
  -- y-fluxes (at cell centers)
  let rho_v_avg_hi := 0.5 * (rho_v i j k * mf_v_inv i j 0 + rho_v i (j+1) k * mf_v_inv i (j+1) 0)
  let interp_hi := interp_v_h.InterpolateInY i (j+1) k 0 interp_hi rho_v_avg_hi
  let rho_v_avg_lo := 0.5 * (rho_v i j k * mf_v_inv i j 0 + rho_v i (j-1) k * mf_v_inv i (j-1) 0)
  let interp_lo := interp_v_h.InterpolateInY i j k 0 interp_lo rho_v_avg_lo
  let centFluxYYNext :=
    rho_v_avg_hi * tm.Compute_h_zeta_AtCellCenter i j k cellSizeInv z_nd * interp_hi
  let centFluxYYPrev :=
    rho_v_avg_lo * tm.Compute_h_zeta_AtCellCenter i (j-1) k cellSizeInv z_nd * interp_lo
  -- Z-fluxes (at edges in j-direction)
  let Omega_avg_hi := 0.5 * (Omega i j (k+1) + Omega i (j-1) (k+1))
  let Omega_avg_lo := 0.5 * (Omega i j k + Omega i (j-1) k)
  let interp_hi := interp_v_v.InterpolateInZ i j (k+1) 0 interp_hi Omega_avg_hi
  let interp_lo := interp_v_v.InterpolateInZ i j k 0 interp_lo Omega_avg_lo
  let edgeFluxYZNext := Omega_avg_hi * interp_hi
  let edgeFluxYZPrev := Omega_avg_lo * interp_lo
  let mfsq := 1 / (mf_v_inv i j 0 * mf_v_inv i j 0)
  let advectionSrc := (edgeFluxYXNext - edgeFluxYXPrev) * dxInv * mfsq
                    + (centFluxYYNext - centFluxYYPrev) * dyInv * mfsq
                    + (edgeFluxYZNext - edgeFluxYZPrev) * dzInv
  advectionSrc / (0.5 * (detJ i j k + detJ i (j-1) k))

/-- What multiplies the averaged `Omega` in a vertical flux of `AdvectionSrcForZMom_T`:
the prescribed `w(i,j,k)` itself, the wall interpolator called with a scheme tag, or
the vertical interpolator `interp_omega_v` of the requested scheme. -/
inductive ZStencil
  | prescribed
  | wall (adv_type : AdvType)
  | full
  deriving DecidableEq, Repr

/-- The branch taken for the upper z-flux (`centFluxZZNext`) of `AdvectionSrcForZMom_T`. -/
def zStencilNext (k : Int) (vert_adv_type : AdvType) (domhi_z : Int) : ZStencil :=
  if k = domhi_z + 1 then
    ZStencil.prescribed
  else
    if k = domhi_z then
      ZStencil.wall AdvType.Centered_2nd
    else if k = domhi_z - 1 ∨ k = 1 then
      if vert_adv_type ≠ AdvType.Centered_2nd ∧ vert_adv_type ≠ AdvType.Upwind_3rd then
        ZStencil.wall AdvType.Centered_4th
      else
        ZStencil.wall vert_adv_type
    else
      ZStencil.full

/-- The branch taken for the lower z-flux (`centFluxZZPrev`) of `AdvectionSrcForZMom_T`. -/
def zStencilPrev (k : Int) (vert_adv_type : AdvType) (domhi_z : Int) : ZStencil :=
  if k = 0 then
    ZStencil.prescribed
  else
    if k = 1 then
      ZStencil.wall AdvType.Centered_2nd
    else if k = 2 ∨ k = domhi_z then
      if vert_adv_type ≠ AdvType.Centered_2nd ∧ vert_adv_type ≠ AdvType.Upwind_3rd then
        ZStencil.wall AdvType.Centered_4th
      else
        ZStencil.wall vert_adv_type
    else
      ZStencil.full

/-- The upper z-flux `centFluxZZNext` of `AdvectionSrcForZMom_T`; `interp_hi` is the
value the variable of that name holds when the z-flux block is reached. -/
def centFluxZZNext (i j k : Int) (Omega w : Array4 α)
    (interp_omega_v : InterpType_V α) (interp_omega_wall : WallInterpType α)
    (vert_adv_type : AdvType) (domhi_z : Int) (interp_hi : α) : α :=
  let Omega_avg_hi :=
    if k = domhi_z + 1 then Omega i j k else 0.5 * (Omega i j k + Omega i j (k+1))
  let centFluxZZNext := Omega_avg_hi
  match zStencilNext k vert_adv_type domhi_z with
  | ZStencil.prescribed => centFluxZZNext * w i j k
  | ZStencil.wall adv_type =>
      centFluxZZNext * interp_omega_wall.InterpolateInZ i j (k+1) 0 interp_hi Omega_avg_hi adv_type
  | ZStencil.full =>
      centFluxZZNext * interp_omega_v.InterpolateInZ i j (k+1) 0 interp_hi Omega_avg_hi

/-- The lower z-flux `centFluxZZPrev` of `AdvectionSrcForZMom_T`; `interp_lo` is the
value the variable of that name holds when the z-flux block is reached. -/
def centFluxZZPrev (i j k : Int) (Omega w : Array4 α)
    (interp_omega_v : InterpType_V α) (interp_omega_wall : WallInterpType α)
    (vert_adv_type : AdvType) (domhi_z : Int) (interp_lo : α) : α :=
  let Omega_avg_lo :=
    if k = 0 then Omega i j k else 0.5 * (Omega i j k + Omega i j (k-1))
  let centFluxZZPrev := Omega_avg_lo
  match zStencilPrev k vert_adv_type domhi_z with
  | ZStencil.prescribed => centFluxZZPrev * w i j k
  | ZStencil.wall adv_type =>
      centFluxZZPrev * interp_omega_wall.InterpolateInZ i j k 0 interp_lo Omega_avg_lo adv_type
  | ZStencil.full =>
      centFluxZZPrev * interp_omega_v.InterpolateInZ i j k 0 interp_lo Omega_avg_lo

/-- `AdvectionSrcForZMom_T`: advective tendency of the z-momentum at the z-face `(i,j,k)`. -/
def AdvectionSrcForZMom_T (tm : TerrainMetrics α) (i j k : Int)
    (rho_u rho_v Omega w z_nd detJ : Array4 α)
    (interp_omega_h : InterpType_H α) (interp_omega_v : InterpType_V α)
    (interp_omega_wall : WallInterpType α)
    (cellSizeInv : GpuArray3 α) (mf_m mf_u_inv mf_v_inv : Array4 α)
    (vert_adv_type : AdvType) (domhi_z : Int) : α :=
  let dxInv := cellSizeInv 0
  let dyInv := cellSizeInv 1
  let dzInv := cellSizeInv 2
  let interp_hi : α := 0
  let interp_lo : α := 0
  -- x-fluxes (at edges in j-direction)
  let rho_u_avg_hi := 0.5 * (rho_u (i+1) j k + rho_u (i+1) j (k-1)) * mf_u_inv (i+1) j 0
  let interp_hi := interp_omega_h.InterpolateInX (i+1) j k 0 interp_hi rho_u_avg_hi
  let rho_u_avg_lo := 0.5 * (rho_u i j k + rho_u i j (k-1)) * mf_u_inv i j 0
  let interp_lo := interp_omega_h.InterpolateInX i j k 0 interp_lo rho_u_avg_lo
  let edgeFluxZXNext :=
    rho_u_avg_hi * tm.Compute_h_zeta_AtEdgeCenterJ (i+1) j k cellSizeInv z_nd * interp_hi
  let edgeFluxZXPrev :=
    rho_u_avg_lo * tm.Compute_h_zeta_AtEdgeCenterJ i j k cellSizeInv z_nd * interp_lo
  -- y-fluxes (at edges in i-direction)
  let rho_v_avg_hi := 0.5 * (rho_v i (j+1) k + rho_v i (j+1) (k-1)) * mf_v_inv i (j+1) 0
  let interp_hi := interp_omega_h.InterpolateInY i (j+1) k 0 interp_hi rho_v_avg_hi
  let rho_v_avg_lo := 0.5 * (rho_v i j k + rho_v i j (k-1)) * mf_v_inv i j 0
  let interp_lo := interp_omega_h.InterpolateInY i j k 0 interp_lo rho_v_avg_lo
  let edgeFluxZYNext :=
    rho_v_avg_hi * tm.Compute_h_zeta_AtEdgeCenterI i (j+1) k cellSizeInv z_nd * interp_hi
  let edgeFluxZYPrev :=
    rho_v_avg_lo * tm.Compute_h_zeta_AtEdgeCenterI i j k cellSizeInv z_nd * interp_lo
  -- z-fluxes (at cell centers)
  let centFluxZZNext' :=
    centFluxZZNext i j k Omega w interp_omega_v interp_omega_wall vert_adv_type domhi_z interp_hi
  let centFluxZZPrev' :=
    centFluxZZPrev i j k Omega w interp_omega_v interp_omega_wall vert_adv_type domhi_z interp_lo
  let mfsq := mf_m i j 0 * mf_m i j 0
  let advectionSrc := (edgeFluxZXNext - edgeFluxZXPrev) * dxInv * mfsq
                    + (edgeFluxZYNext - edgeFluxZYPrev) * dyInv * mfsq
                    + (centFluxZZNext' - centFluxZZPrev') * dzInv
  let denom := 0.5 * (detJ i j k + detJ i j (k-1))
  advectionSrc / denom

/-- The names of the vertical interpolation classes `AdvectionSrcForMomVert_T` passes as the
template argument `InterpType_V`. -/
inductive VertInterpName
  | CENTERED2
  | UPWIND3
  | CENTERED4
  | UPWIND5
  | CENTERED6
  deriving DecidableEq, Repr

/-- The constructor of the vertical interpolation class of a given name. -/
def InterpClasses.vert (cls : InterpClasses α) : VertInterpName → Array4 α → InterpType_V α
  | VertInterpName.CENTERED2 => cls.CENTERED2
  | VertInterpName.UPWIND3 => cls.UPWIND3
  | VertInterpName.CENTERED4 => cls.CENTERED4
  | VertInterpName.UPWIND5 => cls.UPWIND5
  | VertInterpName.CENTERED6 => cls.CENTERED6

/-- The three momentum tendency arrays the wrappers write, together with a record of the
`AdvectionSrcForMomWrapper_T` instantiations that have run (latest first). -/
structure MomTendencies (α : Type) where
  rho_u_rhs : Array4 α
  rho_v_rhs : Array4 α
  rho_w_rhs : Array4 α
  wrappersRun : List VertInterpName

/-- `AdvectionSrcForMomWrapper_T<InterpType_H, InterpType_V, UPWINDALL>`: builds the
interpolation objects from `u`, `v`, `w` and writes minus the kernel value to every index
of `bxx`, `bxy`, `bxz` (the three bodies of `amrex::ParallelFor`). -/
def AdvectionSrcForMomWrapper_T (tm : TerrainMetrics α) (cls : InterpClasses α)
    (mkInterpType_H : Array4 α → InterpType_H α) (nameInterpType_V : VertInterpName)
    (bxx bxy bxz : Box) (rhs : MomTendencies α)
    (rho_u rho_v Omega u v w z_nd detJ : Array4 α)
    (cellSizeInv : GpuArray3 α) (mf_m mf_u_inv mf_v_inv : Array4 α)
    (vert_adv_type : AdvType) (domhi_z : Int) : MomTendencies α :=
  let interp_u_h := mkInterpType_H u
  let interp_u_v := cls.vert nameInterpType_V u
  let interp_v_h := mkInterpType_H v
  let interp_v_v := cls.vert nameInterpType_V v
  let interp_w_h := mkInterpType_H w
  let interp_w_v := cls.vert nameInterpType_V w
  let interp_w_wall := cls.UPWINDALL w
  { rho_u_rhs := fun i j k =>
      if bxx.contains i j k then
        -AdvectionSrcForXMom_T tm i j k rho_u rho_v Omega z_nd detJ
            interp_u_h interp_u_v cellSizeInv mf_u_inv mf_v_inv
      else rhs.rho_u_rhs i j k
    rho_v_rhs := fun i j k =>
      if bxy.contains i j k then
        -AdvectionSrcForYMom_T tm i j k rho_u rho_v Omega z_nd detJ
            interp_v_h interp_v_v cellSizeInv mf_u_inv mf_v_inv
      else rhs.rho_v_rhs i j k
    rho_w_rhs := fun i j k =>
      if bxz.contains i j k then
        -AdvectionSrcForZMom_T tm i j k rho_u rho_v Omega w z_nd detJ
            interp_w_h interp_w_v interp_w_wall
            cellSizeInv mf_m mf_u_inv mf_v_inv vert_adv_type domhi_z
      else rhs.rho_w_rhs i j k
    wrappersRun := nameInterpType_V :: rhs.wrappersRun }

/-- What a call of `AdvectionSrcForMomVert_T` leaves behind: the tendency arrays, and the
message of `AMREX_ASSERT_WITH_MESSAGE(false, ...)` if that assertion failed. -/
structure MomVertResult (α : Type) where
  rhs : MomTendencies α
  assertion : Option String

/-- `AdvectionSrcForMomVert_T<InterpType_H>`: selects the vertical interpolation class from
`vert_adv_type`.  `AMREX_ASSERT_WITH_MESSAGE` is empty unless assertions are compiled in
(`amrex_assertions`). -/
def AdvectionSrcForMomVert_T (amrex_assertions : Bool) (tm : TerrainMetrics α)
    (cls : InterpClasses α)
    (mkInterpType_H : Array4 α → InterpType_H α)
    (bxx bxy bxz : Box) (rhs : MomTendencies α)
    (rho_u rho_v Omega u v w z_nd detJ : Array4 α)
    (cellSizeInv : GpuArray3 α) (mf_m mf_u_inv mf_v_inv : Array4 α)
    (vert_adv_type : AdvType) (domhi_z : Int) : MomVertResult α :=
  if vert_adv_type = AdvType.Centered_2nd then
    { rhs := AdvectionSrcForMomWrapper_T tm cls mkInterpType_H VertInterpName.CENTERED2
               bxx bxy bxz rhs rho_u rho_v Omega u v w z_nd detJ
               cellSizeInv mf_m mf_u_inv mf_v_inv vert_adv_type domhi_z
      assertion := none }
  else if vert_adv_type = AdvType.Upwind_3rd then
    { rhs := AdvectionSrcForMomWrapper_T tm cls mkInterpType_H VertInterpName.UPWIND3
               bxx bxy bxz rhs rho_u rho_v Omega u v w z_nd detJ
               cellSizeInv mf_m mf_u_inv mf_v_inv vert_adv_type domhi_z
      assertion := none }
  else if vert_adv_type = AdvType.Centered_4th then
    { rhs := AdvectionSrcForMomWrapper_T tm cls mkInterpType_H VertInterpName.CENTERED4
               bxx bxy bxz rhs rho_u rho_v Omega u v w z_nd detJ
               cellSizeInv mf_m mf_u_inv mf_v_inv vert_adv_type domhi_z
      assertion := none }
  else if vert_adv_type = AdvType.Upwind_5th then
    { rhs := AdvectionSrcForMomWrapper_T tm cls mkInterpType_H VertInterpName.UPWIND5
               bxx bxy bxz rhs rho_u rho_v Omega u v w z_nd detJ
               cellSizeInv mf_m mf_u_inv mf_v_inv vert_adv_type domhi_z
      assertion := none }
  else if vert_adv_type = AdvType.Centered_6th then
    { rhs := AdvectionSrcForMomWrapper_T tm cls mkInterpType_H VertInterpName.CENTERED6
               bxx bxy bxz rhs rho_u rho_v Omega u v w z_nd detJ
               cellSizeInv mf_m mf_u_inv mf_v_inv vert_adv_type domhi_z
      assertion := none }
  else
    { rhs := rhs
      assertion := if amrex_assertions then some "Unknown advection scheme!" else none }

/-- The nominal order of accuracy named by a scheme tag (`Centered_2nd` is 2, ...,
`Centered_6th` is 6); the WENO tags and `Unknown`, which no vertical momentum stencil is
instantiated for, get 0. -/
def AdvType.order : AdvType → Nat
  | AdvType.Centered_2nd => 2
  | AdvType.Upwind_3rd => 3
  | AdvType.Centered_4th => 4
  | AdvType.Upwind_5th => 5
  | AdvType.Centered_6th => 6
  | _ => 0

/-- The nominal order of the interpolation a z-flux branch applies when `vert_adv_type` is
requested: none (0) for the prescribed value, the order of the tag handed to the wall
interpolator, and the requested order for `interp_omega_v`, which
`AdvectionSrcForMomVert_T` instantiates from `vert_adv_type`. -/
def ZStencil.order (vert_adv_type : AdvType) : ZStencil → Nat
  | ZStencil.prescribed => 0
  | ZStencil.wall adv_type => adv_type.order
  | ZStencil.full => vert_adv_type.order

/-- The order the comment in `AdvectionSrcForZMom_T` gives for the upper z-flux:
`l_spatial_order_hi = min(min(vert_spatial_order, 2*(domhi_z+1-k)), 2*(k+1))`. -/
def l_spatial_order_hi (vert_spatial_order : Int) (k domhi_z : Int) : Int :=
  min (min vert_spatial_order (2 * (domhi_z + 1 - k))) (2 * (k + 1))

/-- The order the comment in `AdvectionSrcForZMom_T` gives for the lower z-flux:
`l_spatial_order_lo = min(min(vert_spatial_order, 2*(domhi_z+2-k)), 2*k)`. -/
def l_spatial_order_lo (vert_spatial_order : Int) (k domhi_z : Int) : Int :=
  min (min vert_spatial_order (2 * (domhi_z + 2 - k))) (2 * k)

/-- The Cartesian flux divergence for the x-momentum, written from the specification:
`[(Fx_next - Fx_prev)*dxInv + (Fy_next - Fy_prev)*dyInv]*mfsq + (Fz_next - Fz_prev)*dzInv`,
each `F` an averaged momentum times the interpolated velocity, with no terrain factor. -/
def CartesianFluxDivergenceXMom (i j k : Int) (rho_u rho_v Omega : Array4 α)
    (interp_u_h : InterpType_H α) (interp_u_v : InterpType_V α)
    (cellSizeInv : GpuArray3 α) (mf_u_inv mf_v_inv : Array4 α) : α :=
  let rho_u_avg_hi := 0.5 * (rho_u (i+1) j k * mf_u_inv (i+1) j 0 + rho_u i j k * mf_u_inv i j 0)
  let rho_u_avg_lo := 0.5 * (rho_u (i-1) j k * mf_u_inv (i-1) j 0 + rho_u i j k * mf_u_inv i j 0)
  let rho_v_avg_hi :=
    0.5 * (rho_v i (j+1) k * mf_v_inv i (j+1) 0 + rho_v (i-1) (j+1) k * mf_v_inv (i-1) (j+1) 0)
  let rho_v_avg_lo :=
    0.5 * (rho_v i j k * mf_v_inv i j 0 + rho_v (i-1) j k * mf_v_inv (i-1) j 0)
  let Omega_avg_hi := 0.5 * (Omega i j (k+1) + Omega (i-1) j (k+1))
  let Omega_avg_lo := 0.5 * (Omega i j k + Omega (i-1) j k)
  let u_x_hi := interp_u_h.InterpolateInX (i+1) j k 0 0 rho_u_avg_hi
  let u_x_lo := interp_u_h.InterpolateInX i j k 0 0 rho_u_avg_lo
  let u_y_hi := interp_u_h.InterpolateInY i (j+1) k 0 u_x_hi rho_v_avg_hi
  let u_y_lo := interp_u_h.InterpolateInY i j k 0 u_x_lo rho_v_avg_lo
  let u_z_hi := interp_u_v.InterpolateInZ i j (k+1) 0 u_y_hi Omega_avg_hi
  let u_z_lo := interp_u_v.InterpolateInZ i j k 0 u_y_lo Omega_avg_lo
  let mfsq := 1 / (mf_u_inv i j 0 * mf_u_inv i j 0)
  ((rho_u_avg_hi * u_x_hi - rho_u_avg_lo * u_x_lo) * cellSizeInv 0
    + (rho_v_avg_hi * u_y_hi - rho_v_avg_lo * u_y_lo) * cellSizeInv 1) * mfsq
    + (Omega_avg_hi * u_z_hi - Omega_avg_lo * u_z_lo) * cellSizeInv 2

/-- The Cartesian flux divergence for the y-momentum, written from the specification. -/
def CartesianFluxDivergenceYMom (i j k : Int) (rho_u rho_v Omega : Array4 α)
    (interp_v_h : InterpType_H α) (interp_v_v : InterpType_V α)
    (cellSizeInv : GpuArray3 α) (mf_u_inv mf_v_inv : Array4 α) : α :=
  let rho_u_avg_hi :=
    0.5 * (rho_u (i+1) j k * mf_u_inv (i+1) j 0 + rho_u (i+1) (j-1) k * mf_u_inv (i+1) (j-1) 0)
  let rho_u_avg_lo :=
    0.5 * (rho_u i j k * mf_u_inv i j 0 + rho_u i (j-1) k * mf_u_inv i (j-1) 0)
  let rho_v_avg_hi := 0.5 * (rho_v i j k * mf_v_inv i j 0 + rho_v i (j+1) k * mf_v_inv i (j+1) 0)
  let rho_v_avg_lo := 0.5 * (rho_v i j k * mf_v_inv i j 0 + rho_v i (j-1) k * mf_v_inv i (j-1) 0)
  let Omega_avg_hi := 0.5 * (Omega i j (k+1) + Omega i (j-1) (k+1))
  let Omega_avg_lo := 0.5 * (Omega i j k + Omega i (j-1) k)
  let v_x_hi := interp_v_h.InterpolateInX (i+1) j k 0 0 rho_u_avg_hi
  let v_x_lo := interp_v_h.InterpolateInX i j k 0 0 rho_u_avg_lo
  let v_y_hi := interp_v_h.InterpolateInY i (j+1) k 0 v_x_hi rho_v_avg_hi
  let v_y_lo := interp_v_h.InterpolateInY i j k 0 v_x_lo rho_v_avg_lo
  let v_z_hi := interp_v_v.InterpolateInZ i j (k+1) 0 v_y_hi Omega_avg_hi
  let v_z_lo := interp_v_v.InterpolateInZ i j k 0 v_y_lo Omega_avg_lo
  let mfsq := 1 / (mf_v_inv i j 0 * mf_v_inv i j 0)
  ((rho_u_avg_hi * v_x_hi - rho_u_avg_lo * v_x_lo) * cellSizeInv 0
    + (rho_v_avg_hi * v_y_hi - rho_v_avg_lo * v_y_lo) * cellSizeInv 1) * mfsq
    + (Omega_avg_hi * v_z_hi - Omega_avg_lo * v_z_lo) * cellSizeInv 2

/-- The Cartesian flux divergence for the z-momentum, written from the specification; the
vertical fluxes are the kernel's `centFluxZZNext` and `centFluxZZPrev`, which carry no
terrain factor. -/
def CartesianFluxDivergenceZMom (i j k : Int) (rho_u rho_v Omega w : Array4 α)
    (interp_omega_h : InterpType_H α) (interp_omega_v : InterpType_V α)
    (interp_omega_wall : WallInterpType α)
    (cellSizeInv : GpuArray3 α) (mf_m mf_u_inv mf_v_inv : Array4 α)
    (vert_adv_type : AdvType) (domhi_z : Int) : α :=
  let rho_u_avg_hi := 0.5 * (rho_u (i+1) j k + rho_u (i+1) j (k-1)) * mf_u_inv (i+1) j 0
  let rho_u_avg_lo := 0.5 * (rho_u i j k + rho_u i j (k-1)) * mf_u_inv i j 0
  let rho_v_avg_hi := 0.5 * (rho_v i (j+1) k + rho_v i (j+1) (k-1)) * mf_v_inv i (j+1) 0
  let rho_v_avg_lo := 0.5 * (rho_v i j k + rho_v i j (k-1)) * mf_v_inv i j 0
  let w_x_hi := interp_omega_h.InterpolateInX (i+1) j k 0 0 rho_u_avg_hi
  let w_x_lo := interp_omega_h.InterpolateInX i j k 0 0 rho_u_avg_lo
  let w_y_hi := interp_omega_h.InterpolateInY i (j+1) k 0 w_x_hi rho_v_avg_hi
  let w_y_lo := interp_omega_h.InterpolateInY i j k 0 w_x_lo rho_v_avg_lo
  let Fz_next :=
    centFluxZZNext i j k Omega w interp_omega_v interp_omega_wall vert_adv_type domhi_z w_y_hi
  let Fz_prev :=
    centFluxZZPrev i j k Omega w interp_omega_v interp_omega_wall vert_adv_type domhi_z w_y_lo
  let mfsq := mf_m i j 0 * mf_m i j 0
  ((rho_u_avg_hi * w_x_hi - rho_u_avg_lo * w_x_lo) * cellSizeInv 0
    + (rho_v_avg_hi * w_y_hi - rho_v_avg_lo * w_y_lo) * cellSizeInv 1) * mfsq
    + (Fz_next - Fz_prev) * cellSizeInv 2

/-! ### Sample inputs over `ℚ`, used to evaluate the kernels -/

/-- Terrain metrics of flat terrain: every `h_zeta` factor is 1. -/
def flatMetrics : TerrainMetrics ℚ where
  Compute_h_zeta_AtCellCenter := fun _ _ _ _ _ => 1
  Compute_h_zeta_AtEdgeCenterK := fun _ _ _ _ _ => 1
  Compute_h_zeta_AtEdgeCenterJ := fun _ _ _ _ _ => 1
  Compute_h_zeta_AtEdgeCenterI := fun _ _ _ _ _ => 1

/-- A field that varies with each index. -/
def sampleField : Array4 ℚ := fun i j k => (i : ℚ) + 2 * (j : ℚ) + 3 * (k : ℚ) + 1

/-- The field that is 1 everywhere (`detJ` of flat terrain, unit map factors). -/
def unitField : Array4 ℚ := fun _ _ _ => 1

/-- The field that is 0 everywhere (a fluid at rest). -/
def zeroField : Array4 ℚ := fun _ _ _ => 0

/-- Second-order centred horizontal interpolation of an array, as a sample `InterpType_H`. -/
def sampleInterpH (q : Array4 ℚ) : InterpType_H ℚ where
  InterpolateInX := fun i j k _ _ _ => 0.5 * (q i j k + q (i-1) j k)
  InterpolateInY := fun i j k _ _ _ => 0.5 * (q i j k + q i (j-1) k)

/-- Second-order centred vertical interpolation of an array, as a sample `InterpType_V`. -/
def sampleInterpV (q : Array4 ℚ) : InterpType_V ℚ where
  InterpolateInZ := fun i j k _ _ _ => 0.5 * (q i j k + q i j (k-1))

/-- Second-order centred vertical interpolation whatever the tag, as a sample wall
interpolator. -/
def sampleInterpWall (q : Array4 ℚ) : WallInterpType ℚ where
  InterpolateInZ := fun i j k _ _ _ _ => 0.5 * (q i j k + q i j (k-1))

/-- Sample interpolation classes: all of them the second-order centred one. -/
def sampleClasses : InterpClasses ℚ where
  CENTERED2 := sampleInterpV
  UPWIND3 := sampleInterpV
  CENTERED4 := sampleInterpV
  UPWIND5 := sampleInterpV
  CENTERED6 := sampleInterpV
  UPWINDALL := sampleInterpWall

/-- Sample inverse cell sizes `1/dx = 1`, `1/dy = 2`, `1/dz = 4`. -/
def sampleCellSizeInv : GpuArray3 ℚ := fun d => if d = 0 then 1 else if d = 1 then 2 else 4

/-- A box of two by two by two faces. -/
def sampleBox : Box := ⟨(0, 0, 1), (1, 1, 2)⟩

/-- Tendency arrays holding 7 everywhere, with no wrapper run yet. -/
def sampleTendencies : MomTendencies ℚ := ⟨fun _ _ _ => 7, fun _ _ _ => 7, fun _ _ _ => 7, []⟩

end Advection

/-! ## `MOSTStress.H`

`ERF_Constants.H` and `<cmath>` are not part of the embedded sources: the constants
`KAPPA`, `CONST_GRAV`, `PIoTwo` and the functions `std::log`, `std::exp`, `std::sqrt`,
`std::atan` are parameters.  The arrays handed to `iterate_flux` are distinct objects. -/

section MOST

variable {α : Type} [LinearOrderedField α]

/-- The functions of `<cmath>` that `MOSTStress.H` calls. -/
structure CMath (α : Type) where
  log : α → α
  exp : α → α
  sqrt : α → α
  atan : α → α

/-- The constants of `ERF_Constants.H` that `MOSTStress.H` uses. -/
structure ERF_Constants (α : Type) where
  KAPPA : α
  CONST_GRAV : α
  PIoTwo : α

/-- The array with `a(i,j,k)` overwritten by `x`. -/
def Array4.set (a : Array4 α) (i j k : Int) (x : α) : Array4 α :=
  fun i2 j2 k2 => if i2 = i ∧ j2 = j ∧ k2 = k then x else a i2 j2 k2

/-- `struct most_data`: plain old data relevant to MOST boundary conditions. -/
structure most_data (α : Type) where
  zref : α
  z0_const : α
  kappa : α
  gravity : α
  surf_temp_flux : α
  Cnk_a : α
  Cnk_b1 : α
  Cnk_b2 : α
  Cnk_d : α
  Cnk_b : α

/-- The default member initialisers of `most_data`; `Cnk_b` has none, its indeterminate
value is the argument `Cnk_b`. -/
def most_data.default (K : ERF_Constants α) (Cnk_b : α) : most_data α where
  zref := 10.0
  z0_const := 0.1
  kappa := K.KAPPA
  gravity := K.CONST_GRAV
  surf_temp_flux := 0.0
  Cnk_a := 0.0185
  Cnk_b1 := 1.0 / 30.0
  Cnk_b2 := 1260.0
  Cnk_d := 30.0
  Cnk_b := Cnk_b

/-- `similarity_funs::calc_psi_m`, with `beta_m = 5.0` and `gamma_m = 16.0`. -/
def similarity_funs.calc_psi_m (c : CMath α) (K : ERF_Constants α) (zeta : α) : α :=
  let beta_m : α := 5.0
  let gamma_m : α := 16.0
  if zeta > 0 then
    -beta_m * zeta
  else
    let x := c.sqrt (c.sqrt (1.0 - gamma_m * zeta))
    2.0 * c.log (0.5 * (1.0 + x)) + c.log (0.5 * (1.0 + x * x)) - 2.0 * c.atan x + K.PIoTwo

/-- `similarity_funs::calc_psi_h`, with `beta_h = 5.0` and `gamma_h = 16.0`. -/
def similarity_funs.calc_psi_h (c : CMath α) (zeta : α) : α :=
  let beta_h : α := 5.0
  let gamma_h : α := 16.0
  if zeta > 0 then
    -beta_h * zeta
  else
    let x := c.sqrt (1.0 - gamma_h * zeta)
    2.0 * c.log (0.5 * (1.0 + x))

/-- The member `tol = 1.0e-5` of every iterative flux struct. -/
def tol : α := 1.0e-5

/-- The arrays an `iterate_flux` receives. -/
structure MostArrays (α : Type) where
  z0_arr : Array4 α
  umm_arr : Array4 α
  tm_arr : Array4 α
  u_star_arr : Array4 α
  t_star_arr : Array4 α
  t_surf_arr : Array4 α
  olen_arr : Array4 α

/-- The variables of the `do ... while` loop of an `iterate_flux`: the counter `iter`, the
locals `ustar`, `z0`, `tflux`, `zeta`, `psi_m`, `psi_h`, `Olen` (a struct that does not
declare one of them never reads it), and `u_star`, the current value of
`u_star_arr(i,j,k)`. -/
structure IterState (α : Type) where
  iter : Int
  ustar : α
  z0 : α
  tflux : α
  zeta : α
  psi_m : α
  psi_h : α
  Olen : α
  u_star : α

/-- The state at the `do`: `iter = 0`, every local `0.0`, and `u_star_arr(i,j,k)` holding
the neutral log-law value `kappa * umm / log(zref / z0_arr(i,j,k))`. -/
def IterState.init (c : CMath α) (mdata : most_data α) (i j k : Int) (a : MostArrays α) :
    IterState α where
  iter := 0
  ustar := 0.0
  z0 := 0.0
  tflux := 0.0
  zeta := 0.0
  psi_m := 0.0
  psi_h := 0.0
  Olen := 0.0
  u_star := mdata.kappa * a.umm_arr i j k / c.log (mdata.zref / a.z0_arr i j k)

/-- One pass of a loop body followed by `++iter`. -/
def IterState.pass (body : IterState α → IterState α) (s : IterState α) : IterState α :=
  { body s with iter := s.iter + 1 }

/-- The loop `do { body; ++iter; } while ((std::abs(u_star_arr(i,j,k) - ustar) > tol) &&
iter <= max_iters);` started in state `s`; the result is the state at loop exit. -/
def doWhile (max_iters : Int) (body : IterState α → IterState α) (s : IterState α) :
    IterState α :=
  if _h : |(s.pass body).u_star - (s.pass body).ustar| > tol ∧ (s.pass body).iter ≤ max_iters
  then doWhile max_iters body (s.pass body)
  else s.pass body
termination_by (max_iters - s.iter).toNat
decreasing_by
  have h2 : s.iter + 1 ≤ max_iters := _h.2
  have h3 : (s.pass body).iter = s.iter + 1 := rfl
  rw [h3]
  omega

/-! ### Constructors: the `mdata` member each struct builds -/

/-- The `mdata` of `adiabatic(zref, flux)`, `surface_flux(zref, flux)` and
`surface_temp(zref, flux)`. -/
def mdata_const (K : ERF_Constants α) (Cnk_b : α) (zref flux : α) : most_data α :=
  { most_data.default K Cnk_b with zref := zref, surf_temp_flux := flux }

/-- The `mdata` of `adiabatic_charnock(zref, flux, cnk_a)`, `surface_flux_charnock(...)` and
`surface_temp_charnock(...)`. -/
def mdata_charnock (K : ERF_Constants α) (Cnk_b : α) (zref flux cnk_a : α) : most_data α :=
  { most_data.default K Cnk_b with zref := zref, surf_temp_flux := flux, Cnk_a := cnk_a }

/-- The `mdata` of `adiabatic_mod_charnock(zref, flux, depth)`,
`surface_flux_mod_charnock(...)` and `surface_temp_mod_charnock(...)`:
`Cnk_b = Cnk_b1 * log(Cnk_b2 / Cnk_d)` with the new `Cnk_d = depth`. -/
def mdata_mod_charnock (c : CMath α) (K : ERF_Constants α) (zref flux depth : α) :
    most_data α :=
  { most_data.default K 0 with
    zref := zref
    surf_temp_flux := flux
    Cnk_d := depth
    Cnk_b := (most_data.default K 0).Cnk_b1 * c.log ((most_data.default K 0).Cnk_b2 / depth) }

/-! ### Adiabatic with constant roughness -/

/-- `adiabatic::iterate_flux`. -/
def adiabatic.iterate_flux (c : CMath α) (mdata : most_data α) (i j k : Int)
    (_max_iters : Int) (a : MostArrays α) : MostArrays α :=
  { a with
    u_star_arr :=
      a.u_star_arr.set i j k (mdata.kappa * a.umm_arr i j k / c.log (mdata.zref / a.z0_arr i j k))
    t_star_arr := a.t_star_arr.set i j k 0.0
    olen_arr := a.olen_arr.set i j k 1.0e16 }

/-! ### Adiabatic with charnock roughness -/

/-- The loop body of `adiabatic_charnock::iterate_flux` (without `++iter`). -/
def adiabatic_charnock.body (c : CMath α) (mdata : most_data α) (i j k : Int)
    (a : MostArrays α) (s : IterState α) : IterState α :=
  let ustar := s.u_star
  let z0 := (mdata.Cnk_a / mdata.gravity) * ustar * ustar
  { s with
    ustar := ustar
    z0 := z0
    u_star := mdata.kappa * a.umm_arr i j k / c.log (mdata.zref / z0) }

/-- The state in which the loop of `adiabatic_charnock::iterate_flux` exits. -/
def adiabatic_charnock.loop (c : CMath α) (mdata : most_data α) (i j k : Int)
    (max_iters : Int) (a : MostArrays α) : IterState α :=
  doWhile max_iters (adiabatic_charnock.body c mdata i j k a) (IterState.init c mdata i j k a)

/-- `adiabatic_charnock::iterate_flux`. -/
def adiabatic_charnock.iterate_flux (c : CMath α) (mdata : most_data α) (i j k : Int)
    (max_iters : Int) (a : MostArrays α) : MostArrays α :=
  let r := adiabatic_charnock.loop c mdata i j k max_iters a
  { a with
    u_star_arr := a.u_star_arr.set i j k r.u_star
    t_star_arr := a.t_star_arr.set i j k 0.0
    olen_arr := a.olen_arr.set i j k 1.0e16
    z0_arr := a.z0_arr.set i j k r.z0 }

/-! ### Adiabatic with modified charnock roughness -/

/-- The loop body of `adiabatic_mod_charnock::iterate_flux` (without `++iter`). -/
def adiabatic_mod_charnock.body (c : CMath α) (mdata : most_data α) (i j k : Int)
    (a : MostArrays α) (s : IterState α) : IterState α :=
  let ustar := s.u_star
  let z0 := c.exp ((2.7 * ustar - 1.8 / mdata.Cnk_b) / (ustar + 0.17 / mdata.Cnk_b))
  { s with
    ustar := ustar
    z0 := z0
    u_star := mdata.kappa * a.umm_arr i j k / c.log (mdata.zref / z0) }

/-- The state in which the loop of `adiabatic_mod_charnock::iterate_flux` exits. -/
def adiabatic_mod_charnock.loop (c : CMath α) (mdata : most_data α) (i j k : Int)
    (max_iters : Int) (a : MostArrays α) : IterState α :=
  doWhile max_iters (adiabatic_mod_charnock.body c mdata i j k a)
    (IterState.init c mdata i j k a)

/-- `adiabatic_mod_charnock::iterate_flux`. -/
def adiabatic_mod_charnock.iterate_flux (c : CMath α) (mdata : most_data α) (i j k : Int)
    (max_iters : Int) (a : MostArrays α) : MostArrays α :=
  let r := adiabatic_mod_charnock.loop c mdata i j k max_iters a
  { a with
    u_star_arr := a.u_star_arr.set i j k r.u_star
    t_star_arr := a.t_star_arr.set i j k 0.0
    olen_arr := a.olen_arr.set i j k 1.0e16
    z0_arr := a.z0_arr.set i j k r.z0 }

/-! ### Surface flux with constant roughness -/

/-- The loop body of `surface_flux::iterate_flux` (without `++iter`). -/
def surface_flux.body (c : CMath α) (K : ERF_Constants α) (mdata : most_data α) (i j k : Int)
    (a : MostArrays α) (s : IterState α) : IterState α :=
  let ustar := s.u_star
  let Olen := -ustar * ustar * ustar * a.tm_arr i j k /
              (mdata.kappa * mdata.gravity * mdata.surf_temp_flux)
  let zeta := mdata.zref / Olen
  let psi_m := similarity_funs.calc_psi_m c K zeta
  let psi_h := similarity_funs.calc_psi_h c zeta
  { s with
    ustar := ustar
    Olen := Olen
    zeta := zeta
    psi_m := psi_m
    psi_h := psi_h
    u_star := mdata.kappa * a.umm_arr i j k / (c.log (mdata.zref / a.z0_arr i j k) - psi_m) }

/-- The state in which the loop of `surface_flux::iterate_flux` exits. -/
def surface_flux.loop (c : CMath α) (K : ERF_Constants α) (mdata : most_data α) (i j k : Int)
    (max_iters : Int) (a : MostArrays α) : IterState α :=
  doWhile max_iters (surface_flux.body c K mdata i j k a) (IterState.init c mdata i j k a)

/-- `surface_flux::iterate_flux`. -/
def surface_flux.iterate_flux (c : CMath α) (K : ERF_Constants α) (mdata : most_data α)
    (i j k : Int) (max_iters : Int) (a : MostArrays α) : MostArrays α :=
  let r := surface_flux.loop c K mdata i j k max_iters a
  { a with
    u_star_arr := a.u_star_arr.set i j k r.u_star
    t_surf_arr := a.t_surf_arr.set i j k
      (mdata.surf_temp_flux * (c.log (mdata.zref / a.z0_arr i j k) - r.psi_h) /
        (r.u_star * mdata.kappa) + a.tm_arr i j k)
    t_star_arr := a.t_star_arr.set i j k (-mdata.surf_temp_flux / r.u_star)
    olen_arr := a.olen_arr.set i j k r.Olen }

/-! ### Surface flux with charnock roughness -/

/-- The loop body of `surface_flux_charnock::iterate_flux` (without `++iter`). -/
def surface_flux_charnock.body (c : CMath α) (K : ERF_Constants α) (mdata : most_data α)
    (i j k : Int) (a : MostArrays α) (s : IterState α) : IterState α :=
  let ustar := s.u_star
  let z0 := (mdata.Cnk_a / mdata.gravity) * ustar * ustar
  let Olen := -ustar * ustar * ustar * a.tm_arr i j k /
              (mdata.kappa * mdata.gravity * mdata.surf_temp_flux)
  let zeta := mdata.zref / Olen
  let psi_m := similarity_funs.calc_psi_m c K zeta
  let psi_h := similarity_funs.calc_psi_h c zeta
  { s with
    ustar := ustar
    z0 := z0
    Olen := Olen
    zeta := zeta
    psi_m := psi_m
    psi_h := psi_h
    u_star := mdata.kappa * a.umm_arr i j k / (c.log (mdata.zref / z0) - psi_m) }

/-- The state in which the loop of `surface_flux_charnock::iterate_flux` exits. -/
def surface_flux_charnock.loop (c : CMath α) (K : ERF_Constants α) (mdata : most_data α)
    (i j k : Int) (max_iters : Int) (a : MostArrays α) : IterState α :=
  doWhile max_iters (surface_flux_charnock.body c K mdata i j k a)
    (IterState.init c mdata i j k a)

/-- `surface_flux_charnock::iterate_flux`. -/
def surface_flux_charnock.iterate_flux (c : CMath α) (K : ERF_Constants α)
    (mdata : most_data α) (i j k : Int) (max_iters : Int) (a : MostArrays α) : MostArrays α :=
  let r := surface_flux_charnock.loop c K mdata i j k max_iters a
  { a with
    u_star_arr := a.u_star_arr.set i j k r.u_star
    t_surf_arr := a.t_surf_arr.set i j k
      (mdata.surf_temp_flux * (c.log (mdata.zref / r.z0) - r.psi_h) /
        (r.u_star * mdata.kappa) + a.tm_arr i j k)
    t_star_arr := a.t_star_arr.set i j k (-mdata.surf_temp_flux / r.u_star)
    olen_arr := a.olen_arr.set i j k r.Olen
    z0_arr := a.z0_arr.set i j k r.z0 }

/-! ### Surface flux with modified charnock roughness -/

/-- The loop body of `surface_flux_mod_charnock::iterate_flux` (without `++iter`). -/
def surface_flux_mod_charnock.body (c : CMath α) (K : ERF_Constants α) (mdata : most_data α)
    (i j k : Int) (a : MostArrays α) (s : IterState α) : IterState α :=
  let ustar := s.u_star
  let z0 := c.exp ((2.7 * ustar - 1.8 / mdata.Cnk_b) / (ustar + 0.17 / mdata.Cnk_b))
  let Olen := -ustar * ustar * ustar * a.tm_arr i j k /
              (mdata.kappa * mdata.gravity * mdata.surf_temp_flux)
  let zeta := mdata.zref / Olen
  let psi_m := similarity_funs.calc_psi_m c K zeta
  let psi_h := similarity_funs.calc_psi_h c zeta
  { s with
    ustar := ustar
    z0 := z0
    Olen := Olen
    zeta := zeta
    psi_m := psi_m
    psi_h := psi_h
    u_star := mdata.kappa * a.umm_arr i j k / (c.log (mdata.zref / z0) - psi_m) }

/-- The state in which the loop of `surface_flux_mod_charnock::iterate_flux` exits. -/
def surface_flux_mod_charnock.loop (c : CMath α) (K : ERF_Constants α) (mdata : most_data α)
    (i j k : Int) (max_iters : Int) (a : MostArrays α) : IterState α :=
  doWhile max_iters (surface_flux_mod_charnock.body c K mdata i j k a)
    (IterState.init c mdata i j k a)

/-- `surface_flux_mod_charnock::iterate_flux`. -/
def surface_flux_mod_charnock.iterate_flux (c : CMath α) (K : ERF_Constants α)
    (mdata : most_data α) (i j k : Int) (max_iters : Int) (a : MostArrays α) : MostArrays α :=
  let r := surface_flux_mod_charnock.loop c K mdata i j k max_iters a
  { a with
    u_star_arr := a.u_star_arr.set i j k r.u_star
    t_surf_arr := a.t_surf_arr.set i j k
      (mdata.surf_temp_flux * (c.log (mdata.zref / r.z0) - r.psi_h) /
        (r.u_star * mdata.kappa) + a.tm_arr i j k)
    t_star_arr := a.t_star_arr.set i j k (-mdata.surf_temp_flux / r.u_star)
    olen_arr := a.olen_arr.set i j k r.Olen
    z0_arr := a.z0_arr.set i j k r.z0 }

/-! ### Surface temperature with constant roughness -/

/-- The loop body of `surface_temp::iterate_flux` (without `++iter`); `tflux` reads the
`psi_h` of the previous pass. -/
def surface_temp.body (c : CMath α) (K : ERF_Constants α) (mdata : most_data α) (i j k : Int)
    (a : MostArrays α) (s : IterState α) : IterState α :=
  let ustar := s.u_star
  let tflux := -(a.tm_arr i j k - a.t_surf_arr i j k) * ustar * mdata.kappa /
               (c.log (mdata.zref / a.z0_arr i j k) - s.psi_h)
  let Olen := -ustar * ustar * ustar * a.tm_arr i j k /
              (mdata.kappa * mdata.gravity * tflux)
  let zeta := mdata.zref / Olen
  let psi_m := similarity_funs.calc_psi_m c K zeta
  let psi_h := similarity_funs.calc_psi_h c zeta
  { s with
    ustar := ustar
    tflux := tflux
    Olen := Olen
    zeta := zeta
    psi_m := psi_m
    psi_h := psi_h
    u_star := mdata.kappa * a.umm_arr i j k / (c.log (mdata.zref / a.z0_arr i j k) - psi_m) }

/-- The state in which the loop of `surface_temp::iterate_flux` exits. -/
def surface_temp.loop (c : CMath α) (K : ERF_Constants α) (mdata : most_data α) (i j k : Int)
    (max_iters : Int) (a : MostArrays α) : IterState α :=
  doWhile max_iters (surface_temp.body c K mdata i j k a) (IterState.init c mdata i j k a)

/-- `surface_temp::iterate_flux`. -/
def surface_temp.iterate_flux (c : CMath α) (K : ERF_Constants α) (mdata : most_data α)
    (i j k : Int) (max_iters : Int) (a : MostArrays α) : MostArrays α :=
  let r := surface_temp.loop c K mdata i j k max_iters a
  { a with
    u_star_arr := a.u_star_arr.set i j k r.u_star
    t_star_arr := a.t_star_arr.set i j k
      (mdata.kappa * (a.tm_arr i j k - a.t_surf_arr i j k) /
        (c.log (mdata.zref / a.z0_arr i j k) - r.psi_h))
    olen_arr := a.olen_arr.set i j k r.Olen }

/-! ### Surface temperature with charnock roughness -/

/-- The loop body of `surface_temp_charnock::iterate_flux` (without `++iter`). -/
def surface_temp_charnock.body (c : CMath α) (K : ERF_Constants α) (mdata : most_data α)
    (i j k : Int) (a : MostArrays α) (s : IterState α) : IterState α :=
  let ustar := s.u_star
  let z0 := (mdata.Cnk_a / mdata.gravity) * ustar * ustar
  let tflux := -(a.tm_arr i j k - a.t_surf_arr i j k) * ustar * mdata.kappa /
               (c.log (mdata.zref / z0) - s.psi_h)
  let Olen := -ustar * ustar * ustar * a.tm_arr i j k /
              (mdata.kappa * mdata.gravity * tflux)
  let zeta := mdata.zref / Olen
  let psi_m := similarity_funs.calc_psi_m c K zeta
  let psi_h := similarity_funs.calc_psi_h c zeta
  { s with
    ustar := ustar
    z0 := z0
    tflux := tflux
    Olen := Olen
    zeta := zeta
    psi_m := psi_m
    psi_h := psi_h
    u_star := mdata.kappa * a.umm_arr i j k / (c.log (mdata.zref / z0) - psi_m) }

/-- The state in which the loop of `surface_temp_charnock::iterate_flux` exits. -/
def surface_temp_charnock.loop (c : CMath α) (K : ERF_Constants α) (mdata : most_data α)
    (i j k : Int) (max_iters : Int) (a : MostArrays α) : IterState α :=
  doWhile max_iters (surface_temp_charnock.body c K mdata i j k a)
    (IterState.init c mdata i j k a)

/-- `surface_temp_charnock::iterate_flux`. -/
def surface_temp_charnock.iterate_flux (c : CMath α) (K : ERF_Constants α)
    (mdata : most_data α) (i j k : Int) (max_iters : Int) (a : MostArrays α) : MostArrays α :=
  let r := surface_temp_charnock.loop c K mdata i j k max_iters a
  { a with
    u_star_arr := a.u_star_arr.set i j k r.u_star
    t_star_arr := a.t_star_arr.set i j k
      (mdata.kappa * (a.tm_arr i j k - a.t_surf_arr i j k) /
        (c.log (mdata.zref / r.z0) - r.psi_h))
    olen_arr := a.olen_arr.set i j k r.Olen
    z0_arr := a.z0_arr.set i j k r.z0 }

/-! ### Surface temperature with modified charnock roughness -/

/-- The loop body of `surface_temp_mod_charnock::iterate_flux` (without `++iter`). -/
def surface_temp_mod_charnock.body (c : CMath α) (K : ERF_Constants α) (mdata : most_data α)
    (i j k : Int) (a : MostArrays α) (s : IterState α) : IterState α :=
  let ustar := s.u_star
  let z0 := c.exp ((2.7 * ustar - 1.8 / mdata.Cnk_b) / (ustar + 0.17 / mdata.Cnk_b))
  let tflux := -(a.tm_arr i j k - a.t_surf_arr i j k) * ustar * mdata.kappa /
               (c.log (mdata.zref / z0) - s.psi_h)
  let Olen := -ustar * ustar * ustar * a.tm_arr i j k /
              (mdata.kappa * mdata.gravity * tflux)
  let zeta := mdata.zref / Olen
  let psi_m := similarity_funs.calc_psi_m c K zeta
  let psi_h := similarity_funs.calc_psi_h c zeta
  { s with
    ustar := ustar
    z0 := z0
    tflux := tflux
    Olen := Olen
    zeta := zeta
    psi_m := psi_m
    psi_h := psi_h
    u_star := mdata.kappa * a.umm_arr i j k / (c.log (mdata.zref / z0) - psi_m) }

/-- The state in which the loop of `surface_temp_mod_charnock::iterate_flux` exits. -/
def surface_temp_mod_charnock.loop (c : CMath α) (K : ERF_Constants α) (mdata : most_data α)
    (i j k : Int) (max_iters : Int) (a : MostArrays α) : IterState α :=
  doWhile max_iters (surface_temp_mod_charnock.body c K mdata i j k a)
    (IterState.init c mdata i j k a)

/-- `surface_temp_mod_charnock::iterate_flux`. -/
def surface_temp_mod_charnock.iterate_flux (c : CMath α) (K : ERF_Constants α)
    (mdata : most_data α) (i j k : Int) (max_iters : Int) (a : MostArrays α) : MostArrays α :=
  let r := surface_temp_mod_charnock.loop c K mdata i j k max_iters a
  { a with
    u_star_arr := a.u_star_arr.set i j k r.u_star
    t_star_arr := a.t_star_arr.set i j k
      (mdata.kappa * (a.tm_arr i j k - a.t_surf_arr i j k) /
        (c.log (mdata.zref / r.z0) - r.psi_h))
    olen_arr := a.olen_arr.set i j k r.Olen
    z0_arr := a.z0_arr.set i j k r.z0 }

/-! ### The iterative structs, collected -/

/-- The eight flux structs whose `iterate_flux` contains the `do ... while` loop (all but
`adiabatic`). -/
inductive IterativeFlux
  | adiabatic_charnock
  | adiabatic_mod_charnock
  | surface_flux
  | surface_flux_charnock
  | surface_flux_mod_charnock
  | surface_temp
  | surface_temp_charnock
  | surface_temp_mod_charnock
  deriving DecidableEq, Repr

/-- The loop body of the struct `V`. -/
def IterativeFlux.body (V : IterativeFlux) (c : CMath α) (K : ERF_Constants α)
    (mdata : most_data α) (i j k : Int) (a : MostArrays α) : IterState α → IterState α :=
  match V with
  | IterativeFlux.adiabatic_charnock => adiabatic_charnock.body c mdata i j k a
  | IterativeFlux.adiabatic_mod_charnock => adiabatic_mod_charnock.body c mdata i j k a
  | IterativeFlux.surface_flux => surface_flux.body c K mdata i j k a
  | IterativeFlux.surface_flux_charnock => surface_flux_charnock.body c K mdata i j k a
  | IterativeFlux.surface_flux_mod_charnock => surface_flux_mod_charnock.body c K mdata i j k a
  | IterativeFlux.surface_temp => surface_temp.body c K mdata i j k a
  | IterativeFlux.surface_temp_charnock => surface_temp_charnock.body c K mdata i j k a
  | IterativeFlux.surface_temp_mod_charnock => surface_temp_mod_charnock.body c K mdata i j k a

/-- The state in which the loop of the struct `V` exits. -/
def IterativeFlux.loop (V : IterativeFlux) (c : CMath α) (K : ERF_Constants α)
    (mdata : most_data α) (i j k : Int) (max_iters : Int) (a : MostArrays α) : IterState α :=
  match V with
  | IterativeFlux.adiabatic_charnock => adiabatic_charnock.loop c mdata i j k max_iters a
  | IterativeFlux.adiabatic_mod_charnock => adiabatic_mod_charnock.loop c mdata i j k max_iters a
  | IterativeFlux.surface_flux => surface_flux.loop c K mdata i j k max_iters a
  | IterativeFlux.surface_flux_charnock => surface_flux_charnock.loop c K mdata i j k max_iters a
  | IterativeFlux.surface_flux_mod_charnock =>
      surface_flux_mod_charnock.loop c K mdata i j k max_iters a
  | IterativeFlux.surface_temp => surface_temp.loop c K mdata i j k max_iters a
  | IterativeFlux.surface_temp_charnock => surface_temp_charnock.loop c K mdata i j k max_iters a
  | IterativeFlux.surface_temp_mod_charnock =>
      surface_temp_mod_charnock.loop c K mdata i j k max_iters a

/-- The `iterate_flux` of the struct `V`. -/
def IterativeFlux.iterate_flux (V : IterativeFlux) (c : CMath α) (K : ERF_Constants α)
    (mdata : most_data α) (i j k : Int) (max_iters : Int) (a : MostArrays α) : MostArrays α :=
  match V with
  | IterativeFlux.adiabatic_charnock =>
      adiabatic_charnock.iterate_flux c mdata i j k max_iters a
  | IterativeFlux.adiabatic_mod_charnock =>
      adiabatic_mod_charnock.iterate_flux c mdata i j k max_iters a
  | IterativeFlux.surface_flux => surface_flux.iterate_flux c K mdata i j k max_iters a
  | IterativeFlux.surface_flux_charnock =>
      surface_flux_charnock.iterate_flux c K mdata i j k max_iters a
  | IterativeFlux.surface_flux_mod_charnock =>
      surface_flux_mod_charnock.iterate_flux c K mdata i j k max_iters a
  | IterativeFlux.surface_temp => surface_temp.iterate_flux c K mdata i j k max_iters a
  | IterativeFlux.surface_temp_charnock =>
      surface_temp_charnock.iterate_flux c K mdata i j k max_iters a
  | IterativeFlux.surface_temp_mod_charnock =>
      surface_temp_mod_charnock.iterate_flux c K mdata i j k max_iters a

/-! ### Sample inputs over `ℚ` -/

/-- Stand-ins for the `<cmath>` functions on `ℚ`, used only to evaluate the definitions. -/
def sampleCMath : CMath ℚ where
  log := fun x => x - 1
  exp := fun x => 1 + x
  sqrt := fun x => (1 + x) / 2
  atan := fun x => x / (1 + x * x)

/-- The constants `KAPPA = 0.41`, `CONST_GRAV = 9.81` and a rational stand-in for
`PIoTwo`. -/
def sampleConstants : ERF_Constants ℚ := ⟨0.41, 9.81, 1.5708⟩

/-- Sample arrays: `z0 = 0.1`, `umm = 5`, `tm = 300`, and arbitrary previous contents of the
output arrays. -/
def sampleMostArrays : MostArrays α where
  z0_arr := fun _ _ _ => 0.1
  umm_arr := fun _ _ _ => 5
  tm_arr := fun _ _ _ => 300
  u_star_arr := fun i j k => (i : α) + 2 * (j : α) + 3 * (k : α) + 1
  t_star_arr := fun i j k => (i : α) + 2 * (j : α) + 3 * (k : α) + 1
  t_surf_arr := fun _ _ _ => 301
  olen_arr := fun i j k => (i : α) + 2 * (j : α) + 3 * (k : α) + 1

/-- Sample arrays with the same `z0`, `umm` as `sampleMostArrays` and other contents
elsewhere. -/
def sampleMostArrays2 : MostArrays α where
  z0_arr := fun _ _ _ => 0.1
  umm_arr := fun _ _ _ => 5
  tm_arr := fun _ _ _ => 280
  u_star_arr := fun _ _ _ => 0
  t_star_arr := fun _ _ _ => 1
  t_surf_arr := fun _ _ _ => 0
  olen_arr := fun _ _ _ => 1

end MOST

/-! ## `ABLMost.H`: the constructor's parameter parsing

`amrex::ParmParse` is not part of the embedded sources.  The table of the prefix `erf` is a
record with one optional entry per key the constructor queries (`none`: the key is absent);
`pp.query(key, var)` overwrites `var` and returns true exactly when the key is present.
`amrex::Abort` ends the run: the constructor returns `Except.error` with the message. -/

section ABLMostConstructor

variable {α : Type} [LinearOrderedField α]

/-- `ABLMost::FluxCalcType`. -/
inductive FluxCalcType
  | MOENG
  | DONELAN
  deriving DecidableEq, Repr

/-- `ABLMost::ThetaCalcType`. -/
inductive ThetaCalcType
  | ADIABATIC
  | HEAT_FLUX
  | SURFACE_TEMPERATURE
  deriving DecidableEq, Repr

/-- `ABLMost::RoughCalcType`. -/
inductive RoughCalcType
  | CONSTANT
  | CHARNOCK
  | MODIFIED_CHARNOCK
  deriving DecidableEq, Repr

/-- The keys `erf.most.*` the constructor of `ABLMost` queries. -/
structure MostParmParse (α : Type) where
  most_z0 : Option α
  most_flux_type : Option String
  most_surf_temp : Option α
  most_surf_heating_rate : Option α
  most_surf_temp_flux : Option α
  most_roughness_type : Option String
  most_charnock_constant : Option α
  most_modified_charnock_depth : Option α

/-- How the constructor fills `t_surf[lev]`: a copy of the first SST snapshot, or a value. -/
inductive TSurfFill (α : Type)
  | copy_sst
  | setVal (x : Option α)

/-- The members of `ABLMost` the constructor's parsing settles.  `z0_const` and `surf_temp`
have no default initialiser: `none` stands for their indeterminate value when the key is
absent.  `t_surf_fill` lists, per level, how `t_surf[lev]` is filled. -/
structure ABLMostMembers (α : Type) where
  flux_type : FluxCalcType
  theta_type : ThetaCalcType
  rough_type : RoughCalcType
  z0_const : Option α
  surf_temp : Option α
  surf_heating_rate : α
  surf_temp_flux : α
  cnk_a : α
  depth : α
  t_surf_fill : List (TSurfFill α)

/-- Lines 48-57 of `ABLMost.H`: `most.flux_type`, default `"moeng"`. -/
def ABLMost.parse_flux_type (pp : MostParmParse α) : Except String FluxCalcType :=
  let flux_string := pp.most_flux_type.getD "moeng"
  if flux_string = "donelan" then
    Except.ok FluxCalcType.DONELAN
  else if flux_string = "moeng" then
    Except.ok FluxCalcType.MOENG
  else
    Except.error "Undefined MOST flux type!"

/-- What lines 59-78 of `ABLMost.H` settle: `erf_st`, `theta_type`, `surf_temp`,
`surf_heating_rate` and `surf_temp_flux`. -/
structure ThetaMembers (α : Type) where
  erf_st : Bool
  theta_type : ThetaCalcType
  surf_temp : Option α
  surf_heating_rate : α
  surf_temp_flux : α

/-- Lines 59-78 of `ABLMost.H`: surface temperature or surface flux.  `epsilon` is
`std::numeric_limits<amrex::Real>::epsilon()`; the defaults of `surf_heating_rate` and
`surf_temp_flux` are 0. -/
def ABLMost.parse_theta (epsilon : α) (pp : MostParmParse α) : Except String (ThetaMembers α) :=
  let erf_st := pp.most_surf_temp.isSome
  if erf_st then
    let surf_heating_rate := pp.most_surf_heating_rate.getD 0
    let surf_heating_rate := surf_heating_rate / 3600.0
    if pp.most_surf_temp_flux.isSome then
      Except.error "Can only specify one of surf_temp_flux or surf_heating_rate"
    else
      Except.ok
        { erf_st := erf_st
          theta_type := ThetaCalcType.SURFACE_TEMPERATURE
          surf_temp := pp.most_surf_temp
          surf_heating_rate := surf_heating_rate
          surf_temp_flux := 0 }
  else
    let surf_temp_flux := pp.most_surf_temp_flux.getD 0
    if pp.most_surf_heating_rate.isSome then
      Except.error "Can only specify one of surf_temp_flux or surf_heating_rate"
    else
      Except.ok
        { erf_st := erf_st
          theta_type :=
            if |surf_temp_flux| > epsilon then ThetaCalcType.HEAT_FLUX
            else ThetaCalcType.ADIABATIC
          surf_temp := none
          surf_heating_rate := 0
          surf_temp_flux := surf_temp_flux }

/-- Lines 80-93 of `ABLMost.H`: `most.roughness_type`, default `"constant"`; the result is
`rough_type`, `cnk_a` (default 0.0185) and `depth` (default 30.0). -/
def ABLMost.parse_roughness (pp : MostParmParse α) : Except String (RoughCalcType × α × α) :=
  let rough_string := pp.most_roughness_type.getD "constant"
  if rough_string = "constant" then
    Except.ok (RoughCalcType.CONSTANT, 0.0185, 30.0)
  else if rough_string = "charnock" then
    Except.ok (RoughCalcType.CHARNOCK, pp.most_charnock_constant.getD 0.0185, 30.0)
  else if rough_string = "modified_charnock" then
    Except.ok (RoughCalcType.MODIFIED_CHARNOCK, 0.0185, pp.most_modified_charnock_depth.getD 30.0)
  else
    Except.error "Undefined MOST roughness type!"

/-- Lines 116-160 of `ABLMost.H`, as far as `theta_type` and `t_surf` go: for each level in
turn, valid SST data at `t == 0` (`sst_valid`) switches `theta_type` to
`SURFACE_TEMPERATURE` and `t_surf` becomes a copy of it; otherwise `t_surf` is set to
`surf_temp` if that was given and to 0 if not. -/
def ABLMost.fill_levels (th : ThetaMembers α) :
    List Bool → ThetaCalcType → ThetaCalcType × List (TSurfFill α)
  | [], theta_type => (theta_type, [])
  | sst_valid :: rest, theta_type =>
      if sst_valid then
        let r := ABLMost.fill_levels th rest ThetaCalcType.SURFACE_TEMPERATURE
        (r.1, TSurfFill.copy_sst :: r.2)
      else if th.erf_st then
        let r := ABLMost.fill_levels th rest theta_type
        (r.1, TSurfFill.setVal th.surf_temp :: r.2)
      else
        let r := ABLMost.fill_levels th rest theta_type
        (r.1, TSurfFill.setVal (some 0.0) :: r.2)

/-- The constructor `ABLMost::ABLMost`, for the parameter table `pp` and, per level, whether
`m_sst_lev[lev][0]` is a valid pointer. -/
def ABLMost.construct (epsilon : α) (pp : MostParmParse α) (sst_valid : List Bool) :
    Except String (ABLMostMembers α) :=
  match ABLMost.parse_flux_type pp with
  | Except.error msg => Except.error msg
  | Except.ok flux_type =>
    match ABLMost.parse_theta epsilon pp with
    | Except.error msg => Except.error msg
    | Except.ok th =>
      match ABLMost.parse_roughness pp with
      | Except.error msg => Except.error msg
      | Except.ok (rough_type, cnk_a, depth) =>
        let lev := ABLMost.fill_levels th sst_valid th.theta_type
        Except.ok
          { flux_type := flux_type
            theta_type := lev.1
            rough_type := rough_type
            z0_const := pp.most_z0
            surf_temp := th.surf_temp
            surf_heating_rate := th.surf_heating_rate
            surf_temp_flux := th.surf_temp_flux
            cnk_a := cnk_a
            depth := depth
            t_surf_fill := lev.2 }

/-- A parameter table with no `most.*` key. -/
def emptyMostParmParse : MostParmParse α :=
  ⟨none, none, none, none, none, none, none, none⟩

end ABLMostConstructor

/-! ## `DataStruct.H`: `SolverChoice::init_params`

The table of the prefix `erf` is again a record of optional entries.  `AdvStruct.H`,
`DiffStruct.H`, `SpongeStruct.H` and `TurbStruct.H` are not part of the embedded sources:
the four `init_params` calls on the sub-structures are one parameter, which may abort.
`amrex::Abort` and `amrex::Error` end the run; `AMREX_ASSERT_WITH_MESSAGE` does so when
assertions are compiled in (`amrex_assertions`).  The function-local `static` strings have
their initial value (first call).  The block under `ERF_USE_POISSON_SOLVE` is not compiled. -/

section SolverChoiceParams

variable {α : Type} [LinearOrderedField α]

/-- `enum struct ABLDriverType`. -/
inductive ABLDriverType
  | None
  | PressureGradient
  | GeostrophicWind
  deriving DecidableEq, Repr

/-- `enum struct CouplingType`. -/
inductive CouplingType
  | OneWay
  | TwoWay
  deriving DecidableEq, Repr

/-- `enum struct TerrainType`. -/
inductive TerrainType
  | Static
  | Moving
  deriving DecidableEq, Repr

/-- `enum struct MoistureType`. -/
inductive MoistureType
  | Kessler
  | SAM
  | FastEddy
  | None
  deriving DecidableEq, Repr

/-- The keys `erf.*` that `SolverChoice::init_params` and `build_coriolis_forcings` read. -/
structure SolverParmParse (α : Type) where
  use_terrain : Option Bool
  grid_stretching_ratio : Option α
  zsurface : Option α
  initial_dz : Option α
  test_mapfactor : Option Bool
  moisture_model : Option String
  buoyancy_type : Option Int
  terrain_type : Option String
  use_lagged_delta_rt : Option Bool
  use_gravity : Option Bool
  c_p : Option α
  no_substepping : Option Int
  force_stage1_single_substep : Option Int
  incompressible : Option Int
  use_coriolis : Option Bool
  use_rayleigh_damping : Option Bool
  rayleigh_damp_U : Option Bool
  rayleigh_damp_V : Option Bool
  rayleigh_damp_W : Option Bool
  rayleigh_damp_T : Option Bool
  abl_driver_type : Option String
  abl_pressure_grad : Option (GpuArray3 α)
  abl_geo_forcing : Option (GpuArray3 α)
  rotational_time_period : Option α
  latitude : Option α
  abl_geo_wind : Option (GpuArray3 α)
  Ave_Plane : Option Int
  mp_clouds : Option Bool
  mp_precip : Option Bool
  use_moist_background : Option Bool
  use_NumDiff : Option Bool
  NumDiffCoeff : Option α
  coupling_type : Option String

/-- What `init_params` reads of `advChoice`, `diffChoice`, `spongeChoice` and `turbChoice`
after their own `init_params`: whether `diffChoice.molec_diff_type` is
`MolecDiffType::ConstantAlpha`, and per level whether `turbChoice[lev].les_type` is
`LESType::None`. -/
structure SubChoices where
  molec_diff_type_ConstantAlpha : Bool
  les_type_None : List Bool

/-- The members of `struct SolverChoice`. -/
structure SolverChoice (α : Type) where
  subChoices : SubChoices
  no_substepping : Int
  force_stage1_single_substep : Int
  incompressible : Int
  test_mapfactor : Bool
  use_terrain : Bool
  buoyancy_type : Int
  use_gravity : Bool
  use_coriolis : Bool
  use_rayleigh_damping : Bool
  rayleigh_damp_U : Bool
  rayleigh_damp_V : Bool
  rayleigh_damp_W : Bool
  rayleigh_damp_T : Bool
  use_lagged_delta_rt : Bool
  gravity : α
  c_p : α
  rdOcp : α
  grid_stretching_ratio : α
  zsurf : α
  dz0 : α
  coriolis_factor : α
  cosphi : α
  sinphi : α
  use_NumDiff : Bool
  NumDiffCoeff : α
  coupling_type : CouplingType
  terrain_type : TerrainType
  moisture_type : MoistureType
  abl_driver_type : ABLDriverType
  abl_pressure_grad : GpuArray3 α
  abl_geo_forcing : GpuArray3 α
  ave_plane : Int
  do_cloud : Bool
  do_precip : Bool
  use_moist_background : Bool

/-- The constants of `ERF_Constants.H` and functions of `<cmath>` that `DataStruct.H` uses. -/
structure SolverConstants (α : Type) where
  CONST_GRAV : α
  R_d : α
  Cp_d : α
  PI : α
  sin : α → α
  cos : α → α

/-- The default member initialisers of `SolverChoice`; the members without one (`gravity`,
`rdOcp`, `dz0`, the four enums, the two forcing arrays) take their value from `indet`. -/
def SolverChoice.default (C : SolverConstants α) (indet : SolverChoice α) : SolverChoice α :=
  { indet with
    no_substepping := 0
    force_stage1_single_substep := 1
    incompressible := 0
    test_mapfactor := false
    use_terrain := false
    buoyancy_type := 1
    use_gravity := false
    use_coriolis := false
    use_rayleigh_damping := false
    rayleigh_damp_U := false
    rayleigh_damp_V := false
    rayleigh_damp_W := true
    rayleigh_damp_T := false
    use_lagged_delta_rt := true
    c_p := C.Cp_d
    grid_stretching_ratio := 0
    zsurf := 0.0
    coriolis_factor := 0.0
    cosphi := 0.0
    sinphi := 0.0
    use_NumDiff := false
    NumDiffCoeff := 0
    ave_plane := 2
    do_cloud := true
    do_precip := true
    use_moist_background := false }

/-- The places where `init_params` ends the run. -/
inductive SolverAbort
  | grid_stretching_assert
  | initial_dz_missing
  | buoyancy_type
  | terrain_type
  | lagged_delta_rt
  | incompressible
  | abl_driver_type
  | NumDiffCoeff_assert
  | sub_init_params (msg : String)
  | les_molec_diff
  | coupling_type
  deriving DecidableEq, Repr

/-- The message printed at each abort (the one for a missing `initial_dz` is AMReX's). -/
def SolverAbort.message : SolverAbort → String
  | SolverAbort.grid_stretching_assert => "The grid stretching ratio must be greater than 1"
  | SolverAbort.initial_dz_missing => "ParmParse::get: initial_dz not found"
  | SolverAbort.buoyancy_type => "buoyancy_type must be 1, 2, 3 or 4"
  | SolverAbort.terrain_type => "terrain_type can be either Moving/moving or Static/static"
  | SolverAbort.lagged_delta_rt => "Can't turn off lagged_delta_rt when terrain not moving"
  | SolverAbort.incompressible =>
      "If you specify incompressible, you must specific no_substepping"
  | SolverAbort.abl_driver_type => "Don't know this abl_driver_type"
  | SolverAbort.NumDiffCoeff_assert => "Numerical diffusion coefficient must be between 0 & 1."
  | SolverAbort.sub_init_params msg => msg
  | SolverAbort.les_molec_diff => "We don't allow LES with MolecDiffType::ConstantAlpha"
  | SolverAbort.coupling_type => "Dont know this coupling_type"

/-- Lines 73-84 of `DataStruct.H`: `moisture_model`, default `"None"`. -/
def SolverChoice.parse_moisture_model (moisture_model : Option String) : MoistureType :=
  let moisture_model_string := moisture_model.getD "None"
  if moisture_model_string = "SAM" then
    MoistureType.SAM
  else if moisture_model_string = "Kessler" then
    MoistureType.Kessler
  else if moisture_model_string = "FastEddy" then
    MoistureType.FastEddy
  else
    MoistureType.None

/-- Lines 103-112 of `DataStruct.H`: `terrain_type`, default `"Static"`. -/
def SolverChoice.parse_terrain_type (terrain_type : Option String) :
    Except SolverAbort TerrainType :=
  let terrain_type_string := terrain_type.getD "Static"
  if terrain_type_string = "Moving" ∨ terrain_type_string = "moving" then
    Except.ok TerrainType.Moving
  else if terrain_type_string = "Static" ∨ terrain_type_string = "static" then
    Except.ok TerrainType.Static
  else
    Except.error SolverAbort.terrain_type

/-- Lines 156-168 of `DataStruct.H`: `abl_driver_type`, default `"None"`
(`!s.compare(t)` holds exactly when the strings are equal). -/
def SolverChoice.parse_abl_driver_type (abl_driver_type : Option String) :
    Except SolverAbort ABLDriverType :=
  let abl_driver_type_string := abl_driver_type.getD "None"
  if abl_driver_type_string = "PressureGradient" then
    Except.ok ABLDriverType.PressureGradient
  else if abl_driver_type_string = "GeostrophicWind" then
    Except.ok ABLDriverType.GeostrophicWind
  else if abl_driver_type_string = "None" then
    Except.ok ABLDriverType.None
  else
    Except.error SolverAbort.abl_driver_type

/-- Lines 222-231 of `DataStruct.H`: `coupling_type`, default `"OneWay"`. -/
def SolverChoice.parse_coupling_type (coupling_type : Option String) :
    Except SolverAbort CouplingType :=
  let coupling_type_string := coupling_type.getD "OneWay"
  if coupling_type_string = "TwoWay" then
    Except.ok CouplingType.TwoWay
  else if coupling_type_string = "OneWay" then
    Except.ok CouplingType.OneWay
  else
    Except.error SolverAbort.coupling_type

/-- Lines 47-112 of `init_params`: terrain and grid stretching, map-factor test, moisture
model, buoyancy type, terrain type. -/
def SolverChoice.init_params_upto_terrain_type (amrex_assertions : Bool)
    (pp : SolverParmParse α) (sc : SolverChoice α) : Except SolverAbort (SolverChoice α) :=
  let sc := { sc with use_terrain := pp.use_terrain.getD sc.use_terrain }
  let sc := { sc with
    grid_stretching_ratio := pp.grid_stretching_ratio.getD sc.grid_stretching_ratio }
  if sc.grid_stretching_ratio ≠ (0 : α) ∧ amrex_assertions = true ∧
      ¬(sc.grid_stretching_ratio ≥ (1 : α)) then
    Except.error SolverAbort.grid_stretching_assert
  else
    let stretched : Except SolverAbort (SolverChoice α) :=
      if sc.grid_stretching_ratio ≥ (1 : α) then
        let sc := if sc.use_terrain = false then { sc with use_terrain := true } else sc
        let sc := { sc with zsurf := pp.zsurface.getD sc.zsurf }
        match pp.initial_dz with
        | none => Except.error SolverAbort.initial_dz_missing
        | some dz0 => Except.ok { sc with dz0 := dz0 }
      else
        Except.ok sc
    match stretched with
    | Except.error e => Except.error e
    | Except.ok sc =>
      let sc := { sc with test_mapfactor := pp.test_mapfactor.getD sc.test_mapfactor }
      let sc := { sc with
        moisture_type := SolverChoice.parse_moisture_model pp.moisture_model }
      let sc := { sc with buoyancy_type := pp.buoyancy_type.getD sc.buoyancy_type }
      if sc.buoyancy_type ≠ (1 : Int) ∧ sc.buoyancy_type ≠ (2 : Int) ∧
          sc.buoyancy_type ≠ (3 : Int) ∧ sc.buoyancy_type ≠ (4 : Int) then
        Except.error SolverAbort.buoyancy_type
      else
        match SolverChoice.parse_terrain_type pp.terrain_type with
        | Except.error e => Except.error e
        | Except.ok terrain_type => Except.ok { sc with terrain_type := terrain_type }

/-- Lines 114-119 of `init_params`: the query of `use_lagged_delta_rt` and the check
`!use_lagged_delta_rt && !(terrain_type == TerrainType::Moving)`. -/
def SolverChoice.check_lagged_delta_rt (pp : SolverParmParse α) (sc : SolverChoice α) :
    Except SolverAbort (SolverChoice α) :=
  let sc := { sc with
    use_lagged_delta_rt := pp.use_lagged_delta_rt.getD sc.use_lagged_delta_rt }
  if sc.use_lagged_delta_rt = false ∧ ¬(sc.terrain_type = TerrainType.Moving) then
    Except.error SolverAbort.lagged_delta_rt
  else
    Except.ok sc

/-- `SolverChoice::build_coriolis_forcings`. -/
def SolverChoice.build_coriolis_forcings (C : SolverConstants α) (pp : SolverParmParse α)
    (sc : SolverChoice α) : SolverChoice α :=
  let rot_time_period : α := pp.rotational_time_period.getD 86400.0
  let coriolis_factor := 2.0 * 2.0 * C.PI / rot_time_period
  let latitude : α := pp.latitude.getD 90.0
  let latitude := latitude * (C.PI / 180)
  let sinphi := C.sin latitude
  let cosphi := C.cos latitude
  let sc := { sc with coriolis_factor := coriolis_factor, sinphi := sinphi, cosphi := cosphi }
  if sc.abl_driver_type = ABLDriverType.GeostrophicWind then
    let abl_geo_wind : GpuArray3 α := pp.abl_geo_wind.getD (fun _ => 0)
    { sc with
      abl_geo_forcing := fun d =>
        if d = 0 then -coriolis_factor * (abl_geo_wind 1 * sinphi - abl_geo_wind 2 * cosphi)
        else if d = 1 then coriolis_factor * abl_geo_wind 0 * sinphi
        else -coriolis_factor * abl_geo_wind 0 * cosphi }
  else
    sc

/-- Lines 213-220 of `init_params`: whether some level runs an LES model while the
molecular diffusion type is `ConstantAlpha`. -/
def SolverChoice.les_with_ConstantAlpha (sub : SubChoices) (max_level : Nat) : Bool :=
  (List.range (max_level + 1)).any fun lev =>
    !(sub.les_type_None.getD lev true) && sub.molec_diff_type_ConstantAlpha

/-- Lines 121-144 of `init_params`: gravity, `c_p`, sub-stepping and the check on
`incompressible`. -/
def SolverChoice.init_params_gravity_substepping (C : SolverConstants α)
    (pp : SolverParmParse α) (sc : SolverChoice α) : Except SolverAbort (SolverChoice α) :=
  let sc := { sc with use_gravity := pp.use_gravity.getD sc.use_gravity }
  let sc := { sc with gravity := if sc.use_gravity then C.CONST_GRAV else 0.0 }
  let sc := { sc with c_p := pp.c_p.getD sc.c_p }
  let sc := { sc with rdOcp := C.R_d / sc.c_p }
  let sc := { sc with no_substepping := pp.no_substepping.getD sc.no_substepping }
  let sc := { sc with
    force_stage1_single_substep :=
      pp.force_stage1_single_substep.getD sc.force_stage1_single_substep }
  let sc := { sc with incompressible := pp.incompressible.getD sc.incompressible }
  if sc.incompressible ≠ (0 : Int) ∧ sc.no_substepping = (0 : Int) then
    Except.error SolverAbort.incompressible
  else
    Except.ok sc

/-- Lines 146-193 of `init_params`: Coriolis and Rayleigh flags, the ABL driver and its
forcing arrays, `build_coriolis_forcings`, the averaging plane and the microphysics flags. -/
def SolverChoice.init_params_forcing (C : SolverConstants α)
    (pp : SolverParmParse α) (sc : SolverChoice α) : Except SolverAbort (SolverChoice α) :=
  let sc := { sc with use_coriolis := pp.use_coriolis.getD sc.use_coriolis }
  let sc := { sc with
    use_rayleigh_damping := pp.use_rayleigh_damping.getD sc.use_rayleigh_damping
    rayleigh_damp_U := pp.rayleigh_damp_U.getD sc.rayleigh_damp_U
    rayleigh_damp_V := pp.rayleigh_damp_V.getD sc.rayleigh_damp_V
    rayleigh_damp_W := pp.rayleigh_damp_W.getD sc.rayleigh_damp_W
    rayleigh_damp_T := pp.rayleigh_damp_T.getD sc.rayleigh_damp_T }
  match SolverChoice.parse_abl_driver_type pp.abl_driver_type with
  | Except.error e => Except.error e
  | Except.ok abl_driver_type =>
    let sc := { sc with abl_driver_type := abl_driver_type }
    let sc := { sc with abl_pressure_grad := pp.abl_pressure_grad.getD (fun _ => 0.0) }
    let sc :=
      match pp.abl_geo_forcing with
      | some abl_geo_forcing_in => { sc with abl_geo_forcing := abl_geo_forcing_in }
      | none => sc
    let sc := if sc.use_coriolis then SolverChoice.build_coriolis_forcings C pp sc else sc
    Except.ok { sc with
      ave_plane := pp.Ave_Plane.getD sc.ave_plane
      do_cloud := pp.mp_clouds.getD sc.do_cloud
      do_precip := pp.mp_precip.getD sc.do_precip
      use_moist_background := pp.use_moist_background.getD sc.use_moist_background }

/-- Lines 195-202 of `init_params`: numerical diffusion. -/
def SolverChoice.init_params_NumDiff (amrex_assertions : Bool)
    (pp : SolverParmParse α) (sc : SolverChoice α) : Except SolverAbort (SolverChoice α) :=
  let sc := { sc with use_NumDiff := pp.use_NumDiff.getD sc.use_NumDiff }
  if sc.use_NumDiff then
    let sc := { sc with NumDiffCoeff := pp.NumDiffCoeff.getD sc.NumDiffCoeff }
    if amrex_assertions = true ∧
        ¬(sc.NumDiffCoeff ≥ (0 : α) ∧ sc.NumDiffCoeff ≤ (1 : α)) then
      Except.error SolverAbort.NumDiffCoeff_assert
    else
      Except.ok { sc with NumDiffCoeff := sc.NumDiffCoeff * (2.0 : α) ^ (-6 : Int) }
  else
    Except.ok sc

/-- Lines 204-220 of `init_params`: the `init_params` of the sub-structures and the check
that no level runs an LES model with `MolecDiffType::ConstantAlpha`. -/
def SolverChoice.init_params_sub (sub_init_params : SubChoices → Nat → Except String SubChoices)
    (max_level : Nat) (sc : SolverChoice α) : Except SolverAbort (SolverChoice α) :=
  match sub_init_params sc.subChoices max_level with
  | Except.error msg => Except.error (SolverAbort.sub_init_params msg)
  | Except.ok sub =>
    if SolverChoice.les_with_ConstantAlpha sub max_level then
      Except.error SolverAbort.les_molec_diff
    else
      Except.ok { sc with subChoices := sub }

/-- Lines 222-231 of `init_params`: the coupling type. -/
def SolverChoice.init_params_coupling (pp : SolverParmParse α) (sc : SolverChoice α) :
    Except SolverAbort (SolverChoice α) :=
  match SolverChoice.parse_coupling_type pp.coupling_type with
  | Except.error e => Except.error e
  | Except.ok coupling_type => Except.ok { sc with coupling_type := coupling_type }

/-- Lines 121-231 of `init_params`: everything after the `use_lagged_delta_rt` check, block
by block. -/
def SolverChoice.init_params_after_lagged_check (amrex_assertions : Bool)
    (C : SolverConstants α)
    (sub_init_params : SubChoices → Nat → Except String SubChoices)
    (pp : SolverParmParse α) (max_level : Nat) (sc : SolverChoice α) :
    Except SolverAbort (SolverChoice α) :=
  match SolverChoice.init_params_gravity_substepping C pp sc with
  | Except.error e => Except.error e
  | Except.ok sc =>
    match SolverChoice.init_params_forcing C pp sc with
    | Except.error e => Except.error e
    | Except.ok sc =>
      match SolverChoice.init_params_NumDiff amrex_assertions pp sc with
      | Except.error e => Except.error e
      | Except.ok sc =>
        match SolverChoice.init_params_sub sub_init_params max_level sc with
        | Except.error e => Except.error e
        | Except.ok sc => SolverChoice.init_params_coupling pp sc

/-- `SolverChoice::init_params(max_level)`. -/
def SolverChoice.init_params (amrex_assertions : Bool) (C : SolverConstants α)
    (sub_init_params : SubChoices → Nat → Except String SubChoices)
    (pp : SolverParmParse α) (max_level : Nat) (sc : SolverChoice α) :
    Except SolverAbort (SolverChoice α) :=
  match SolverChoice.init_params_upto_terrain_type amrex_assertions pp sc with
  | Except.error e => Except.error e
  | Except.ok sc =>
    match SolverChoice.check_lagged_delta_rt pp sc with
    | Except.error e => Except.error e
    | Except.ok sc =>
      SolverChoice.init_params_after_lagged_check amrex_assertions C sub_init_params pp
        max_level sc

/-! ### Sample inputs -/

/-- A parameter table with no key at all. -/
def emptySolverParmParse : SolverParmParse α where
  use_terrain := none
  grid_stretching_ratio := none
  zsurface := none
  initial_dz := none
  test_mapfactor := none
  moisture_model := none
  buoyancy_type := none
  terrain_type := none
  use_lagged_delta_rt := none
  use_gravity := none
  c_p := none
  no_substepping := none
  force_stage1_single_substep := none
  incompressible := none
  use_coriolis := none
  use_rayleigh_damping := none
  rayleigh_damp_U := none
  rayleigh_damp_V := none
  rayleigh_damp_W := none
  rayleigh_damp_T := none
  abl_driver_type := none
  abl_pressure_grad := none
  abl_geo_forcing := none
  rotational_time_period := none
  latitude := none
  abl_geo_wind := none
  Ave_Plane := none
  mp_clouds := none
  mp_precip := none
  use_moist_background := none
  use_NumDiff := none
  NumDiffCoeff := none
  coupling_type := none

/-- Sample constants (`CONST_GRAV = 9.81`, `R_d = 287`, `Cp_d = 1004.5`) with rational
stand-ins for `PI`, `sin` and `cos`. -/
def sampleSolverConstants : SolverConstants ℚ where
  CONST_GRAV := 9.81
  R_d := 287
  Cp_d := 1004.5
  PI := 3.1416
  sin := fun x => x
  cos := fun x => 1 - x * x / 2

/-- A freshly constructed `SolverChoice`, its members without initialiser holding sample
values. -/
def sampleSolverChoice : SolverChoice ℚ :=
  SolverChoice.default sampleSolverConstants
    { subChoices := ⟨false, []⟩
      no_substepping := 0
      force_stage1_single_substep := 0
      incompressible := 0
      test_mapfactor := false
      use_terrain := false
      buoyancy_type := 0
      use_gravity := false
      use_coriolis := false
      use_rayleigh_damping := false
      rayleigh_damp_U := false
      rayleigh_damp_V := false
      rayleigh_damp_W := false
      rayleigh_damp_T := false
      use_lagged_delta_rt := false
      gravity := 0
      c_p := 0
      rdOcp := 0
      grid_stretching_ratio := 0
      zsurf := 0
      dz0 := 0
      coriolis_factor := 0
      cosphi := 0
      sinphi := 0
      use_NumDiff := false
      NumDiffCoeff := 0
      coupling_type := CouplingType.TwoWay
      terrain_type := TerrainType.Moving
      moisture_type := MoistureType.SAM
      abl_driver_type := ABLDriverType.GeostrophicWind
      abl_pressure_grad := fun _ => 0
      abl_geo_forcing := fun _ => 0
      ave_plane := 0
      do_cloud := false
      do_precip := false
      use_moist_background := false }

/-- Sub-structure `init_params` that succeed and leave the choices as they are. -/
def sampleSubInit : SubChoices → Nat → Except String SubChoices :=
  fun sub _ => Except.ok sub

end SolverChoiceParams

/-! ## `ABLMost.cpp`: `ABLMost::time_interp_tsurf`

`AMREX_ALWAYS_ASSERT` ends the run when its condition fails.  The snapshots
`m_sst_lev[lev]` are a list of arrays; the `MFIter` loop writes the indices of the grown
tile boxes of `t_surf[lev]`, given as a list of boxes.  `static_cast<int>` truncates toward
zero (a quotient outside the range of `int` is not modelled). -/

section TimeInterp

variable {α : Type} [LinearOrderedField α] [FloorRing α]

/-- `static_cast<int>(x)` for a real `x`: the integer part, rounding toward zero. -/
def static_cast_int (x : α) : Int :=
  if 0 ≤ x then ⌊x⌋ else ⌈x⌉

/-- The two assertions of `time_interp_tsurf`. -/
inductive TimeInterpAbort
  | alpha_range
  | n_time_range
  deriving DecidableEq, Repr

/-- The local `n_time` of `time_interp_tsurf`. -/
def ABLMost.n_time (m_start_bdy_time m_bdy_time_interval time : α) : Int :=
  let dT := m_bdy_time_interval
  let time_since_start := time - m_start_bdy_time
  static_cast_int (time_since_start / dT)

/-- The local `alpha` of `time_interp_tsurf`. -/
def ABLMost.alpha (m_start_bdy_time m_bdy_time_interval time : α) : α :=
  let dT := m_bdy_time_interval
  let time_since_start := time - m_start_bdy_time
  let n_time := ABLMost.n_time m_start_bdy_time m_bdy_time_interval time
  (time_since_start - (n_time : α) * dT) / dT

/-- `ABLMost::time_interp_tsurf` for one level: the new contents of `t_surf[lev]`, or the
assertion that failed. -/
def ABLMost.time_interp_tsurf (m_start_bdy_time m_bdy_time_interval : α)
    (m_sst_lev : List (Array4 α)) (gtbx : List Box) (t_surf : Array4 α) (time : α) :
    Except TimeInterpAbort (Array4 α) :=
  let n_time := ABLMost.n_time m_start_bdy_time m_bdy_time_interval time
  let alpha := ABLMost.alpha m_start_bdy_time m_bdy_time_interval time
  if ¬(alpha ≥ (0 : α) ∧ alpha ≤ (1.0 : α)) then
    Except.error TimeInterpAbort.alpha_range
  else
    let oma := 1.0 - alpha
    if ¬(n_time ≥ (0 : Int) ∧ n_time < (m_sst_lev.length : Int) - 1) then
      Except.error TimeInterpAbort.n_time_range
    else
      let sst_hi_arr := m_sst_lev.getD (n_time + 1).toNat (fun _ _ _ => 0)
      let sst_lo_arr := m_sst_lev.getD n_time.toNat (fun _ _ _ => 0)
      Except.ok fun i j k =>
        if gtbx.any (fun bx => bx.contains i j k) then
          oma * sst_lo_arr i j k + alpha * sst_hi_arr i j k
        else
          t_surf i j k

/-- Three sample snapshots: 280, 290 and 300 everywhere. -/
def sampleSst : List (Array4 ℚ) :=
  [fun _ _ _ => 280, fun _ _ _ => 290, fun _ _ _ => 300]

end TimeInterp

/-! ## `TI_fast_rhs_fun.H`: `fast_rhs_fun`

The routines `fast_rhs_fun` calls (`make_fast_coeffs`, `erf_fast_rhs_MT/_T/_N`, `apply_bcs`,
the terrain routines) are not part of the embedded sources.  The lambda is embedded by the
sequence of calls it makes, each with the arguments that vary between the branches;
printing is left out. -/

section FastRhs

variable {α : Type} [LinearOrderedField α]

/-- The solution vectors `fast_rhs_fun` can hand to a callee. -/
inductive SolutionArg
  | S_slow_rhs
  | S_old
  | S_stage
  | S_data
  | S_scratch
  deriving DecidableEq, Repr

/-- The terrain copies: `z_phys_nd[level]` / `detJ_cc[level]` ("old") and
`z_phys_nd_new[level]` / `detJ_cc_new[level]` ("new"). -/
inductive TerrainCopy
  | old
  | new
  deriving DecidableEq, Repr

/-- A call made by `fast_rhs_fun`.  For the three kernels, `prev` is the sixth argument (the
previous solution), and `fr_as_crse`, `fr_as_fine` are the level of the flux register or
`none` for `nullptr`. -/
inductive FastCall (α : Type)
  | init_custom_terrain (z_phys : TerrainCopy) (time : α)
  | init_terrain_grid (z_phys : TerrainCopy)
  | make_J (z_phys : TerrainCopy)
  | compute_z_t_pert (inv_dt : α)
  | make_fast_coeffs (l_use_moisture use_terrain : Bool) (gravity c_p dtau beta_s : α)
  | erf_fast_rhs_MT (fast_step nrk : Int) (prev : SolutionArg) (dtau beta_s inv_fac : α)
      (fr_as_crse fr_as_fine : Option Int) (l_use_moisture l_reflux : Bool)
  | erf_fast_rhs_T (fast_step nrk : Int) (prev : SolutionArg) (dtau beta_s inv_fac : α)
      (fr_as_crse fr_as_fine : Option Int) (l_use_moisture l_reflux : Bool)
  | erf_fast_rhs_N (fast_step nrk : Int) (prev : SolutionArg) (dtau beta_s inv_fac : α)
      (fr_as_crse fr_as_fine : Option Int) (l_use_moisture l_reflux : Bool)
  | apply_bcs (S : SolutionArg) (time : α) (ng_cons ng_vel : Int)
      (fast_only vel_and_mom_synced : Bool)

/-- Whether the call is `make_fast_coeffs`, the one callee that writes `fast_coeffs`. -/
def FastCall.is_make_fast_coeffs : FastCall α → Bool
  | FastCall.make_fast_coeffs _ _ _ _ _ _ => true
  | _ => false

/-- The `prev` argument if the call is one of the three fast RHS kernels. -/
def FastCall.kernel_prev : FastCall α → Option SolutionArg
  | FastCall.erf_fast_rhs_MT _ _ prev _ _ _ _ _ _ _ => some prev
  | FastCall.erf_fast_rhs_T _ _ prev _ _ _ _ _ _ _ => some prev
  | FastCall.erf_fast_rhs_N _ _ prev _ _ _ _ _ _ _ => some prev
  | _ => none

/-- The contents of `fast_coeffs` after a sequence of calls: each `make_fast_coeffs`
overwrites it with what that routine builds from its arguments (`build`), every other call
leaves it as it is. -/
def fast_coeffs_after {Coeffs : Type} (build : FastCall α → Coeffs) :
    Coeffs → List (FastCall α) → Coeffs
  | fast_coeffs, [] => fast_coeffs
  | fast_coeffs, call :: rest =>
      if call.is_make_fast_coeffs then fast_coeffs_after build (build call) rest
      else fast_coeffs_after build fast_coeffs rest

/-- The lambda `fast_rhs_fun`, captured variables (`solverChoice`, `level`,
`finest_level`) first: the calls it makes, in order. -/
def fast_rhs_fun (solverChoice : SolverChoice α) (level finest_level : Int)
    (fast_step nrk : Int) (dtau inv_fac old_substep_time new_substep_time : α) :
    List (FastCall α) :=
  let l_use_moisture : Bool := decide (solverChoice.moisture_type ≠ MoistureType.None)
  let beta_s : α := 0.1
  let l_reflux : Bool := decide (solverChoice.coupling_type = CouplingType.TwoWay)
  let fr_as_crse : Option Int :=
    if l_reflux = true ∧ level < finest_level then some (level + 1) else none
  let fr_as_fine : Option Int :=
    if l_reflux = true ∧ level > 0 then some level else none
  let calls : List (FastCall α) :=
    if solverChoice.use_terrain = true ∧ solverChoice.terrain_type = TerrainType.Moving then
      let inv_dt := 1.0 / dtau
      [FastCall.init_custom_terrain TerrainCopy.old old_substep_time,
       FastCall.init_terrain_grid TerrainCopy.old,
       FastCall.make_J TerrainCopy.old,
       FastCall.init_custom_terrain TerrainCopy.new new_substep_time,
       FastCall.init_terrain_grid TerrainCopy.new,
       FastCall.make_J TerrainCopy.new,
       FastCall.compute_z_t_pert inv_dt,
       FastCall.make_fast_coeffs l_use_moisture solverChoice.use_terrain solverChoice.gravity
         solverChoice.c_p dtau beta_s] ++
      (if fast_step = 0 then
        [FastCall.erf_fast_rhs_MT fast_step nrk SolutionArg.S_old dtau beta_s inv_fac
          fr_as_crse fr_as_fine l_use_moisture l_reflux]
      else
        [FastCall.erf_fast_rhs_MT fast_step nrk SolutionArg.S_data dtau beta_s inv_fac
          fr_as_crse fr_as_fine l_use_moisture l_reflux])
    else if solverChoice.use_terrain = true ∧
        solverChoice.terrain_type = TerrainType.Static then
      if fast_step = 0 then
        [FastCall.make_fast_coeffs l_use_moisture solverChoice.use_terrain solverChoice.gravity
           solverChoice.c_p dtau beta_s,
         FastCall.erf_fast_rhs_T fast_step nrk SolutionArg.S_old dtau beta_s inv_fac
           fr_as_crse fr_as_fine l_use_moisture l_reflux]
      else
        [FastCall.erf_fast_rhs_T fast_step nrk SolutionArg.S_data dtau beta_s inv_fac
           fr_as_crse fr_as_fine l_use_moisture l_reflux]
    else
      if fast_step = 0 then
        [FastCall.make_fast_coeffs l_use_moisture solverChoice.use_terrain solverChoice.gravity
           solverChoice.c_p dtau beta_s,
         FastCall.erf_fast_rhs_N fast_step nrk SolutionArg.S_old dtau beta_s inv_fac
           fr_as_crse fr_as_fine l_use_moisture l_reflux]
      else
        [FastCall.erf_fast_rhs_N fast_step nrk SolutionArg.S_data dtau beta_s inv_fac
           fr_as_crse fr_as_fine l_use_moisture l_reflux]
  let fast_only := true
  let vel_and_mom_synced := false
  let ng_cons : Int := 1
  let ng_vel : Int := 1
  calls ++ [FastCall.apply_bcs SolutionArg.S_data new_substep_time ng_cons ng_vel fast_only
    vel_and_mom_synced]

/-- The sample `SolverChoice` with terrain switched on and the given terrain type. -/
def sampleTerrainChoice (terrain_type : TerrainType) : SolverChoice ℚ :=
  { sampleSolverChoice with use_terrain := true, terrain_type := terrain_type }

end FastRhs

/-! ## `ERF.H`: `ComputeGhostCells`

`AdvStruct.H` is not part of the embedded sources; `AdvChoice` is the record of the six
selectors `ComputeGhostCells` reads. -/

/-- The members of `AdvChoice` that `ComputeGhostCells` reads. -/
structure AdvChoice where
  dycore_horiz_adv_type : AdvType
  dycore_vert_adv_type : AdvType
  moistscal_horiz_adv_type : AdvType
  moistscal_vert_adv_type : AdvType
  dryscal_horiz_adv_type : AdvType
  dryscal_vert_adv_type : AdvType
  deriving DecidableEq, Repr

/-- `ERF::ComputeGhostCells`. -/
def ComputeGhostCells (advChoice : AdvChoice) (use_num_diff : Bool) : Int :=
  if use_num_diff then
    3
  else
    if advChoice.dycore_horiz_adv_type = AdvType.Centered_6th
        ∨ advChoice.dycore_vert_adv_type = AdvType.Centered_6th
        ∨ advChoice.moistscal_horiz_adv_type = AdvType.Centered_6th
        ∨ advChoice.moistscal_horiz_adv_type = AdvType.Centered_6th
        ∨ advChoice.dryscal_horiz_adv_type = AdvType.Centered_6th
        ∨ advChoice.dryscal_vert_adv_type = AdvType.Centered_6th then
      3
    else if advChoice.dycore_horiz_adv_type = AdvType.Upwind_5th
        ∨ advChoice.dycore_vert_adv_type = AdvType.Upwind_5th
        ∨ advChoice.moistscal_horiz_adv_type = AdvType.Upwind_5th
        ∨ advChoice.moistscal_horiz_adv_type = AdvType.Upwind_5th
        ∨ advChoice.dryscal_horiz_adv_type = AdvType.Upwind_5th
        ∨ advChoice.dryscal_vert_adv_type = AdvType.Upwind_5th then
      3
    else if advChoice.dryscal_horiz_adv_type = AdvType.Weno_5
        ∨ advChoice.dryscal_vert_adv_type = AdvType.Weno_5
        ∨ advChoice.moistscal_horiz_adv_type = AdvType.Weno_5
        ∨ advChoice.moistscal_vert_adv_type = AdvType.Weno_5
        ∨ advChoice.moistscal_horiz_adv_type = AdvType.Weno_5Z
        ∨ advChoice.moistscal_vert_adv_type = AdvType.Weno_5Z
        ∨ advChoice.dryscal_horiz_adv_type = AdvType.Weno_5Z
        ∨ advChoice.dryscal_vert_adv_type = AdvType.Weno_5Z then
      3
    else
      2

/-- The ghost-cell count as the six selectors call for it: 3 when numerical diffusion is
on, when any selector is `Centered_6th` or `Upwind_5th`, or when a scalar selector is
`Weno_5` or `Weno_5Z`; 2 otherwise. -/
def ghostCellsRequired (advChoice : AdvChoice) (use_num_diff : Bool) : Int :=
  if use_num_diff = true
      ∨ (∃ t ∈ [advChoice.dycore_horiz_adv_type, advChoice.dycore_vert_adv_type,
                advChoice.moistscal_horiz_adv_type, advChoice.moistscal_vert_adv_type,
                advChoice.dryscal_horiz_adv_type, advChoice.dryscal_vert_adv_type],
          t = AdvType.Centered_6th ∨ t = AdvType.Upwind_5th)
      ∨ (∃ t ∈ [advChoice.moistscal_horiz_adv_type, advChoice.moistscal_vert_adv_type,
                advChoice.dryscal_horiz_adv_type, advChoice.dryscal_vert_adv_type],
          t = AdvType.Weno_5 ∨ t = AdvType.Weno_5Z) then
    3
  else
    2

/-- Second-order selectors throughout, except a sixth-order vertical scheme for the moist
scalars. -/
def sampleAdvChoice : AdvChoice :=
  { dycore_horiz_adv_type := AdvType.Centered_2nd
    dycore_vert_adv_type := AdvType.Centered_2nd
    moistscal_horiz_adv_type := AdvType.Centered_2nd
    moistscal_vert_adv_type := AdvType.Centered_6th
    dryscal_horiz_adv_type := AdvType.Centered_2nd
    dryscal_vert_adv_type := AdvType.Centered_2nd }

/-! ## `TI_slow_rhs_fun.H`, `TI_fast_rhs_fun.H`: the terrain velocity

The loops over `z_t_rk[level]` write every index of the grown tile boxes `gbx`. -/

section TerrainVelocity

variable {α : Type} [LinearOrderedField α]

/-- The loop of `slow_rhs_fun_pre` over `z_t_rk[level]` in the moving-terrain branch: the new
contents of `z_t_arr`, with `slow_dt = new_stage_time - old_step_time` and
`inv_dt = 1./slow_dt`. -/
def slow_rhs_fun_pre.z_t (gbx : List Box) (old_step_time new_stage_time : α)
    (z_nd_new_arr z_nd_old_arr : Array4 α) (z_t_arr : Array4 α) : Array4 α :=
  let slow_dt := new_stage_time - old_step_time
  let inv_dt := 1.0 / slow_dt
  fun i j k =>
    if gbx.any (fun bx => bx.contains i j k) then
      0.25 * inv_dt * (z_nd_new_arr (i+1) (j+1) k - z_nd_old_arr (i+1) (j+1) k
                      + z_nd_new_arr i (j+1) k - z_nd_old_arr i (j+1) k
                      + z_nd_new_arr (i+1) j k - z_nd_old_arr (i+1) j k
                      + z_nd_new_arr i j k - z_nd_old_arr i j k)
    else
      z_t_arr i j k

/-- What `slow_rhs_fun_pre` leaves in `z_t_rk[level]`: the loop runs only with moving
terrain. -/
def slow_rhs_fun_pre.z_t_rk (solverChoice : SolverChoice α) (gbx : List Box)
    (old_step_time new_stage_time : α)
    (z_nd_new_arr z_nd_old_arr : Array4 α) (z_t_arr : Array4 α) : Array4 α :=
  if solverChoice.use_terrain = true ∧ solverChoice.terrain_type = TerrainType.Moving then
    slow_rhs_fun_pre.z_t gbx old_step_time new_stage_time z_nd_new_arr z_nd_old_arr z_t_arr
  else
    z_t_arr

/-- The loop of `fast_rhs_fun` over `z_t_rk[level]` in the moving-terrain branch: the new
contents of `zp_t_arr` (the array of `z_t_pert`), with `inv_dt = 1./dtau`; `zp_t_arr` is
what the freshly allocated `z_t_pert` happens to hold. -/
def fast_rhs_fun.z_t_pert (gbx : List Box) (dtau : α)
    (z_nd_new_arr z_nd_old_arr z_t_arr : Array4 α) (zp_t_arr : Array4 α) : Array4 α :=
  let inv_dt := 1.0 / dtau
  fun i j k =>
    if gbx.any (fun bx => bx.contains i j k) then
      let zp_t := 0.25 * inv_dt * (z_nd_new_arr (i+1) (j+1) k - z_nd_old_arr (i+1) (j+1) k
                      + z_nd_new_arr i (j+1) k - z_nd_old_arr i (j+1) k
                      + z_nd_new_arr (i+1) j k - z_nd_old_arr (i+1) j k
                      + z_nd_new_arr i j k - z_nd_old_arr i j k)
      zp_t - z_t_arr i j k
    else
      zp_t_arr i j k

/-- The average over the four nodes `(i,j)`, `(i+1,j)`, `(i,j+1)`, `(i+1,j+1)` at level `k`
of the finite-difference time derivative `(z_new - z_old)/dt` of the node height, as the
specification words it. -/
def nodeAverageTerrainVelocity (dt : α) (z_new z_old : Array4 α) (i j k : Int) : α :=
  ((z_new i j k - z_old i j k) / dt + (z_new (i+1) j k - z_old (i+1) j k) / dt
    + (z_new i (j+1) k - z_old i (j+1) k) / dt
    + (z_new (i+1) (j+1) k - z_old (i+1) (j+1) k) / dt) / 4

/-- Node heights that rise by `2 * (i + j + 1)` per unit time above `sampleField`. -/
def risingField (t : ℚ) : Array4 ℚ :=
  fun i j k => sampleField i j k + 2 * t * ((i : ℚ) + (j : ℚ) + 1)

end TerrainVelocity

/-! ## `AdvectionSrcForMom_T.H`: the six face fluxes of the horizontal momenta -/

section MomentumFluxes

variable {α : Type} [LinearOrderedField α]

/-- The six fluxes a horizontal momentum kernel forms, by the direction of the difference
they enter (`centFluxXXNext`, ..., `edgeFluxXZPrev` in `AdvectionSrcForXMom_T`;
`edgeFluxYXNext`, ..., `edgeFluxYZPrev` in `AdvectionSrcForYMom_T`). -/
structure MomFluxes (α : Type) where
  xNext : α
  xPrev : α
  yNext : α
  yPrev : α
  zNext : α
  zPrev : α

/-- The fluxes `centFluxXXNext`, `centFluxXXPrev`, `edgeFluxXYNext`, `edgeFluxXYPrev`,
`edgeFluxXZNext`, `edgeFluxXZPrev` of `AdvectionSrcForXMom_T` at the x-face `(i,j,k)`. -/
def AdvectionSrcForXMom_T.fluxes (tm : TerrainMetrics α) (i j k : Int)
    (rho_u rho_v Omega z_nd : Array4 α)
    (interp_u_h : InterpType_H α) (interp_u_v : InterpType_V α)
    (cellSizeInv : GpuArray3 α) (mf_u_inv mf_v_inv : Array4 α) : MomFluxes α :=
  let interp_hi : α := 0
  let interp_lo : α := 0
  -- X-fluxes (at cell centers)
  let rho_u_avg_hi := 0.5 * (rho_u (i+1) j k * mf_u_inv (i+1) j 0 + rho_u i j k * mf_u_inv i j 0)
  let interp_hi := interp_u_h.InterpolateInX (i+1) j k 0 interp_hi rho_u_avg_hi
  let rho_u_avg_lo := 0.5 * (rho_u (i-1) j k * mf_u_inv (i-1) j 0 + rho_u i j k * mf_u_inv i j 0)
  let interp_lo := interp_u_h.InterpolateInX i j k 0 interp_lo rho_u_avg_lo
  let centFluxXXNext :=
    rho_u_avg_hi * tm.Compute_h_zeta_AtCellCenter i j k cellSizeInv z_nd * interp_hi
  let centFluxXXPrev :=
    rho_u_avg_lo * tm.Compute_h_zeta_AtCellCenter (i-1) j k cellSizeInv z_nd * interp_lo
  -- Y-fluxes (at edges in k-direction)
  let rho_v_avg_hi :=
    0.5 * (rho_v i (j+1) k * mf_v_inv i (j+1) 0 + rho_v (i-1) (j+1) k * mf_v_inv (i-1) (j+1) 0)
  let interp_hi := interp_u_h.InterpolateInY i (j+1) k 0 interp_hi rho_v_avg_hi
  let rho_v_avg_lo :=
    0.5 * (rho_v i j k * mf_v_inv i j 0 + rho_v (i-1) j k * mf_v_inv (i-1) j 0)
  let interp_lo := interp_u_h.InterpolateInY i j k 0 interp_lo rho_v_avg_lo
  let edgeFluxXYNext :=
    rho_v_avg_hi * tm.Compute_h_zeta_AtEdgeCenterK i (j+1) k cellSizeInv z_nd * interp_hi
  let edgeFluxXYPrev :=
    rho_v_avg_lo * tm.Compute_h_zeta_AtEdgeCenterK i j k cellSizeInv z_nd * interp_lo
  -- Z-fluxes (at edges in j-direction)
  let Omega_avg_hi := 0.5 * (Omega i j (k+1) + Omega (i-1) j (k+1))
  let Omega_avg_lo := 0.5 * (Omega i j k + Omega (i-1) j k)
  let interp_hi := interp_u_v.InterpolateInZ i j (k+1) 0 interp_hi Omega_avg_hi
  let interp_lo := interp_u_v.InterpolateInZ i j k 0 interp_lo Omega_avg_lo
  let edgeFluxXZNext := Omega_avg_hi * interp_hi
  let edgeFluxXZPrev := Omega_avg_lo * interp_lo
  { xNext := centFluxXXNext, xPrev := centFluxXXPrev
    yNext := edgeFluxXYNext, yPrev := edgeFluxXYPrev
    zNext := edgeFluxXZNext, zPrev := edgeFluxXZPrev }

/-- The fluxes `edgeFluxYXNext`, `edgeFluxYXPrev`, `centFluxYYNext`, `centFluxYYPrev`,
`edgeFluxYZNext`, `edgeFluxYZPrev` of `AdvectionSrcForYMom_T` at the y-face `(i,j,k)`. -/
def AdvectionSrcForYMom_T.fluxes (tm : TerrainMetrics α) (i j k : Int)
    (rho_u rho_v Omega z_nd : Array4 α)
    (interp_v_h : InterpType_H α) (interp_v_v : InterpType_V α)
    (cellSizeInv : GpuArray3 α) (mf_u_inv mf_v_inv : Array4 α) : MomFluxes α :=
  let interp_hi : α := 0
  let interp_lo : α := 0
  -- x-fluxes (at edges in k-direction)
  let rho_u_avg_hi :=
    0.5 * (rho_u (i+1) j k * mf_u_inv (i+1) j 0 + rho_u (i+1) (j-1) k * mf_u_inv (i+1) (j-1) 0)
  let interp_hi := interp_v_h.InterpolateInX (i+1) j k 0 interp_hi rho_u_avg_hi
  let rho_u_avg_lo :=
    0.5 * (rho_u i j k * mf_u_inv i j 0 + rho_u i (j-1) k * mf_u_inv i (j-1) 0)
  let interp_lo := interp_v_h.InterpolateInX i j k 0 interp_lo rho_u_avg_lo
  let edgeFluxYXNext :=
    rho_u_avg_hi * tm.Compute_h_zeta_AtEdgeCenterK (i+1) j k cellSizeInv z_nd * interp_hi
  let edgeFluxYXPrev :=
    rho_u_avg_lo * tm.Compute_h_zeta_AtEdgeCenterK i j k cellSizeInv z_nd * interp_lo
  -- y-fluxes (at cell centers)
  let rho_v_avg_hi := 0.5 * (rho_v i j k * mf_v_inv i j 0 + rho_v i (j+1) k * mf_v_inv i (j+1) 0)
  let interp_hi := interp_v_h.InterpolateInY i (j+1) k 0 interp_hi rho_v_avg_hi
  let rho_v_avg_lo := 0.5 * (rho_v i j k * mf_v_inv i j 0 + rho_v i (j-1) k * mf_v_inv i (j-1) 0)
  let interp_lo := interp_v_h.InterpolateInY i j k 0 interp_lo rho_v_avg_lo
  let centFluxYYNext :=
    rho_v_avg_hi * tm.Compute_h_zeta_AtCellCenter i j k cellSizeInv z_nd * interp_hi
  let centFluxYYPrev :=
    rho_v_avg_lo * tm.Compute_h_zeta_AtCellCenter i (j-1) k cellSizeInv z_nd * interp_lo
  -- Z-fluxes (at edges in j-direction)
  let Omega_avg_hi := 0.5 * (Omega i j (k+1) + Omega i (j-1) (k+1))
  let Omega_avg_lo := 0.5 * (Omega i j k + Omega i (j-1) k)
  let interp_hi := interp_v_v.InterpolateInZ i j (k+1) 0 interp_hi Omega_avg_hi
  let interp_lo := interp_v_v.InterpolateInZ i j k 0 interp_lo Omega_avg_lo
  let edgeFluxYZNext := Omega_avg_hi * interp_hi
  let edgeFluxYZPrev := Omega_avg_lo * interp_lo
  { xNext := edgeFluxYXNext, xPrev := edgeFluxYXPrev
    yNext := centFluxYYNext, yPrev := centFluxYYPrev
    zNext := edgeFluxYZNext, zPrev := edgeFluxYZPrev }

/-- How both kernels combine their six fluxes into the tendency: `mf_inv` is the map factor
of the face (`mf_u_inv(i,j,0)` or `mf_v_inv(i,j,0)`) and `detJ_sum` the sum of `detJ` over
the two cells of the face, half of which the kernel divides by. -/
def MomFluxes.advectionSrc (f : MomFluxes α) (cellSizeInv : GpuArray3 α) (mf_inv detJ_sum : α) :
    α :=
  let dxInv := cellSizeInv 0
  let dyInv := cellSizeInv 1
  let dzInv := cellSizeInv 2
  let mfsq := 1 / (mf_inv * mf_inv)
  let advectionSrc := (f.xNext - f.xPrev) * dxInv * mfsq
                    + (f.yNext - f.yPrev) * dyInv * mfsq
                    + (f.zNext - f.zPrev) * dzInv
  advectionSrc / (0.5 * detJ_sum)

end MomentumFluxes

/-! ## `MOSTStress.H`: `moeng_flux` and `donelan_flux`

An `amrex::Array4` read with a component, `a(i,j,k,n)`, is an `Array4C`; `lbound(a)` and
`ubound(a)` are passed next to the array.  `std::sqrt` is the `sqrt` of `CMath`. -/

section MOSTFlux

variable {α : Type} [LinearOrderedField α]

/-- `amrex::Dim3`. -/
structure Dim3 where
  x : Int
  y : Int
  z : Int
  deriving DecidableEq, Repr

/-- What `lbound(a)` and `ubound(a)` return for an `amrex::Array4` `a`. -/
structure ArrayBounds where
  lbound : Dim3
  ubound : Dim3
  deriving DecidableEq, Repr

/-- Access `a(i,j,k,n)` to an `amrex::Array4<amrex::Real>`. -/
abbrev Array4C (α : Type) := Int → Int → Int → Int → α

/-- The array with `a(i,j,k,n)` overwritten by `x`. -/
def Array4C.set (a : Array4C α) (i j k n : Int) (x : α) : Array4C α :=
  fun i2 j2 k2 n2 => if i2 = i ∧ j2 = j ∧ k2 = k ∧ n2 = n then x else a i2 j2 k2 n2

/-- `#define Rho_comp 0` of `IndexDefines.H`. -/
def Rho_comp : Int := 0

/-- `#define RhoTheta_comp 1` of `IndexDefines.H`. -/
def RhoTheta_comp : Int := 1

/-- `Vars::cons` of `IndexDefines.H`. -/
def Vars.cons : Int := 0

/-- `Vars::xvel`. -/
def Vars.xvel : Int := 1

/-- `Vars::yvel`. -/
def Vars.yvel : Int := 2

/-- `Vars::zvel`. -/
def Vars.zvel : Int := 3

/-- `Vars::NumTypes`. -/
def Vars.NumTypes : Int := 4

/-- `Vars::xmom`. -/
def Vars.xmom : Int := 5

/-- `Vars::ymom`. -/
def Vars.ymom : Int := 6

/-- `Vars::zmom`. -/
def Vars.zmom : Int := 7

/-- `EddyDiff::Mom_v` of `IndexDefines.H`. -/
def EddyDiff.Mom_v : Int := 8

/-- `EddyDiff::Theta_v` of `IndexDefines.H`. -/
def EddyDiff.Theta_v : Int := 9

/-- The member `eps = 1e-16` of `moeng_flux` and of `donelan_flux`. -/
def flux_eps : α := 1e-16

/-- The failed `AMREX_ALWAYS_ASSERT` of a `compute_u_flux` or `compute_v_flux`. -/
inductive MostBCAbort
  | var_idx_assertion
  deriving DecidableEq, Repr

/-- The clamped indices `ix, jx, iy, jy, ie, je, ic, jc` of `moeng_flux::compute_t_flux`. -/
structure TFluxIndices where
  ix : Int
  jx : Int
  iy : Int
  jy : Int
  ie : Int
  je : Int
  ic : Int
  jc : Int
  deriving DecidableEq, Repr

/-- The index block of `moeng_flux::compute_t_flux`. -/
def moeng_flux.compute_t_flux_indices (i j : Int)
    (cons_bd velx_bd vely_bd eta_bd : ArrayBounds) : TFluxIndices :=
  let ix := if i < velx_bd.lbound.x then velx_bd.lbound.x else i
  let jx := if j < velx_bd.lbound.y then velx_bd.lbound.y else j
  let ix := if ix > velx_bd.ubound.x - 1 then velx_bd.ubound.x - 1 else ix
  let jx := if jx > velx_bd.ubound.y then velx_bd.ubound.y else jx
  let iy := if i < vely_bd.lbound.x then vely_bd.lbound.x else i
  let jy := if j < vely_bd.lbound.y then vely_bd.lbound.y else j
  let iy := if iy > vely_bd.ubound.x then vely_bd.ubound.x else iy
  let jy := if jy > vely_bd.ubound.y - 1 then vely_bd.ubound.y - 1 else jy
  let ie := if i < eta_bd.lbound.x then eta_bd.lbound.x else i
  let je := if j < eta_bd.lbound.y then eta_bd.lbound.y else j
  let ie := if ie > eta_bd.ubound.x then eta_bd.ubound.x else ie
  let je := if je > eta_bd.ubound.y then eta_bd.ubound.y else je
  let ic := if i < cons_bd.lbound.x then cons_bd.lbound.x else i
  let jc := if j < cons_bd.lbound.y then cons_bd.lbound.y else j
  let ic := if ic > cons_bd.ubound.x then cons_bd.ubound.x else ic
  let jc := if jc > cons_bd.ubound.y then cons_bd.ubound.y else jc
  { ix := ix, jx := jx, iy := iy, jy := jy, ie := ie, je := je, ic := ic, jc := jc }

/-- The indices `iylo, iyhi, jy, ie, je, ic, jc` of a `compute_u_flux`. -/
structure UFluxIndices where
  iylo : Int
  iyhi : Int
  jy : Int
  ie : Int
  je : Int
  ic : Int
  jc : Int
  deriving DecidableEq, Repr

/-- The index block of `compute_u_flux`, the same text in `moeng_flux` and in
`donelan_flux`. -/
def compute_u_flux_indices (i j : Int) (cons_bd vely_bd eta_bd : ArrayBounds) :
    UFluxIndices :=
  let iylo := if i ≤ vely_bd.lbound.x then vely_bd.lbound.x else i - 1
  let iyhi := if i > vely_bd.ubound.x then vely_bd.ubound.x else i
  let jy := if j < vely_bd.lbound.y then vely_bd.lbound.y else j
  let jy := if jy > vely_bd.ubound.y - 1 then vely_bd.ubound.y - 1 else jy
  let ie := if i < eta_bd.lbound.x + 1 then eta_bd.lbound.x + 1 else i
  let je := if j < eta_bd.lbound.y then eta_bd.lbound.y else j
  let ie := if ie > eta_bd.ubound.x then eta_bd.ubound.x else ie
  let je := if je > eta_bd.ubound.y then eta_bd.ubound.y else je
  let ic := if i < cons_bd.lbound.x + 1 then cons_bd.lbound.x + 1 else i
  let jc := if j < cons_bd.lbound.y then cons_bd.lbound.y else j
  let ic := if ic > cons_bd.ubound.x then cons_bd.ubound.x else ic
  let jc := if jc > cons_bd.ubound.y then cons_bd.ubound.y else jc
  { iylo := iylo, iyhi := iyhi, jy := jy, ie := ie, je := je, ic := ic, jc := jc }

/-- The indices `ix, jxlo, jxhi, ie, je, ic, jc` of a `compute_v_flux`. -/
structure VFluxIndices where
  ix : Int
  jxlo : Int
  jxhi : Int
  ie : Int
  je : Int
  ic : Int
  jc : Int
  deriving DecidableEq, Repr

/-- The index block of `compute_v_flux`, the same text in `moeng_flux` and in
`donelan_flux`. -/
def compute_v_flux_indices (i j : Int) (cons_bd velx_bd eta_bd : ArrayBounds) :
    VFluxIndices :=
  let ix := if i < velx_bd.lbound.x then velx_bd.lbound.x else i
  let ix := if ix > velx_bd.ubound.x then velx_bd.ubound.x else ix
  let jxlo := if j ≤ velx_bd.lbound.y then velx_bd.lbound.y else j - 1
  let jxhi := if j > velx_bd.ubound.y then velx_bd.ubound.y else j
  let ie := if i < eta_bd.lbound.x then eta_bd.lbound.x else i
  let je := if j < eta_bd.lbound.y + 1 then eta_bd.lbound.y + 1 else j
  let ie := if ie > eta_bd.ubound.x then eta_bd.ubound.x else ie
  let je := if je > eta_bd.ubound.y then eta_bd.ubound.y else je
  let ic := if i < cons_bd.lbound.x then cons_bd.lbound.x else i
  let jc := if j < cons_bd.lbound.y + 1 then cons_bd.lbound.y + 1 else j
  let ic := if ic > cons_bd.ubound.x then cons_bd.ubound.x else ic
  let jc := if jc > cons_bd.ubound.y then cons_bd.ubound.y else jc
  { ix := ix, jxlo := jxlo, jxhi := jxhi, ie := ie, je := je, ic := ic, jc := jc }

/-- The locals `rho`, `theta`, `eta` (after `amrex::max(eta,eps)`) and `moflux` of a
`compute_t_flux`. -/
structure ThetaFluxLocals (α : Type) where
  rho : α
  theta : α
  eta : α
  moflux : α

/-- The locals `rho`, `eta` (after `amrex::max(eta,eps)`) and `stressx` or `stressy` of a
`compute_u_flux` or `compute_v_flux`. -/
structure StressLocals (α : Type) where
  rho : α
  eta : α
  stress : α

/-! ### `moeng_flux` -/

/-- The locals of `moeng_flux::compute_t_flux`, none of which depends on `k`. -/
def moeng_flux.compute_t_flux_locals (c : CMath α) (zlo : Int) (i j : Int)
    (cons_bd velx_bd vely_bd eta_bd : ArrayBounds)
    (cons_arr : Array4C α) (velx_arr vely_arr : Array4 α) (eta_arr : Array4C α)
    (umm_arr tm_arr u_star_arr t_star_arr t_surf_arr : Array4 α) : ThetaFluxLocals α :=
  let x := moeng_flux.compute_t_flux_indices i j cons_bd velx_bd vely_bd eta_bd
  let velx := 0.5 * (velx_arr x.ix x.jx zlo + velx_arr (x.ix + 1) x.jx zlo)
  let vely := 0.5 * (vely_arr x.iy x.jy zlo + vely_arr x.iy (x.jy + 1) zlo)
  let rho := cons_arr x.ic x.jc zlo Rho_comp
  let theta := cons_arr x.ic x.jc zlo RhoTheta_comp / rho
  let eta := eta_arr x.ie x.je zlo EddyDiff.Theta_v
  let eta := max eta flux_eps
  let theta_mean := tm_arr x.ic x.jc zlo
  let wsp_mean := umm_arr x.ic x.jc zlo
  let ustar := u_star_arr x.ic x.jc zlo
  let tstar := t_star_arr x.ic x.jc zlo
  let theta_surf := t_surf_arr x.ic x.jc zlo
  let wsp := c.sqrt (velx * velx + vely * vely)
  let num1 := (theta - theta_mean) * wsp_mean
  let num2 := (theta_mean - theta_surf) * wsp
  let moflux :=
    if |tstar| > flux_eps then
      tstar * ustar * (num1 + num2) / ((theta_mean - theta_surf) * wsp_mean)
    else 0.0
  { rho := rho, theta := theta, eta := eta, moflux := moflux }

/-- `moeng_flux::compute_t_flux`: the new contents of `dest_arr`. -/
def moeng_flux.compute_t_flux (c : CMath α) (zlo : Int) (i j k n icomp : Int) (dz : α)
    (cons_bd velx_bd vely_bd eta_bd : ArrayBounds)
    (cons_arr : Array4C α) (velx_arr vely_arr : Array4 α) (eta_arr : Array4C α)
    (umm_arr tm_arr u_star_arr t_star_arr t_surf_arr : Array4 α)
    (dest_arr : Array4C α) : Array4C α :=
  let l := moeng_flux.compute_t_flux_locals c zlo i j cons_bd velx_bd vely_bd eta_bd
    cons_arr velx_arr vely_arr eta_arr umm_arr tm_arr u_star_arr t_star_arr t_surf_arr
  let deltaz := dz * ((zlo - k : Int) : α)
  dest_arr.set i j k (icomp + n) (l.rho * (l.theta - l.moflux * l.rho / l.eta * deltaz))

/-- The locals of `moeng_flux::compute_u_flux`, none of which depends on `k`. -/
def moeng_flux.compute_u_flux_locals (c : CMath α) (zlo : Int) (i j : Int)
    (cons_bd vely_bd eta_bd : ArrayBounds)
    (cons_arr : Array4C α) (velx_arr vely_arr : Array4 α) (eta_arr : Array4C α)
    (umm_arr um_arr u_star_arr : Array4 α) : StressLocals α :=
  let x := compute_u_flux_indices i j cons_bd vely_bd eta_bd
  let velx := velx_arr i j zlo
  let vely := 0.25 * (vely_arr x.iyhi x.jy zlo + vely_arr x.iyhi (x.jy + 1) zlo
                    + vely_arr x.iylo x.jy zlo + vely_arr x.iylo (x.jy + 1) zlo)
  let rho := 0.5 * (cons_arr (x.ic - 1) x.jc zlo Rho_comp + cons_arr x.ic x.jc zlo Rho_comp)
  let eta := 0.5 * (eta_arr (x.ie - 1) x.je zlo EddyDiff.Mom_v
                  + eta_arr x.ie x.je zlo EddyDiff.Mom_v)
  let eta := max eta flux_eps
  let umean := um_arr i j zlo
  let wsp_mean := 0.5 * (umm_arr (x.ic - 1) x.jc zlo + umm_arr x.ic x.jc zlo)
  let ustar := 0.5 * (u_star_arr (x.ic - 1) x.jc zlo + u_star_arr x.ic x.jc zlo)
  let wsp := c.sqrt (velx * velx + vely * vely)
  let num1 := (velx - umean) * wsp_mean
  let num2 := umean * wsp
  let stressx := ustar * ustar * (num1 + num2) / (wsp_mean * wsp_mean)
  { rho := rho, eta := eta, stress := stressx }

/-- `moeng_flux::compute_u_flux`: the new contents of `dest_arr`, or the failed assertion. -/
def moeng_flux.compute_u_flux (c : CMath α) (zlo : Int) (i j k icomp var_idx : Int) (dz : α)
    (cons_bd vely_bd eta_bd : ArrayBounds)
    (cons_arr : Array4C α) (velx_arr vely_arr : Array4 α) (eta_arr : Array4C α)
    (umm_arr um_arr u_star_arr : Array4 α)
    (dest_arr : Array4C α) : Except MostBCAbort (Array4C α) :=
  let l := moeng_flux.compute_u_flux_locals c zlo i j cons_bd vely_bd eta_bd
    cons_arr velx_arr vely_arr eta_arr umm_arr um_arr u_star_arr
  let deltaz := dz * ((zlo - k : Int) : α)
  if var_idx = Vars.xmom then
    Except.ok (dest_arr.set i j k icomp
      (dest_arr i j zlo icomp - l.stress * l.rho * l.rho / l.eta * deltaz))
  else if var_idx = Vars.xvel then
    Except.ok (dest_arr.set i j k icomp
      (dest_arr i j zlo icomp - l.stress * l.rho / l.eta * deltaz))
  else
    Except.error MostBCAbort.var_idx_assertion

/-- The locals of `moeng_flux::compute_v_flux`, none of which depends on `k`. -/
def moeng_flux.compute_v_flux_locals (c : CMath α) (zlo : Int) (i j : Int)
    (cons_bd velx_bd eta_bd : ArrayBounds)
    (cons_arr : Array4C α) (velx_arr vely_arr : Array4 α) (eta_arr : Array4C α)
    (umm_arr vm_arr u_star_arr : Array4 α) : StressLocals α :=
  let x := compute_v_flux_indices i j cons_bd velx_bd eta_bd
  let velx := 0.25 * (velx_arr x.ix x.jxhi zlo + velx_arr (x.ix + 1) x.jxhi zlo
                    + velx_arr x.ix x.jxlo zlo + velx_arr (x.ix + 1) x.jxlo zlo)
  let vely := vely_arr i j zlo
  let rho := 0.5 * (cons_arr x.ic (x.jc - 1) zlo Rho_comp + cons_arr x.ic x.jc zlo Rho_comp)
  let eta := 0.5 * (eta_arr x.ie (x.je - 1) zlo EddyDiff.Mom_v
                  + eta_arr x.ie x.je zlo EddyDiff.Mom_v)
  let eta := max eta flux_eps
  let vmean := vm_arr i j zlo
  let wsp_mean := 0.5 * (umm_arr x.ic (x.jc - 1) zlo + umm_arr x.ic x.jc zlo)
  let ustar := 0.5 * (u_star_arr x.ic (x.jc - 1) zlo + u_star_arr x.ic x.jc zlo)
  let wsp := c.sqrt (velx * velx + vely * vely)
  let num1 := (vely - vmean) * wsp_mean
  let num2 := vmean * wsp
  let stressy := ustar * ustar * (num1 + num2) / (wsp_mean * wsp_mean)
  { rho := rho, eta := eta, stress := stressy }

/-- `moeng_flux::compute_v_flux`: the new contents of `dest_arr`, or the failed assertion. -/
def moeng_flux.compute_v_flux (c : CMath α) (zlo : Int) (i j k icomp var_idx : Int) (dz : α)
    (cons_bd velx_bd eta_bd : ArrayBounds)
    (cons_arr : Array4C α) (velx_arr vely_arr : Array4 α) (eta_arr : Array4C α)
    (umm_arr vm_arr u_star_arr : Array4 α)
    (dest_arr : Array4C α) : Except MostBCAbort (Array4C α) :=
  let l := moeng_flux.compute_v_flux_locals c zlo i j cons_bd velx_bd eta_bd
    cons_arr velx_arr vely_arr eta_arr umm_arr vm_arr u_star_arr
  let deltaz := dz * ((zlo - k : Int) : α)
  if var_idx = Vars.ymom then
    Except.ok (dest_arr.set i j k icomp
      (dest_arr i j zlo icomp - l.stress * l.rho * l.rho / l.eta * deltaz))
  else if var_idx = Vars.yvel then
    Except.ok (dest_arr.set i j k icomp
      (dest_arr i j zlo icomp - l.stress * l.rho / l.eta * deltaz))
  else
    Except.error MostBCAbort.var_idx_assertion

/-! ### `donelan_flux` -/

/-- The drag coefficient `Cd` that `donelan_flux::compute_u_flux` and
`donelan_flux::compute_v_flux` settle from `wsp_mean`, with `c = 7e-5`. -/
def donelan_flux.Cd (wsp_mean : α) : α :=
  let c : α := 7e-5
  if wsp_mean ≤ 5.0 then
    0.001
  else if wsp_mean < 25.0 ∧ wsp_mean > 5.0 then
    0.001 + c * (wsp_mean - 5.0)
  else
    0.0024

/-- The locals of `donelan_flux::compute_t_flux`. -/
def donelan_flux.compute_t_flux_locals (zlo : Int) (i j : Int)
    (cons_bd eta_bd : ArrayBounds)
    (cons_arr : Array4C α) (eta_arr : Array4C α)
    (umm_arr tm_arr t_surf_arr : Array4 α) : ThetaFluxLocals α :=
  let ie := if i < eta_bd.lbound.x then eta_bd.lbound.x else i
  let je := if j < eta_bd.lbound.y then eta_bd.lbound.y else j
  let ie := if ie > eta_bd.ubound.x then eta_bd.ubound.x else ie
  let je := if je > eta_bd.ubound.y then eta_bd.ubound.y else je
  let ic := if i < cons_bd.lbound.x then cons_bd.lbound.x else i
  let jc := if j < cons_bd.lbound.y then cons_bd.lbound.y else j
  let ic := if ic > cons_bd.ubound.x then cons_bd.ubound.x else ic
  let jc := if jc > cons_bd.ubound.y then cons_bd.ubound.y else jc
  let rho := cons_arr ic jc zlo Rho_comp
  let theta := cons_arr ic jc zlo RhoTheta_comp / rho
  let eta := eta_arr ie je zlo EddyDiff.Theta_v
  let eta := max eta flux_eps
  let Cd : α := 0.0012
  let wsp_mean := umm_arr ic jc zlo
  let theta_surf := t_surf_arr ic jc zlo
  let theta_mean := tm_arr ic jc zlo
  let moflux := Cd * wsp_mean * (theta_surf - theta_mean)
  { rho := rho, theta := theta, eta := eta, moflux := moflux }

/-- `donelan_flux::compute_t_flux`: the new contents of `dest_arr`.  The parameters
`velx_arr`, `vely_arr`, `u_star_arr` and `t_star_arr` are unnamed in the source. -/
def donelan_flux.compute_t_flux (zlo : Int) (i j k n icomp : Int) (dz : α)
    (cons_bd eta_bd : ArrayBounds)
    (cons_arr : Array4C α) (_velx_arr _vely_arr : Array4 α) (eta_arr : Array4C α)
    (umm_arr tm_arr _u_star_arr _t_star_arr t_surf_arr : Array4 α)
    (dest_arr : Array4C α) : Array4C α :=
  let l := donelan_flux.compute_t_flux_locals zlo i j cons_bd eta_bd cons_arr eta_arr
    umm_arr tm_arr t_surf_arr
  let deltaz := dz * ((zlo - k : Int) : α)
  dest_arr.set i j k (icomp + n) (l.rho * (l.theta - l.moflux * l.rho / l.eta * deltaz))

/-- The local `wsp_mean` of `donelan_flux::compute_u_flux`: the mean wind speed averaged
to the x-face. -/
def donelan_flux.compute_u_flux_wsp_mean (zlo : Int) (i j : Int)
    (cons_bd vely_bd eta_bd : ArrayBounds) (umm_arr : Array4 α) : α :=
  let x := compute_u_flux_indices i j cons_bd vely_bd eta_bd
  0.5 * (umm_arr (x.ic - 1) x.jc zlo + umm_arr x.ic x.jc zlo)

/-- The locals of `donelan_flux::compute_u_flux`. -/
def donelan_flux.compute_u_flux_locals (c : CMath α) (zlo : Int) (i j : Int)
    (cons_bd vely_bd eta_bd : ArrayBounds)
    (cons_arr : Array4C α) (velx_arr vely_arr : Array4 α) (eta_arr : Array4C α)
    (umm_arr : Array4 α) : StressLocals α :=
  let x := compute_u_flux_indices i j cons_bd vely_bd eta_bd
  let velx := velx_arr i j zlo
  let vely := 0.25 * (vely_arr x.iyhi x.jy zlo + vely_arr x.iyhi (x.jy + 1) zlo
                    + vely_arr x.iylo x.jy zlo + vely_arr x.iylo (x.jy + 1) zlo)
  let rho := 0.5 * (cons_arr (x.ic - 1) x.jc zlo Rho_comp + cons_arr x.ic x.jc zlo Rho_comp)
  let eta := 0.5 * (eta_arr (x.ie - 1) x.je zlo EddyDiff.Mom_v
                  + eta_arr x.ie x.je zlo EddyDiff.Mom_v)
  let eta := max eta flux_eps
  let wsp := c.sqrt (velx * velx + vely * vely)
  let wsp_mean := donelan_flux.compute_u_flux_wsp_mean zlo i j cons_bd vely_bd eta_bd umm_arr
  let Cd := donelan_flux.Cd wsp_mean
  let stressx := Cd * velx * wsp
  { rho := rho, eta := eta, stress := stressx }

/-- `donelan_flux::compute_u_flux`: the new contents of `dest_arr`, or the failed assertion.
The parameters `um_arr` and `u_star_arr` are unnamed in the source. -/
def donelan_flux.compute_u_flux (c : CMath α) (zlo : Int) (i j k icomp var_idx : Int) (dz : α)
    (cons_bd vely_bd eta_bd : ArrayBounds)
    (cons_arr : Array4C α) (velx_arr vely_arr : Array4 α) (eta_arr : Array4C α)
    (umm_arr _um_arr _u_star_arr : Array4 α)
    (dest_arr : Array4C α) : Except MostBCAbort (Array4C α) :=
  let l := donelan_flux.compute_u_flux_locals c zlo i j cons_bd vely_bd eta_bd
    cons_arr velx_arr vely_arr eta_arr umm_arr
  let deltaz := dz * ((zlo - k : Int) : α)
  if var_idx = Vars.xmom then
    Except.ok (dest_arr.set i j k icomp
      (dest_arr i j zlo icomp - l.stress * l.rho * l.rho / l.eta * deltaz))
  else if var_idx = Vars.xvel then
    Except.ok (dest_arr.set i j k icomp
      (dest_arr i j zlo icomp - l.stress * l.rho / l.eta * deltaz))
  else
    Except.error MostBCAbort.var_idx_assertion

/-- The local `wsp_mean` of `donelan_flux::compute_v_flux`: the mean wind speed averaged
to the y-face. -/
def donelan_flux.compute_v_flux_wsp_mean (zlo : Int) (i j : Int)
    (cons_bd velx_bd eta_bd : ArrayBounds) (umm_arr : Array4 α) : α :=
  let x := compute_v_flux_indices i j cons_bd velx_bd eta_bd
  0.5 * (umm_arr x.ic (x.jc - 1) zlo + umm_arr x.ic x.jc zlo)

/-- The locals of `donelan_flux::compute_v_flux`. -/
def donelan_flux.compute_v_flux_locals (c : CMath α) (zlo : Int) (i j : Int)
    (cons_bd velx_bd eta_bd : ArrayBounds)
    (cons_arr : Array4C α) (velx_arr vely_arr : Array4 α) (eta_arr : Array4C α)
    (umm_arr : Array4 α) : StressLocals α :=
  let x := compute_v_flux_indices i j cons_bd velx_bd eta_bd
  let velx := 0.25 * (velx_arr x.ix x.jxhi zlo + velx_arr (x.ix + 1) x.jxhi zlo
                    + velx_arr x.ix x.jxlo zlo + velx_arr (x.ix + 1) x.jxlo zlo)
  let vely := vely_arr i j zlo
  let rho := 0.5 * (cons_arr x.ic (x.jc - 1) zlo Rho_comp + cons_arr x.ic x.jc zlo Rho_comp)
  let eta := 0.5 * (eta_arr x.ie (x.je - 1) zlo EddyDiff.Mom_v
                  + eta_arr x.ie x.je zlo EddyDiff.Mom_v)
  let eta := max eta flux_eps
  let wsp := c.sqrt (velx * velx + vely * vely)
  let wsp_mean := donelan_flux.compute_v_flux_wsp_mean zlo i j cons_bd velx_bd eta_bd umm_arr
  let Cd := donelan_flux.Cd wsp_mean
  let stressy := Cd * vely * wsp
  { rho := rho, eta := eta, stress := stressy }

/-- `donelan_flux::compute_v_flux`: the new contents of `dest_arr`, or the failed assertion.
The parameters `vm_arr` and `u_star_arr` are unnamed in the source. -/
def donelan_flux.compute_v_flux (c : CMath α) (zlo : Int) (i j k icomp var_idx : Int) (dz : α)
    (cons_bd velx_bd eta_bd : ArrayBounds)
    (cons_arr : Array4C α) (velx_arr vely_arr : Array4 α) (eta_arr : Array4C α)
    (umm_arr _vm_arr _u_star_arr : Array4 α)
    (dest_arr : Array4C α) : Except MostBCAbort (Array4C α) :=
  let l := donelan_flux.compute_v_flux_locals c zlo i j cons_bd velx_bd eta_bd
    cons_arr velx_arr vely_arr eta_arr umm_arr
  let deltaz := dz * ((zlo - k : Int) : α)
  if var_idx = Vars.ymom then
    Except.ok (dest_arr.set i j k icomp
      (dest_arr i j zlo icomp - l.stress * l.rho * l.rho / l.eta * deltaz))
  else if var_idx = Vars.yvel then
    Except.ok (dest_arr.set i j k icomp
      (dest_arr i j zlo icomp - l.stress * l.rho / l.eta * deltaz))
  else
    Except.error MostBCAbort.var_idx_assertion

/-- The local `wsp` of `donelan_flux::compute_u_flux`: the wind speed at the x-face. -/
def donelan_flux.compute_u_flux_wsp (c : CMath α) (zlo : Int) (i j : Int)
    (cons_bd vely_bd eta_bd : ArrayBounds) (velx_arr vely_arr : Array4 α) : α :=
  let x := compute_u_flux_indices i j cons_bd vely_bd eta_bd
  let velx := velx_arr i j zlo
  let vely := 0.25 * (vely_arr x.iyhi x.jy zlo + vely_arr x.iyhi (x.jy + 1) zlo
                    + vely_arr x.iylo x.jy zlo + vely_arr x.iylo (x.jy + 1) zlo)
  c.sqrt (velx * velx + vely * vely)

/-- The local `wsp` of `donelan_flux::compute_v_flux`: the wind speed at the y-face. -/
def donelan_flux.compute_v_flux_wsp (c : CMath α) (zlo : Int) (i j : Int)
    (cons_bd velx_bd eta_bd : ArrayBounds) (velx_arr vely_arr : Array4 α) : α :=
  let x := compute_v_flux_indices i j cons_bd velx_bd eta_bd
  let velx := 0.25 * (velx_arr x.ix x.jxhi zlo + velx_arr (x.ix + 1) x.jxhi zlo
                    + velx_arr x.ix x.jxlo zlo + velx_arr (x.ix + 1) x.jxlo zlo)
  let vely := vely_arr i j zlo
  c.sqrt (velx * velx + vely * vely)

/-! ### Sample inputs over `ℚ` -/

/-- Bounds of an array of five by five cells: indices 0 to 4 in x and y. -/
def sampleBounds : ArrayBounds := ⟨⟨0, 0, 0⟩, ⟨4, 4, 0⟩⟩

/-- A four-index field that is positive on the sample bounds. -/
def sampleFieldC : Array4C ℚ := fun i j k n => sampleField i j k + (n : ℚ) + 20

/-- A field that agrees with `sampleField` for `i ≤ 4`, the upper x-bound of
`sampleBounds`, and is 0 beyond it. -/
def sampleFieldClipped : Array4 ℚ := fun i j k => if i ≤ 4 then sampleField i j k else 0

end MOSTFlux

/-! ## `ABLMost.cpp`: `ABLMost::update_fluxes`

`MOSTAverage.H` is not part of the embedded sources: what `m_ma.compute_averages(lev)`
leaves in the plane averages of the temperature and of the wind speed, and
`m_ma.get_zref()`, are parameters.  A level holds the arrays `z_0[lev]`, `u_star[lev]`,
`t_star[lev]`, `t_surf[lev]`, `olen[lev]` together with those two averages, and the SST
snapshots `m_sst_lev[lev]`, `none` when `m_sst_lev[lev][0]` is a null pointer. -/

section UpdateFluxes

variable {α : Type} [LinearOrderedField α] [FloorRing α]

/-- The nine flux structs `update_fluxes` can declare as `most_flux`. -/
inductive MostFluxStruct
  | adiabatic
  | iterative (V : IterativeFlux)
  deriving DecidableEq, Repr

/-- The struct `update_fluxes` declares as `most_flux`, by `theta_type` and `rough_type`. -/
def ABLMost.most_flux_struct (theta_type : ThetaCalcType) (rough_type : RoughCalcType) :
    MostFluxStruct :=
  if theta_type = ThetaCalcType.HEAT_FLUX then
    if rough_type = RoughCalcType.CONSTANT then
      MostFluxStruct.iterative IterativeFlux.surface_flux
    else if rough_type = RoughCalcType.CHARNOCK then
      MostFluxStruct.iterative IterativeFlux.surface_flux_charnock
    else
      MostFluxStruct.iterative IterativeFlux.surface_flux_mod_charnock
  else if theta_type = ThetaCalcType.SURFACE_TEMPERATURE then
    if rough_type = RoughCalcType.CONSTANT then
      MostFluxStruct.iterative IterativeFlux.surface_temp
    else if rough_type = RoughCalcType.CHARNOCK then
      MostFluxStruct.iterative IterativeFlux.surface_temp_charnock
    else
      MostFluxStruct.iterative IterativeFlux.surface_temp_mod_charnock
  else
    if rough_type = RoughCalcType.CONSTANT then
      MostFluxStruct.adiabatic
    else if rough_type = RoughCalcType.CHARNOCK then
      MostFluxStruct.iterative IterativeFlux.adiabatic_charnock
    else
      MostFluxStruct.iterative IterativeFlux.adiabatic_mod_charnock

/-- The `mdata` of the struct `update_fluxes` declares: built from `m_ma.get_zref()`,
`surf_temp_flux` and, by `rough_type`, nothing more, `cnk_a` or `depth`. -/
def ABLMost.most_flux_mdata (c : CMath α) (K : ERF_Constants α) (Cnk_b zref : α)
    (m : ABLMostMembers α) : most_data α :=
  if m.rough_type = RoughCalcType.CONSTANT then
    mdata_const K Cnk_b zref m.surf_temp_flux
  else if m.rough_type = RoughCalcType.CHARNOCK then
    mdata_charnock K Cnk_b zref m.surf_temp_flux m.cnk_a
  else
    mdata_mod_charnock c K zref m.surf_temp_flux m.depth

/-- The `iterate_flux` of a flux struct. -/
def MostFluxStruct.iterate_flux (S : MostFluxStruct) (c : CMath α) (K : ERF_Constants α)
    (mdata : most_data α) (i j k : Int) (max_iters : Int) (a : MostArrays α) : MostArrays α :=
  match S with
  | MostFluxStruct.adiabatic => adiabatic.iterate_flux c mdata i j k max_iters a
  | MostFluxStruct.iterative V => V.iterate_flux c K mdata i j k max_iters a

/-- `ABLMost::compute_fluxes`: `most_flux.iterate_flux` at every index triple of the grown
tile boxes (`gtbx_cells`), in turn. -/
def ABLMost.compute_fluxes
    (iterate_flux : Int → Int → Int → Int → MostArrays α → MostArrays α)
    (gtbx_cells : List (Int × Int × Int)) (max_iters : Int) (a : MostArrays α) :
    MostArrays α :=
  gtbx_cells.foldl (fun a p => iterate_flux p.1 p.2.1 p.2.2 max_iters a) a

/-- What `ABLMost` holds for one level. -/
structure ABLMostLevel (α : Type) where
  arrays : MostArrays α
  m_sst_lev : Option (List (Array4 α))

/-- The state of an `ABLMost` object. -/
structure ABLMostState (α : Type) where
  members : ABLMostMembers α
  m_start_bdy_time : α
  m_bdy_time_interval : α
  levels : List (ABLMostLevel α)

/-- `ABLMost::update_surf_temp`: with a non-zero heating rate, `t_surf` of every level is
set to `surf_temp + surf_heating_rate*time`; `indet` is the value of `surf_temp` when the
constructor has not set it. -/
def ABLMost.update_surf_temp (indet : α) (m : ABLMostMembers α) (time : α)
    (levels : List (ABLMostLevel α)) : List (ABLMostLevel α) :=
  if m.surf_heating_rate ≠ 0 then
    levels.map fun L =>
      { L with arrays :=
        { L.arrays with
          t_surf_arr := fun _ _ _ => m.surf_temp.getD indet + m.surf_heating_rate * time } }
  else
    levels

/-- `ABLMost::update_fluxes` for a level `lev` the object has; the result is the new state,
or the assertion of `time_interp_tsurf` that failed.  `tm_avg` and `umm_avg` are the plane
averages `compute_averages(lev)` produces. -/
def ABLMost.update_fluxes (c : CMath α) (K : ERF_Constants α) (Cnk_b indet zref : α)
    (tm_avg umm_avg : Array4 α) (gtbx : List Box) (gtbx_cells : List (Int × Int × Int))
    (st : ABLMostState α) (lev : Nat) (time : α) (max_iters : Int) :
    Except TimeInterpAbort (ABLMostState α) :=
  match st.levels[lev]? with
  | none => Except.ok st
  | some L =>
    -- Update SST data if we have a valid pointer
    let t_surf :=
      match L.m_sst_lev with
      | some sst =>
          ABLMost.time_interp_tsurf st.m_start_bdy_time st.m_bdy_time_interval sst gtbx
            L.arrays.t_surf_arr time
      | none => Except.ok L.arrays.t_surf_arr
    match t_surf with
    | Except.error e => Except.error e
    | Except.ok t_surf_arr =>
      -- Compute plane averages for all vars (regardless of flux type)
      let L1 : ABLMostLevel α :=
        { L with arrays :=
          { L.arrays with t_surf_arr := t_surf_arr, tm_arr := tm_avg, umm_arr := umm_avg } }
      let levels := st.levels.set lev L1
      -- Iterate the fluxes if moeng type
      if st.members.flux_type = FluxCalcType.MOENG then
        let levels :=
          if st.members.theta_type = ThetaCalcType.SURFACE_TEMPERATURE then
            ABLMost.update_surf_temp indet st.members time levels
          else
            levels
        let most_flux := ABLMost.most_flux_struct st.members.theta_type st.members.rough_type
        let mdata := ABLMost.most_flux_mdata c K Cnk_b zref st.members
        match levels[lev]? with
        | none => Except.ok { st with levels := levels }
        | some L2 =>
          let arrays :=
            ABLMost.compute_fluxes (most_flux.iterate_flux c K mdata) gtbx_cells max_iters
              L2.arrays
          Except.ok { st with levels := levels.set lev { L2 with arrays := arrays } }
      else
        Except.ok { st with levels := levels }

/-- The fields of a level that persist between calls other than `t_surf`: `z_0`, `u_star`,
`t_star` and `olen`. -/
def ABLMostLevel.similarity_fields (L : ABLMostLevel α) :
    Array4 α × Array4 α × Array4 α × Array4 α :=
  (L.arrays.z0_arr, L.arrays.u_star_arr, L.arrays.t_star_arr, L.arrays.olen_arr)

/-- A sample `ABLMost` with one level on the sample arrays, no SST data, and the members the
constructor gives for `most.flux_type = donelan`. -/
def sampleDonelanState : ABLMostState ℚ where
  members :=
    { flux_type := FluxCalcType.DONELAN
      theta_type := ThetaCalcType.ADIABATIC
      rough_type := RoughCalcType.CONSTANT
      z0_const := some 0.1
      surf_temp := none
      surf_heating_rate := 0
      surf_temp_flux := 0
      cnk_a := 0.0185
      depth := 30
      t_surf_fill := [TSurfFill.setVal (some 0)] }
  m_start_bdy_time := 0
  m_bdy_time_interval := 0
  levels := [{ arrays := sampleMostArrays, m_sst_lev := none }]

end UpdateFluxes

end ERF

namespace ERF

/-! ## Theorems -/

/-- C1: for each of the ten named schemes `t` and every stage index `nrk`,
`EfficientAdvType` follows the downgrade table: stage 0 gives `Centered_2nd`;
stage 1 gives `Centered_2nd` for `Centered_2nd`, `Upwind_3rd`, `Centered_4th`,
`Weno_3`, `Weno_3Z`, `Weno_3MZQ`, gives `Upwind_3rd` for `Upwind_5th`, `Weno_5`,
`Weno_5Z`, and gives `Centered_4th` for `Centered_6th`; every stage `nrk ≥ 2`
gives `t` itself. -/
theorem EfficientAdvType_downgrade_table (nrk : Int) (t : AdvType)
    (hnamed : t ≠ AdvType.Unknown) :
    (nrk = 0 → EfficientAdvType nrk t = AdvType.Centered_2nd) ∧
    (nrk = 1 →
      (t ∈ [AdvType.Centered_2nd, AdvType.Upwind_3rd, AdvType.Centered_4th,
            AdvType.Weno_3, AdvType.Weno_3Z, AdvType.Weno_3MZQ] →
        EfficientAdvType nrk t = AdvType.Centered_2nd) ∧
      (t ∈ [AdvType.Upwind_5th, AdvType.Weno_5, AdvType.Weno_5Z] →
        EfficientAdvType nrk t = AdvType.Upwind_3rd) ∧
      (t = AdvType.Centered_6th → EfficientAdvType nrk t = AdvType.Centered_4th)) ∧
    (2 ≤ nrk → EfficientAdvType nrk t = t) := by
  refine ⟨?_, ?_, ?_⟩
  · intro h0
    simp [EfficientAdvType, h0]
  · intro h1
    subst h1
    refine ⟨?_, ?_, ?_⟩
    · intro hmem
      cases t <;> simp [EfficientAdvType] at hmem ⊢
    · intro hmem
      cases t <;> simp [EfficientAdvType] at hmem ⊢
    · intro h6
      subst h6
      simp [EfficientAdvType]
  · intro h2
    have hne0 : nrk ≠ 0 := by omega
    have hne1 : nrk ≠ 1 := by omega
    simp [EfficientAdvType, hne0, hne1]

/-- Witness for C1: stage 1 with `Weno_5` requested runs `Upwind_3rd`. -/
theorem EfficientAdvType_downgrade_table_witness :
    EfficientAdvType 1 AdvType.Weno_5 = AdvType.Upwind_3rd :=
  ((EfficientAdvType_downgrade_table 1 AdvType.Weno_5 (by decide)).2.1 rfl).2.1 (by decide)

section AdvectionTheorems

variable {α : Type} [LinearOrderedField α]

/-- C2 (evaluation at the failing inputs): with `domhi_z = 10` and `Upwind_5th` requested,
the upper z-flux at `k = 0` is interpolated by `interp_omega_v` at the full order 5 although
the order `min(5, 2*(domhi_z+1-k), 2*(k+1))` is 2, and the lower z-flux at `k = domhi_z+1`
is interpolated by `interp_omega_v` at order 5 although `min(5, 2*(domhi_z+2-k), 2*k)` is 2;
the same two cell-centre fluxes seen from the neighbouring face (lower flux at `k = 1`, upper
flux at `k = domhi_z`) use the wall interpolator with `Centered_2nd`. -/
theorem zStencil_full_order_next_to_boundary :
    zStencilNext 0 AdvType.Upwind_5th 10 = ZStencil.full ∧
    ((zStencilNext 0 AdvType.Upwind_5th 10).order AdvType.Upwind_5th : Int) = 5 ∧
    l_spatial_order_hi (AdvType.Upwind_5th.order : Int) 0 10 = 2 ∧
    zStencilPrev 1 AdvType.Upwind_5th 10 = ZStencil.wall AdvType.Centered_2nd ∧
    zStencilPrev 11 AdvType.Upwind_5th 10 = ZStencil.full ∧
    ((zStencilPrev 11 AdvType.Upwind_5th 10).order AdvType.Upwind_5th : Int) = 5 ∧
    l_spatial_order_lo (AdvType.Upwind_5th.order : Int) 11 10 = 2 ∧
    zStencilNext 10 AdvType.Upwind_5th 10 = ZStencil.wall AdvType.Centered_2nd := by
  decide

/-- Away from the two boundary faces, `1 ≤ k ≤ domhi_z`, and for the five schemes with a
vertical stencil, the branches of `AdvectionSrcForZMom_T` apply the orders of the comment:
`min(order, 2*(domhi_z+1-k), 2*(k+1))` above and `min(order, 2*(domhi_z+2-k), 2*k)` below. -/
theorem zStencil_order_interior (k domhi_z : Int) (t : AdvType)
    (ht : t ∈ [AdvType.Centered_2nd, AdvType.Upwind_3rd, AdvType.Centered_4th,
               AdvType.Upwind_5th, AdvType.Centered_6th])
    (h1 : 1 ≤ k) (h2 : k ≤ domhi_z) :
    ((zStencilNext k t domhi_z).order t : Int) = l_spatial_order_hi (t.order : Int) k domhi_z ∧
    ((zStencilPrev k t domhi_z).order t : Int) = l_spatial_order_lo (t.order : Int) k domhi_z := by
  have hk0 : k ≠ 0 := by omega
  have hk1 : k ≠ domhi_z + 1 := by omega
  constructor
  · unfold zStencilNext l_spatial_order_hi
    rw [if_neg hk1]
    by_cases ha : k = domhi_z
    · rw [if_pos ha]
      cases t <;> simp at ht <;> simp only [ZStencil.order, AdvType.order] <;> omega
    · rw [if_neg ha]
      by_cases hb : k = domhi_z - 1 ∨ k = 1
      · rw [if_pos hb]
        cases t <;> simp at ht <;> simp [ZStencil.order, AdvType.order] <;> omega
      · rw [if_neg hb]
        cases t <;> simp at ht <;> simp only [ZStencil.order, AdvType.order] <;> omega
  · unfold zStencilPrev l_spatial_order_lo
    rw [if_neg hk0]
    by_cases ha : k = 1
    · rw [if_pos ha]
      cases t <;> simp at ht <;> simp only [ZStencil.order, AdvType.order] <;> omega
    · rw [if_neg ha]
      by_cases hb : k = 2 ∨ k = domhi_z
      · rw [if_pos hb]
        cases t <;> simp at ht <;> simp [ZStencil.order, AdvType.order] <;> omega
      · rw [if_neg hb]
        cases t <;> simp at ht <;> simp only [ZStencil.order, AdvType.order] <;> omega

/-- C3: in `AdvectionSrcForZMom_T`, for `k = domhi_z+1` the upper z-flux is
`Omega(i,j,k)*w(i,j,k)` and for `k = 0` the lower z-flux is `Omega(i,j,0)*w(i,j,0)`, whatever
the interpolators and the requested scheme; the flux is the same for any other arrays
`Omega2`, `w2` and interpolators that agree with `Omega`, `w` at `(i,j,k)` only. -/
theorem centFluxZZ_prescribed_at_boundary (i j k domhi_z : Int) (Omega w : Array4 α)
    (interp_omega_v : InterpType_V α) (interp_omega_wall : WallInterpType α)
    (vert_adv_type : AdvType) (interp_hi interp_lo : α) :
    (k = domhi_z + 1 →
      centFluxZZNext i j k Omega w interp_omega_v interp_omega_wall vert_adv_type domhi_z
          interp_hi = Omega i j k * w i j k ∧
      ∀ (Omega2 w2 : Array4 α) (v2 : InterpType_V α) (wall2 : WallInterpType α) (val2 : α),
        Omega2 i j k = Omega i j k → w2 i j k = w i j k →
        centFluxZZNext i j k Omega2 w2 v2 wall2 vert_adv_type domhi_z val2 =
          centFluxZZNext i j k Omega w interp_omega_v interp_omega_wall vert_adv_type domhi_z
            interp_hi) ∧
    (k = 0 →
      centFluxZZPrev i j k Omega w interp_omega_v interp_omega_wall vert_adv_type domhi_z
          interp_lo = Omega i j 0 * w i j 0 ∧
      ∀ (Omega2 w2 : Array4 α) (v2 : InterpType_V α) (wall2 : WallInterpType α) (val2 : α),
        Omega2 i j 0 = Omega i j 0 → w2 i j 0 = w i j 0 →
        centFluxZZPrev i j k Omega2 w2 v2 wall2 vert_adv_type domhi_z val2 =
          centFluxZZPrev i j k Omega w interp_omega_v interp_omega_wall vert_adv_type domhi_z
            interp_lo) := by
  constructor
  · intro hk
    have key : ∀ (O W : Array4 α) (v : InterpType_V α) (wl : WallInterpType α) (x : α),
        centFluxZZNext i j k O W v wl vert_adv_type domhi_z x = O i j k * W i j k := by
      intro O W v wl x
      simp [centFluxZZNext, zStencilNext, hk]
    refine ⟨key _ _ _ _ _, ?_⟩
    intro Omega2 w2 v2 wall2 val2 hO hw
    rw [key, key, hO, hw]
  · intro hk
    have key : ∀ (O W : Array4 α) (v : InterpType_V α) (wl : WallInterpType α) (x : α),
        centFluxZZPrev i j k O W v wl vert_adv_type domhi_z x = O i j 0 * W i j 0 := by
      intro O W v wl x
      simp [centFluxZZPrev, zStencilPrev, hk]
    refine ⟨key _ _ _ _ _, ?_⟩
    intro Omega2 w2 v2 wall2 val2 hO hw
    rw [key, key, hO, hw]

/-- Witness for C3: with `domhi_z = 10`, the upper z-flux at `k = 11` and the lower z-flux
at `k = 0` of a sample column are the products `Omega*w` at that face. -/
theorem centFluxZZ_prescribed_at_boundary_witness :
    centFluxZZNext 0 0 11 sampleField sampleField (sampleInterpV sampleField)
        (sampleInterpWall sampleField) AdvType.Upwind_5th 10 0
      = sampleField 0 0 11 * sampleField 0 0 11 ∧
    centFluxZZPrev 0 0 0 sampleField sampleField (sampleInterpV sampleField)
        (sampleInterpWall sampleField) AdvType.Upwind_5th 10 0
      = sampleField 0 0 0 * sampleField 0 0 0 :=
  ⟨((centFluxZZ_prescribed_at_boundary 0 0 11 10 sampleField sampleField
        (sampleInterpV sampleField) (sampleInterpWall sampleField)
        AdvType.Upwind_5th 0 0).1 (by decide)).1,
   ((centFluxZZ_prescribed_at_boundary 0 0 0 10 sampleField sampleField
        (sampleInterpV sampleField) (sampleInterpWall sampleField)
        AdvType.Upwind_5th 0 0).2 (by decide)).1⟩

/-- The averaged `detJ` of flat terrain, `0.5*(1+1)`, is 1. -/
theorem half_mul_one_add_one : (0.5 : α) * (1 + 1) = 1 := by
  norm_num

/-- C4: if `detJ` is 1 at every cell and each of the four `h_zeta` factors is 1 at every
index, then `AdvectionSrcForXMom_T`, `AdvectionSrcForYMom_T` and `AdvectionSrcForZMom_T`
return the Cartesian flux divergence
`[(Fx_next - Fx_prev)*dxInv + (Fy_next - Fy_prev)*dyInv]*mfsq + (Fz_next - Fz_prev)*dzInv`
whose fluxes carry no terrain factor. -/
theorem AdvectionSrcForMom_flat_terrain (tm : TerrainMetrics α) (i j k : Int)
    (rho_u rho_v Omega w z_nd detJ : Array4 α)
    (interp_h : InterpType_H α) (interp_v : InterpType_V α) (interp_wall : WallInterpType α)
    (cellSizeInv : GpuArray3 α) (mf_m mf_u_inv mf_v_inv : Array4 α)
    (vert_adv_type : AdvType) (domhi_z : Int)
    (hdetJ : ∀ i j k, detJ i j k = 1)
    (hcc : ∀ i j k, tm.Compute_h_zeta_AtCellCenter i j k cellSizeInv z_nd = 1)
    (heK : ∀ i j k, tm.Compute_h_zeta_AtEdgeCenterK i j k cellSizeInv z_nd = 1)
    (heJ : ∀ i j k, tm.Compute_h_zeta_AtEdgeCenterJ i j k cellSizeInv z_nd = 1)
    (heI : ∀ i j k, tm.Compute_h_zeta_AtEdgeCenterI i j k cellSizeInv z_nd = 1) :
    AdvectionSrcForXMom_T tm i j k rho_u rho_v Omega z_nd detJ interp_h interp_v
        cellSizeInv mf_u_inv mf_v_inv
      = CartesianFluxDivergenceXMom i j k rho_u rho_v Omega interp_h interp_v
          cellSizeInv mf_u_inv mf_v_inv ∧
    AdvectionSrcForYMom_T tm i j k rho_u rho_v Omega z_nd detJ interp_h interp_v
        cellSizeInv mf_u_inv mf_v_inv
      = CartesianFluxDivergenceYMom i j k rho_u rho_v Omega interp_h interp_v
          cellSizeInv mf_u_inv mf_v_inv ∧
    AdvectionSrcForZMom_T tm i j k rho_u rho_v Omega w z_nd detJ interp_h interp_v interp_wall
        cellSizeInv mf_m mf_u_inv mf_v_inv vert_adv_type domhi_z
      = CartesianFluxDivergenceZMom i j k rho_u rho_v Omega w interp_h interp_v interp_wall
          cellSizeInv mf_m mf_u_inv mf_v_inv vert_adv_type domhi_z := by
  refine ⟨?_, ?_, ?_⟩
  · simp only [AdvectionSrcForXMom_T, CartesianFluxDivergenceXMom, hdetJ, hcc, heK,
      half_mul_one_add_one, div_one, mul_one]
    ring
  · simp only [AdvectionSrcForYMom_T, CartesianFluxDivergenceYMom, hdetJ, hcc, heK,
      half_mul_one_add_one, div_one, mul_one]
    ring
  · simp only [AdvectionSrcForZMom_T, CartesianFluxDivergenceZMom, hdetJ, heJ, heI,
      half_mul_one_add_one, div_one, mul_one]
    ring

/-- Witness for C4: the three kernels on flat terrain with sample fields. -/
theorem AdvectionSrcForMom_flat_terrain_witness :
    AdvectionSrcForXMom_T flatMetrics 0 0 1 sampleField sampleField sampleField sampleField
        unitField (sampleInterpH sampleField) (sampleInterpV sampleField)
        sampleCellSizeInv sampleField sampleField
      = CartesianFluxDivergenceXMom 0 0 1 sampleField sampleField sampleField
          (sampleInterpH sampleField) (sampleInterpV sampleField)
          sampleCellSizeInv sampleField sampleField ∧
    AdvectionSrcForYMom_T flatMetrics 0 0 1 sampleField sampleField sampleField sampleField
        unitField (sampleInterpH sampleField) (sampleInterpV sampleField)
        sampleCellSizeInv sampleField sampleField
      = CartesianFluxDivergenceYMom 0 0 1 sampleField sampleField sampleField
          (sampleInterpH sampleField) (sampleInterpV sampleField)
          sampleCellSizeInv sampleField sampleField ∧
    AdvectionSrcForZMom_T flatMetrics 0 0 1 sampleField sampleField sampleField sampleField
        sampleField unitField (sampleInterpH sampleField) (sampleInterpV sampleField)
        (sampleInterpWall sampleField) sampleCellSizeInv sampleField sampleField sampleField
        AdvType.Upwind_5th 10
      = CartesianFluxDivergenceZMom 0 0 1 sampleField sampleField sampleField sampleField
          (sampleInterpH sampleField) (sampleInterpV sampleField)
          (sampleInterpWall sampleField) sampleCellSizeInv sampleField sampleField sampleField
          AdvType.Upwind_5th 10 :=
  AdvectionSrcForMom_flat_terrain flatMetrics 0 0 1 sampleField sampleField sampleField
    sampleField sampleField unitField (sampleInterpH sampleField) (sampleInterpV sampleField)
    (sampleInterpWall sampleField) sampleCellSizeInv sampleField sampleField sampleField
    AdvType.Upwind_5th 10 (fun _ _ _ => rfl) (fun _ _ _ => rfl) (fun _ _ _ => rfl)
    (fun _ _ _ => rfl) (fun _ _ _ => rfl)

/-- C5: if `rho_u`, `rho_v` and `Omega` are zero at every index and the averaged `detJ` the
kernels divide by is non-zero, then `AdvectionSrcForXMom_T`, `AdvectionSrcForYMom_T` and
`AdvectionSrcForZMom_T` return 0 at every `(i,j,k)`, for every `domhi_z`, every scheme tag,
every choice of interpolators and terrain metrics, and every map factor. -/
theorem AdvectionSrcForMom_zero_at_rest (tm : TerrainMetrics α) (i j k : Int)
    (rho_u rho_v Omega w z_nd detJ : Array4 α)
    (interp_h : InterpType_H α) (interp_v : InterpType_V α) (interp_wall : WallInterpType α)
    (cellSizeInv : GpuArray3 α) (mf_m mf_u_inv mf_v_inv : Array4 α)
    (vert_adv_type : AdvType) (domhi_z : Int)
    (hu : ∀ i j k, rho_u i j k = 0) (hv : ∀ i j k, rho_v i j k = 0)
    (hO : ∀ i j k, Omega i j k = 0)
    (_hdetJx : 0.5 * (detJ i j k + detJ (i-1) j k) ≠ 0)
    (_hdetJy : 0.5 * (detJ i j k + detJ i (j-1) k) ≠ 0)
    (_hdetJz : 0.5 * (detJ i j k + detJ i j (k-1)) ≠ 0) :
    AdvectionSrcForXMom_T tm i j k rho_u rho_v Omega z_nd detJ interp_h interp_v
        cellSizeInv mf_u_inv mf_v_inv = 0 ∧
    AdvectionSrcForYMom_T tm i j k rho_u rho_v Omega z_nd detJ interp_h interp_v
        cellSizeInv mf_u_inv mf_v_inv = 0 ∧
    AdvectionSrcForZMom_T tm i j k rho_u rho_v Omega w z_nd detJ interp_h interp_v interp_wall
        cellSizeInv mf_m mf_u_inv mf_v_inv vert_adv_type domhi_z = 0 := by
  refine ⟨?_, ?_, ?_⟩
  · simp [AdvectionSrcForXMom_T, hu, hv, hO]
  · simp [AdvectionSrcForYMom_T, hu, hv, hO]
  · have hN : ∀ x : α, centFluxZZNext i j k Omega w interp_v interp_wall vert_adv_type
        domhi_z x = 0 := by
      intro x
      simp only [centFluxZZNext, hO]
      cases zStencilNext k vert_adv_type domhi_z <;> simp
    have hP : ∀ x : α, centFluxZZPrev i j k Omega w interp_v interp_wall vert_adv_type
        domhi_z x = 0 := by
      intro x
      simp only [centFluxZZPrev, hO]
      cases zStencilPrev k vert_adv_type domhi_z <;> simp
    simp [AdvectionSrcForZMom_T, hu, hv, hN, hP]

/-- Witness for C5: the three kernels on a fluid at rest, with sample interpolators, map
factors and a non-flat `detJ`. -/
theorem AdvectionSrcForMom_zero_at_rest_witness :
    AdvectionSrcForXMom_T flatMetrics 0 0 1 zeroField zeroField zeroField sampleField
        sampleField (sampleInterpH sampleField) (sampleInterpV sampleField)
        sampleCellSizeInv sampleField sampleField = 0 ∧
    AdvectionSrcForYMom_T flatMetrics 0 0 1 zeroField zeroField zeroField sampleField
        sampleField (sampleInterpH sampleField) (sampleInterpV sampleField)
        sampleCellSizeInv sampleField sampleField = 0 ∧
    AdvectionSrcForZMom_T flatMetrics 0 0 1 zeroField zeroField zeroField sampleField
        sampleField sampleField (sampleInterpH sampleField) (sampleInterpV sampleField)
        (sampleInterpWall sampleField) sampleCellSizeInv sampleField sampleField sampleField
        AdvType.Upwind_5th 10 = 0 :=
  AdvectionSrcForMom_zero_at_rest flatMetrics 0 0 1 zeroField zeroField zeroField sampleField
    sampleField sampleField (sampleInterpH sampleField) (sampleInterpV sampleField)
    (sampleInterpWall sampleField) sampleCellSizeInv sampleField sampleField sampleField
    AdvType.Upwind_5th 10 (fun _ _ _ => rfl) (fun _ _ _ => rfl) (fun _ _ _ => rfl)
    (by norm_num [sampleField]) (by norm_num [sampleField]) (by norm_num [sampleField])


/-- C6 (counterexample): built without assertions, `AdvectionSrcForMomVert_T` called with
`Weno_5`, which is none of the five schemes with a vertical stencil, does not fail: it
returns with the tendency arrays as they were. -/
theorem AdvectionSrcForMomVert_T_silent_without_assertions :
    AdvType.Weno_5 ∉ [AdvType.Centered_2nd, AdvType.Upwind_3rd, AdvType.Centered_4th,
                      AdvType.Upwind_5th, AdvType.Centered_6th] ∧
    (AdvectionSrcForMomVert_T false flatMetrics sampleClasses sampleInterpH sampleBox sampleBox
        sampleBox sampleTendencies sampleField sampleField sampleField sampleField sampleField
        sampleField sampleField unitField sampleCellSizeInv unitField unitField unitField
        AdvType.Weno_5 10).assertion = none ∧
    (AdvectionSrcForMomVert_T false flatMetrics sampleClasses sampleInterpH sampleBox sampleBox
        sampleBox sampleTendencies sampleField sampleField sampleField sampleField sampleField
        sampleField sampleField unitField sampleCellSizeInv unitField unitField unitField
        AdvType.Weno_5 10).rhs.wrappersRun = [] :=
  ⟨by decide, rfl, rfl⟩

/-- C6 (amended): `AdvectionSrcForMomVert_T` fails with the assertion "Unknown advection
scheme!" if and only if assertions are compiled in and `vert_adv_type` is none of
`Centered_2nd`, `Upwind_3rd`, `Centered_4th`, `Upwind_5th`, `Centered_6th`; built without
assertions it never fails.  In either build, for such a tag the tendency arrays (and the
record of wrappers run) are returned untouched, and for each of the five schemes no
assertion fails and exactly one `AdvectionSrcForMomWrapper_T` instantiation has run and
produced the tendencies. -/
theorem AdvectionSrcForMomVert_T_dispatch (amrex_assertions : Bool) (tm : TerrainMetrics α)
    (cls : InterpClasses α) (mkInterpType_H : Array4 α → InterpType_H α)
    (bxx bxy bxz : Box) (rhs : MomTendencies α)
    (rho_u rho_v Omega u v w z_nd detJ : Array4 α)
    (cellSizeInv : GpuArray3 α) (mf_m mf_u_inv mf_v_inv : Array4 α)
    (vert_adv_type : AdvType) (domhi_z : Int) :
    ((AdvectionSrcForMomVert_T amrex_assertions tm cls mkInterpType_H bxx bxy bxz rhs rho_u
          rho_v Omega u v w z_nd detJ cellSizeInv mf_m mf_u_inv mf_v_inv vert_adv_type
          domhi_z).assertion
        = some "Unknown advection scheme!" ↔
      amrex_assertions = true ∧
      vert_adv_type ∉ [AdvType.Centered_2nd, AdvType.Upwind_3rd, AdvType.Centered_4th,
                       AdvType.Upwind_5th, AdvType.Centered_6th]) ∧
    ((AdvectionSrcForMomVert_T amrex_assertions tm cls mkInterpType_H bxx bxy bxz rhs rho_u
          rho_v Omega u v w z_nd detJ cellSizeInv mf_m mf_u_inv mf_v_inv vert_adv_type
          domhi_z).assertion = none ∨
      (AdvectionSrcForMomVert_T amrex_assertions tm cls mkInterpType_H bxx bxy bxz rhs rho_u
          rho_v Omega u v w z_nd detJ cellSizeInv mf_m mf_u_inv mf_v_inv vert_adv_type
          domhi_z).assertion = some "Unknown advection scheme!") ∧
    (amrex_assertions = false →
      (AdvectionSrcForMomVert_T amrex_assertions tm cls mkInterpType_H bxx bxy bxz rhs rho_u
          rho_v Omega u v w z_nd detJ cellSizeInv mf_m mf_u_inv mf_v_inv vert_adv_type
          domhi_z).assertion = none) ∧
    (vert_adv_type ∉ [AdvType.Centered_2nd, AdvType.Upwind_3rd, AdvType.Centered_4th,
                      AdvType.Upwind_5th, AdvType.Centered_6th] →
      (AdvectionSrcForMomVert_T amrex_assertions tm cls mkInterpType_H bxx bxy bxz rhs rho_u
          rho_v Omega u v w z_nd detJ cellSizeInv mf_m mf_u_inv mf_v_inv vert_adv_type
          domhi_z).rhs = rhs) ∧
    (vert_adv_type ∈ [AdvType.Centered_2nd, AdvType.Upwind_3rd, AdvType.Centered_4th,
                      AdvType.Upwind_5th, AdvType.Centered_6th] →
      (AdvectionSrcForMomVert_T amrex_assertions tm cls mkInterpType_H bxx bxy bxz rhs rho_u
          rho_v Omega u v w z_nd detJ cellSizeInv mf_m mf_u_inv mf_v_inv vert_adv_type
          domhi_z).assertion = none ∧
      ∃ name : VertInterpName,
        (AdvectionSrcForMomVert_T amrex_assertions tm cls mkInterpType_H bxx bxy bxz rhs rho_u
            rho_v Omega u v w z_nd detJ cellSizeInv mf_m mf_u_inv mf_v_inv vert_adv_type
            domhi_z).rhs
          = AdvectionSrcForMomWrapper_T tm cls mkInterpType_H name bxx bxy bxz rhs
              rho_u rho_v Omega u v w z_nd detJ cellSizeInv mf_m mf_u_inv mf_v_inv
              vert_adv_type domhi_z ∧
        (AdvectionSrcForMomVert_T amrex_assertions tm cls mkInterpType_H bxx bxy bxz rhs rho_u
            rho_v Omega u v w z_nd detJ cellSizeInv mf_m mf_u_inv mf_v_inv vert_adv_type
            domhi_z).rhs.wrappersRun
          = name :: rhs.wrappersRun) := by
  refine ⟨?_, ?_, ?_, ?_, ?_⟩
  · cases amrex_assertions <;> cases vert_adv_type <;> simp [AdvectionSrcForMomVert_T]
  · cases amrex_assertions <;> cases vert_adv_type <;> simp [AdvectionSrcForMomVert_T]
  · intro h
    subst h
    cases vert_adv_type <;> simp [AdvectionSrcForMomVert_T]
  · intro h
    cases vert_adv_type <;> simp [AdvectionSrcForMomVert_T] at h ⊢
  · intro h
    cases vert_adv_type <;> simp [AdvectionSrcForMomVert_T] at h ⊢
    · exact ⟨VertInterpName.CENTERED2, rfl, rfl⟩
    · exact ⟨VertInterpName.UPWIND3, rfl, rfl⟩
    · exact ⟨VertInterpName.CENTERED4, rfl, rfl⟩
    · exact ⟨VertInterpName.UPWIND5, rfl, rfl⟩
    · exact ⟨VertInterpName.CENTERED6, rfl, rfl⟩

/-- Witness for C6 (amended): with assertions compiled in `Weno_5` fails the assertion and
leaves the sample tendencies as they were; `Upwind_5th` fails no assertion and runs one
wrapper. -/
theorem AdvectionSrcForMomVert_T_dispatch_witness :
    (AdvectionSrcForMomVert_T true flatMetrics sampleClasses sampleInterpH sampleBox sampleBox
        sampleBox sampleTendencies sampleField sampleField sampleField sampleField sampleField
        sampleField sampleField unitField sampleCellSizeInv unitField unitField unitField
        AdvType.Weno_5 10).assertion = some "Unknown advection scheme!" ∧
    (AdvectionSrcForMomVert_T true flatMetrics sampleClasses sampleInterpH sampleBox sampleBox
        sampleBox sampleTendencies sampleField sampleField sampleField sampleField sampleField
        sampleField sampleField unitField sampleCellSizeInv unitField unitField unitField
        AdvType.Weno_5 10).rhs = sampleTendencies ∧
    (AdvectionSrcForMomVert_T true flatMetrics sampleClasses sampleInterpH sampleBox sampleBox
        sampleBox sampleTendencies sampleField sampleField sampleField sampleField sampleField
        sampleField sampleField unitField sampleCellSizeInv unitField unitField unitField
        AdvType.Upwind_5th 10).assertion = none :=
  ⟨(AdvectionSrcForMomVert_T_dispatch true flatMetrics sampleClasses sampleInterpH sampleBox
      sampleBox sampleBox sampleTendencies sampleField sampleField sampleField sampleField
      sampleField sampleField sampleField unitField sampleCellSizeInv unitField unitField
      unitField AdvType.Weno_5 10).1.2 ⟨rfl, by decide⟩,
   (AdvectionSrcForMomVert_T_dispatch true flatMetrics sampleClasses sampleInterpH sampleBox
      sampleBox sampleBox sampleTendencies sampleField sampleField sampleField sampleField
      sampleField sampleField sampleField unitField sampleCellSizeInv unitField unitField
      unitField AdvType.Weno_5 10).2.2.2.1 (by decide),
   ((AdvectionSrcForMomVert_T_dispatch true flatMetrics sampleClasses sampleInterpH sampleBox
      sampleBox sampleBox sampleTendencies sampleField sampleField sampleField sampleField
      sampleField sampleField sampleField unitField sampleCellSizeInv unitField unitField
      unitField AdvType.Upwind_5th 10).2.2.2.2 (by decide)).1⟩

end AdvectionTheorems

/-! ### MOST -/

section MOSTTheorems

variable {α : Type} [LinearOrderedField α]

/-- Reading back the entry just written. -/
theorem Array4.set_same {β : Type} (a : Array4 β) (i j k : Int) (x : β) :
    a.set i j k x i j k = x := by
  simp [Array4.set]

/-- Writing `(i,j,k)` leaves every other entry as it was. -/
theorem Array4.set_other {β : Type} (a : Array4 β) (i j k i2 j2 k2 : Int) (x : β)
    (h : ¬(i2 = i ∧ j2 = j ∧ k2 = k)) : a.set i j k x i2 j2 k2 = a i2 j2 k2 := by
  simp [Array4.set, h]

/-- The literal `0.0` is zero. -/
theorem zero_literal : (0.0 : α) = 0 := by
  norm_num

/-- C7: `adiabatic::iterate_flux` writes `u_star(i,j,k) = kappa*umm/log(zref/z0)`,
`t_star(i,j,k) = 0` and `olen(i,j,k) = 1e16`, for every column and every `max_iters`; it
leaves `z0`, `t_surf` (and `umm`, `tm`) and every other entry of the written arrays as they
were; and the three written values are the same for any other `max_iters` and any other
arrays that agree at `(i,j,k)` on `z0` and `umm`. -/
theorem adiabatic_iterate_flux_closed_form (c : CMath α) (mdata : most_data α) (i j k : Int)
    (max_iters : Int) (a : MostArrays α) :
    (adiabatic.iterate_flux c mdata i j k max_iters a).u_star_arr i j k
      = mdata.kappa * a.umm_arr i j k / c.log (mdata.zref / a.z0_arr i j k) ∧
    (adiabatic.iterate_flux c mdata i j k max_iters a).t_star_arr i j k = 0 ∧
    (adiabatic.iterate_flux c mdata i j k max_iters a).olen_arr i j k = 1.0e16 ∧
    (adiabatic.iterate_flux c mdata i j k max_iters a).z0_arr = a.z0_arr ∧
    (adiabatic.iterate_flux c mdata i j k max_iters a).t_surf_arr = a.t_surf_arr ∧
    (adiabatic.iterate_flux c mdata i j k max_iters a).umm_arr = a.umm_arr ∧
    (adiabatic.iterate_flux c mdata i j k max_iters a).tm_arr = a.tm_arr ∧
    (∀ i2 j2 k2 : Int, ¬(i2 = i ∧ j2 = j ∧ k2 = k) →
      (adiabatic.iterate_flux c mdata i j k max_iters a).u_star_arr i2 j2 k2
        = a.u_star_arr i2 j2 k2 ∧
      (adiabatic.iterate_flux c mdata i j k max_iters a).t_star_arr i2 j2 k2
        = a.t_star_arr i2 j2 k2 ∧
      (adiabatic.iterate_flux c mdata i j k max_iters a).olen_arr i2 j2 k2
        = a.olen_arr i2 j2 k2) ∧
    (∀ (max_iters2 : Int) (a2 : MostArrays α),
      a2.z0_arr i j k = a.z0_arr i j k → a2.umm_arr i j k = a.umm_arr i j k →
      (adiabatic.iterate_flux c mdata i j k max_iters2 a2).u_star_arr i j k
        = (adiabatic.iterate_flux c mdata i j k max_iters a).u_star_arr i j k ∧
      (adiabatic.iterate_flux c mdata i j k max_iters2 a2).t_star_arr i j k
        = (adiabatic.iterate_flux c mdata i j k max_iters a).t_star_arr i j k ∧
      (adiabatic.iterate_flux c mdata i j k max_iters2 a2).olen_arr i j k
        = (adiabatic.iterate_flux c mdata i j k max_iters a).olen_arr i j k) := by
  refine ⟨?_, ?_, ?_, rfl, rfl, rfl, rfl, ?_, ?_⟩
  · simp [adiabatic.iterate_flux, Array4.set_same]
  · simp [adiabatic.iterate_flux, Array4.set_same, zero_literal]
  · simp [adiabatic.iterate_flux, Array4.set_same]
  · intro i2 j2 k2 h
    simp only [adiabatic.iterate_flux]
    exact ⟨Array4.set_other _ _ _ _ _ _ _ _ h, Array4.set_other _ _ _ _ _ _ _ _ h,
      Array4.set_other _ _ _ _ _ _ _ _ h⟩
  · intro max_iters2 a2 hz hu
    simp [adiabatic.iterate_flux, Array4.set_same, hz, hu]

/-- Witness for C7: two calls on sample arrays that agree on `z0` and `umm` only, with
`max_iters` 25 and 3, write the same friction velocity at `(0,0,0)`, and an entry away from
`(0,0,0)` keeps its previous value. -/
theorem adiabatic_iterate_flux_closed_form_witness :
    (adiabatic.iterate_flux sampleCMath (mdata_const sampleConstants 0 10 0) 0 0 0 3
        sampleMostArrays2).u_star_arr 0 0 0
      = (adiabatic.iterate_flux sampleCMath (mdata_const sampleConstants 0 10 0) 0 0 0 25
        sampleMostArrays).u_star_arr 0 0 0 ∧
    (adiabatic.iterate_flux sampleCMath (mdata_const sampleConstants 0 10 0) 0 0 0 25
        sampleMostArrays).u_star_arr 1 0 0 = sampleMostArrays.u_star_arr 1 0 0 :=
  ⟨((adiabatic_iterate_flux_closed_form sampleCMath (mdata_const sampleConstants 0 10 0)
        0 0 0 25 sampleMostArrays).2.2.2.2.2.2.2.2 3 sampleMostArrays2 rfl rfl).1,
   ((adiabatic_iterate_flux_closed_form sampleCMath (mdata_const sampleConstants 0 10 0)
        0 0 0 25 sampleMostArrays).2.2.2.2.2.2.2.1 1 0 0 (by decide)).1⟩

/-- The loop test `std::abs(u_star_arr(i,j,k) - ustar) > tol && iter <= max_iters` fails
exactly when the last change is at most `tol` or `iter` exceeds `max_iters`. -/
theorem loop_test_fails_iff (max_iters : Int) (s : IterState α) :
    ¬(|s.u_star - s.ustar| > tol ∧ s.iter ≤ max_iters) ↔
      (|s.u_star - s.ustar| ≤ tol ∨ max_iters < s.iter) := by
  rw [not_and_or, not_lt, not_le]

/-- When the loop test fails after the pass, the loop exits with the state of that pass. -/
theorem doWhile_stop (max_iters : Int) (body : IterState α → IterState α) (s : IterState α)
    (h : |(s.pass body).u_star - (s.pass body).ustar| ≤ tol ∨ max_iters < (s.pass body).iter) :
    doWhile max_iters body s = s.pass body := by
  rw [doWhile, dif_neg ((loop_test_fails_iff max_iters _).2 h)]

/-- When the loop test holds after the pass, the loop goes on from the state of that pass. -/
theorem doWhile_continue (max_iters : Int) (body : IterState α → IterState α)
    (s : IterState α)
    (h : ¬(|(s.pass body).u_star - (s.pass body).ustar| ≤ tol ∨
            max_iters < (s.pass body).iter)) :
    doWhile max_iters body s = doWhile max_iters body (s.pass body) := by
  rw [doWhile, dif_pos (not_not.1 (mt (loop_test_fails_iff max_iters _).1 h))]

/-- The loop exits right after a pass from some state `s2`, with the loop test failing
there; `s2` is the start state, or a later state whose counter is at most `max_iters`. -/
theorem doWhile_last_pass (max_iters : Int) (body : IterState α → IterState α)
    (s : IterState α) :
    ∃ s2 : IterState α, doWhile max_iters body s = s2.pass body ∧
      (|(s2.pass body).u_star - (s2.pass body).ustar| ≤ tol ∨
        max_iters < (s2.pass body).iter) ∧
      (s2 = s ∨ (s.iter < s2.iter ∧ s2.iter ≤ max_iters)) := by
  induction s using doWhile.induct max_iters body with
  | case1 x hx ih =>
    obtain ⟨s2, h1, h2, h3⟩ := ih
    refine ⟨s2, ?_, h2, Or.inr ?_⟩
    · rw [doWhile, dif_pos hx]
      exact h1
    · have hxi : (x.pass body).iter = x.iter + 1 := rfl
      rcases h3 with h3 | ⟨h3, h4⟩
      · subst h3
        exact ⟨by omega, hx.2⟩
      · exact ⟨by omega, h4⟩
  | case2 x hx =>
    exact ⟨x, by rw [doWhile, dif_neg hx], (loop_test_fails_iff max_iters _).1 hx, Or.inl rfl⟩

/-- With `max_iters` below 1 the loop makes exactly one pass. -/
theorem doWhile_single_pass (max_iters : Int) (body : IterState α → IterState α)
    (s : IterState α) (h : max_iters < s.iter + 1) :
    doWhile max_iters body s = s.pass body :=
  doWhile_stop max_iters body s (Or.inr h)

/-- Every struct's `loop` is the `do ... while` of its body from the initial state. -/
theorem IterativeFlux.loop_eq (V : IterativeFlux) (c : CMath α) (K : ERF_Constants α)
    (mdata : most_data α) (i j k : Int) (max_iters : Int) (a : MostArrays α) :
    V.loop c K mdata i j k max_iters a
      = doWhile max_iters (V.body c K mdata i j k a) (IterState.init c mdata i j k a) := by
  cases V <;> rfl

/-- Every loop body starts with `ustar = u_star_arr(i,j,k)`: after a pass, `ustar` holds the
iterate from before the pass. -/
theorem IterativeFlux.pass_ustar (V : IterativeFlux) (c : CMath α) (K : ERF_Constants α)
    (mdata : most_data α) (i j k : Int) (a : MostArrays α) (s : IterState α) :
    (s.pass (V.body c K mdata i j k a)).ustar = s.u_star := by
  cases V <;> rfl

/-- Every `iterate_flux` stores the last iterate in `u_star_arr(i,j,k)`. -/
theorem IterativeFlux.stored_u_star (V : IterativeFlux) (c : CMath α) (K : ERF_Constants α)
    (mdata : most_data α) (i j k : Int) (max_iters : Int) (a : MostArrays α) :
    (V.iterate_flux c K mdata i j k max_iters a).u_star_arr i j k
      = (V.loop c K mdata i j k max_iters a).u_star := by
  cases V <;> exact Array4.set_same _ _ _ _ _

/-- C9: in every iterative `iterate_flux`, with `tol = 1e-5`: after each pass (which turns
the state `s` into `s.pass body`, the new iterate in `u_star` and the old one, `s.u_star`,
in `ustar`) the loop stops exactly when `|u_star_new - u_star_old| <= tol` or the counter
exceeds `max_iters`, and otherwise goes on; the loop always exits, right after a pass from
some state `s2`; `u_star_arr(i,j,k)` then holds the iterate of that last pass, whether or
not the test on the change was met; and if the counter at exit is still at most `max_iters`,
the stored value differs from the previous iterate `s2.u_star` by at most `tol`. -/
theorem iterate_flux_convergence_test (V : IterativeFlux) (c : CMath α)
    (K : ERF_Constants α) (mdata : most_data α) (i j k : Int) (max_iters : Int)
    (a : MostArrays α) :
    (tol : α) = 1 / 100000 ∧
    (∀ s : IterState α,
      (s.pass (V.body c K mdata i j k a)).ustar = s.u_star ∧
      ((|(s.pass (V.body c K mdata i j k a)).u_star - s.u_star| ≤ tol ∨
          max_iters < (s.pass (V.body c K mdata i j k a)).iter) →
        doWhile max_iters (V.body c K mdata i j k a) s
          = s.pass (V.body c K mdata i j k a)) ∧
      (¬(|(s.pass (V.body c K mdata i j k a)).u_star - s.u_star| ≤ tol ∨
          max_iters < (s.pass (V.body c K mdata i j k a)).iter) →
        doWhile max_iters (V.body c K mdata i j k a) s
          = doWhile max_iters (V.body c K mdata i j k a)
              (s.pass (V.body c K mdata i j k a)))) ∧
    (∃ s2 : IterState α,
      V.loop c K mdata i j k max_iters a = s2.pass (V.body c K mdata i j k a) ∧
      (V.iterate_flux c K mdata i j k max_iters a).u_star_arr i j k
        = (s2.pass (V.body c K mdata i j k a)).u_star ∧
      ((V.loop c K mdata i j k max_iters a).iter ≤ max_iters →
        |(V.iterate_flux c K mdata i j k max_iters a).u_star_arr i j k - s2.u_star| ≤ tol)) := by
  refine ⟨by norm_num [tol], ?_, ?_⟩
  · intro s
    have hu := V.pass_ustar c K mdata i j k a s
    refine ⟨hu, ?_, ?_⟩
    · intro h
      rw [← hu] at h
      exact doWhile_stop max_iters _ s h
    · intro h
      rw [← hu] at h
      exact doWhile_continue max_iters _ s h
  · obtain ⟨s2, h1, h2, _⟩ := doWhile_last_pass max_iters (V.body c K mdata i j k a)
      (IterState.init c mdata i j k a)
    rw [← V.loop_eq] at h1
    have hst := V.stored_u_star c K mdata i j k max_iters a
    refine ⟨s2, h1, by rw [hst, h1], ?_⟩
    intro hcap
    rw [hst, h1]
    rw [h1] at hcap
    rcases h2 with h2 | h2
    · rwa [V.pass_ustar] at h2
    · omega

/-- Witness for C9: with `max_iters = 0` the counter exceeds the cap after the first pass,
so the loop of `surface_flux` stops there on the sample column. -/
theorem iterate_flux_convergence_test_witness :
    doWhile 0 (IterativeFlux.surface_flux.body sampleCMath sampleConstants
        (mdata_const sampleConstants 0 10 (-0.05)) 0 0 0 sampleMostArrays)
        (IterState.init sampleCMath (mdata_const sampleConstants 0 10 (-0.05)) 0 0 0
          sampleMostArrays)
      = (IterState.init sampleCMath (mdata_const sampleConstants 0 10 (-0.05)) 0 0 0
          sampleMostArrays).pass
        (IterativeFlux.surface_flux.body sampleCMath sampleConstants
          (mdata_const sampleConstants 0 10 (-0.05)) 0 0 0 sampleMostArrays) :=
  ((iterate_flux_convergence_test IterativeFlux.surface_flux sampleCMath sampleConstants
      (mdata_const sampleConstants 0 10 (-0.05)) 0 0 0 0 sampleMostArrays).2.1
    (IterState.init sampleCMath (mdata_const sampleConstants 0 10 (-0.05)) 0 0 0
      sampleMostArrays)).2.1 (Or.inr (by decide))


/-- A property of the loop variables that holds at the start and is kept by every pass holds
for the state that entered the last pass. -/
theorem doWhile_invariant (max_iters : Int) (body : IterState α → IterState α)
    (Inv : IterState α → Prop) (hstep : ∀ t, Inv t → Inv (t.pass body))
    (s : IterState α) (hs : Inv s) :
    ∃ s2 : IterState α, doWhile max_iters body s = s2.pass body ∧ Inv s2 := by
  induction s using doWhile.induct max_iters body with
  | case1 x hx ih =>
    obtain ⟨s2, h1, h2⟩ := ih (hstep x hs)
    exact ⟨s2, by rw [doWhile, dif_pos hx]; exact h1, h2⟩
  | case2 x hx =>
    exact ⟨x, by rw [doWhile, dif_neg hx], hs⟩

/-- C12 (amended): after `adiabatic_charnock::iterate_flux`, `surface_flux_charnock::iterate_flux`
or `surface_temp_charnock::iterate_flux` returns, the roughness height written to
`z0_arr(i,j,k)` is the Charnock roughness `(Cnk_a/gravity) * u^2` of the friction velocity
`u` that entered the last pass of the loop; `u_star_arr(i,j,k)` holds the next iterate, which
is within `tol` of `u` unless the loop left because `iter` exceeded `max_iters`. -/
theorem charnock_z0_of_previous_iterate (V : IterativeFlux)
    (hV : V ∈ [IterativeFlux.adiabatic_charnock, IterativeFlux.surface_flux_charnock,
               IterativeFlux.surface_temp_charnock])
    (c : CMath α) (K : ERF_Constants α) (mdata : most_data α) (i j k : Int)
    (max_iters : Int) (a : MostArrays α) :
    ∃ s2 : IterState α,
      V.loop c K mdata i j k max_iters a = s2.pass (V.body c K mdata i j k a) ∧
      (V.iterate_flux c K mdata i j k max_iters a).z0_arr i j k
        = (mdata.Cnk_a / mdata.gravity) * s2.u_star * s2.u_star ∧
      (V.iterate_flux c K mdata i j k max_iters a).u_star_arr i j k
        = (s2.pass (V.body c K mdata i j k a)).u_star ∧
      (|(V.iterate_flux c K mdata i j k max_iters a).u_star_arr i j k - s2.u_star| ≤ tol ∨
        max_iters < (V.loop c K mdata i j k max_iters a).iter) := by
  obtain ⟨s2, h1, h2, _⟩ := doWhile_last_pass max_iters (V.body c K mdata i j k a)
    (IterState.init c mdata i j k a)
  rw [← V.loop_eq] at h1
  have hst := V.stored_u_star c K mdata i j k max_iters a
  have hz : (V.iterate_flux c K mdata i j k max_iters a).z0_arr i j k
      = (V.loop c K mdata i j k max_iters a).z0 := by
    simp only [List.mem_cons, List.mem_singleton, List.not_mem_nil, or_false] at hV
    rcases hV with h | h | h <;> subst h <;> exact Array4.set_same _ _ _ _ _
  have hz2 : (s2.pass (V.body c K mdata i j k a)).z0
      = (mdata.Cnk_a / mdata.gravity) * s2.u_star * s2.u_star := by
    simp only [List.mem_cons, List.mem_singleton, List.not_mem_nil, or_false] at hV
    rcases hV with h | h | h <;> subst h <;> rfl
  refine ⟨s2, h1, by rw [hz, h1, hz2], by rw [hst, h1], ?_⟩
  rw [hst, h1]
  rcases h2 with h2 | h2
  · left
    rwa [V.pass_ustar] at h2
  · exact Or.inr h2

/-- Witness for C12 (amended): `adiabatic_charnock` on the sample column. -/
theorem charnock_z0_of_previous_iterate_witness :
    ∃ s2 : IterState ℚ,
      IterativeFlux.adiabatic_charnock.loop sampleCMath sampleConstants
          (mdata_charnock sampleConstants 0 10 0 0.0185) 0 0 0 25 sampleMostArrays
        = s2.pass (IterativeFlux.adiabatic_charnock.body sampleCMath sampleConstants
            (mdata_charnock sampleConstants 0 10 0 0.0185) 0 0 0 sampleMostArrays) ∧
      (IterativeFlux.adiabatic_charnock.iterate_flux sampleCMath sampleConstants
          (mdata_charnock sampleConstants 0 10 0 0.0185) 0 0 0 25 sampleMostArrays).z0_arr 0 0 0
        = ((mdata_charnock sampleConstants 0 10 0 0.0185).Cnk_a /
            (mdata_charnock sampleConstants 0 10 0 0.0185).gravity) * s2.u_star * s2.u_star ∧
      (IterativeFlux.adiabatic_charnock.iterate_flux sampleCMath sampleConstants
          (mdata_charnock sampleConstants 0 10 0 0.0185) 0 0 0 25 sampleMostArrays).u_star_arr
          0 0 0
        = (s2.pass (IterativeFlux.adiabatic_charnock.body sampleCMath sampleConstants
            (mdata_charnock sampleConstants 0 10 0 0.0185) 0 0 0 sampleMostArrays)).u_star ∧
      (|(IterativeFlux.adiabatic_charnock.iterate_flux sampleCMath sampleConstants
          (mdata_charnock sampleConstants 0 10 0 0.0185) 0 0 0 25 sampleMostArrays).u_star_arr
          0 0 0 - s2.u_star| ≤ tol ∨
        25 < (IterativeFlux.adiabatic_charnock.loop sampleCMath sampleConstants
          (mdata_charnock sampleConstants 0 10 0 0.0185) 0 0 0 25 sampleMostArrays).iter) :=
  charnock_z0_of_previous_iterate IterativeFlux.adiabatic_charnock (by decide) sampleCMath
    sampleConstants (mdata_charnock sampleConstants 0 10 0 0.0185) 0 0 0 25 sampleMostArrays

end MOSTTheorems

/-! ### Evaluation over `ℝ` with the functions of `Real`

`KAPPA = 0.41`, `CONST_GRAV = 9.81`, `PIoTwo = π/2`; `std::log`, `std::exp`, `std::sqrt`,
`std::atan` are `Real.log`, `Real.exp`, `Real.sqrt`, `Real.arctan`. -/

section RealEvaluation

/-- Bounds on `log 100`, from `64 < 100 < 128` and the bounds on `log 2`. -/
theorem log_hundred_bounds : (4.158 : ℝ) < Real.log 100 ∧ Real.log 100 < 4.853 := by
  have h2a := Real.log_two_gt_d9
  have h2b := Real.log_two_lt_d9
  have h64 : Real.log 64 = 6 * Real.log 2 := by
    rw [show (64 : ℝ) = 2 ^ 6 by norm_num, Real.log_pow]; norm_num
  have h128 : Real.log 128 = 7 * Real.log 2 := by
    rw [show (128 : ℝ) = 2 ^ 7 by norm_num, Real.log_pow]; norm_num
  have hlo : Real.log 64 < Real.log 100 := Real.log_lt_log (by norm_num) (by norm_num)
  have hhi : Real.log 100 < Real.log 128 := Real.log_lt_log (by norm_num) (by norm_num)
  constructor <;> linarith

/-- C8 (evaluation at the failing input): `surface_flux::iterate_flux` with `max_iters = 1`
on a stably stratified column (`zref = 10`, `z0 = 0.1`, `umm = 5`, `tm = 300`, heat flux
`-0.05`): the first pass changes the friction velocity by more than `tol` and `iter = 1`
still satisfies `iter <= max_iters`, so a second pass runs; the loop exits with `iter = 2`,
one pass more than `max_iters`. -/
theorem surface_flux_loop_runs_past_max_iters :
    (IterativeFlux.surface_flux.loop (CMath.mk Real.log Real.exp Real.sqrt Real.arctan)
      (ERF_Constants.mk 0.41 9.81 (Real.pi / 2))
      (mdata_const (ERF_Constants.mk 0.41 9.81 (Real.pi / 2)) 0 10 (-0.05)) 0 0 0 1
      sampleMostArrays).iter = 2 := by
  rw [IterativeFlux.loop_eq, doWhile_continue, doWhile_stop]
  · rfl
  · exact Or.inr (by decide)
  · simp only [IterState.pass, IterativeFlux.body, surface_flux.body, IterState.init,
      mdata_const, most_data.default, sampleMostArrays, tol, similarity_funs.calc_psi_m]
    norm_num
    have hl := log_hundred_bounds
    rw [if_pos (by linarith)]
    generalize Real.log 100 = l at hl ⊢
    obtain ⟨h1, h2⟩ := hl
    have hl0 : (0 : ℝ) < l := by linarith
    have hA0 : (0 : ℝ) < 41 / 20 / l := by positivity
    have hA1 : 41 / 20 / l < 1 := by
      rw [div_lt_one hl0]; linarith
    have hA3 : 41 / 20 / l * (41 / 20 / l) * (41 / 20 / l) < 1 := by
      have : 41 / 20 / l * (41 / 20 / l) < 1 := by nlinarith
      nlinarith
    have hD0 : (0 : ℝ) <
        41 / 20 / l * (41 / 20 / l) * (41 / 20 / l) * 300 / (40221 / 200000) := by
      positivity
    have hD1 : 41 / 20 / l * (41 / 20 / l) * (41 / 20 / l) * 300 / (40221 / 200000) < 2000 := by
      rw [div_lt_iff₀ (by norm_num)]; nlinarith
    have hZ : (1 / 200 : ℝ) <
        10 / (41 / 20 / l * (41 / 20 / l) * (41 / 20 / l) * 300 / (40221 / 200000)) := by
      rw [lt_div_iff₀ hD0]; linarith
    generalize 10 / (41 / 20 / l * (41 / 20 / l) * (41 / 20 / l) * 300 / (40221 / 200000))
      = Z at hZ ⊢
    rw [lt_abs]
    right
    have hden : (0 : ℝ) < l - -(5 * Z) := by linarith
    rw [neg_sub, div_sub_div _ _ (ne_of_gt hl0) (ne_of_gt hden),
      lt_div_iff₀ (mul_pos hl0 hden)]
    nlinarith

/-- C11: with `std::log`, `std::sqrt`, `std::atan` the functions of `Real` and
`PIoTwo = π/2`: for every `zeta > 0`, `calc_psi_m(zeta) = -5*zeta` and
`calc_psi_h(zeta) = -5*zeta`; for every `zeta ≤ 0`,
`calc_psi_m(zeta) = 2*ln((1+x)/2) + ln((1+x^2)/2) - 2*atan(x) + π/2` with
`x = (1-16*zeta)^(1/4)` and `calc_psi_h(zeta) = 2*ln((1+y)/2)` with `y = (1-16*zeta)^(1/2)`;
and both are 0 at `zeta = 0`. -/
theorem calc_psi_branches (kappa grav : ℝ) :
    (∀ zeta : ℝ, 0 < zeta →
      similarity_funs.calc_psi_m (CMath.mk Real.log Real.exp Real.sqrt Real.arctan)
          (ERF_Constants.mk kappa grav (Real.pi / 2)) zeta = -5 * zeta ∧
      similarity_funs.calc_psi_h (CMath.mk Real.log Real.exp Real.sqrt Real.arctan) zeta
        = -5 * zeta) ∧
    (∀ zeta : ℝ, zeta ≤ 0 →
      similarity_funs.calc_psi_m (CMath.mk Real.log Real.exp Real.sqrt Real.arctan)
          (ERF_Constants.mk kappa grav (Real.pi / 2)) zeta
        = 2 * Real.log ((1 + (1 - 16 * zeta) ^ (1 / 4 : ℝ)) / 2)
          + Real.log ((1 + ((1 - 16 * zeta) ^ (1 / 4 : ℝ)) ^ 2) / 2)
          - 2 * Real.arctan ((1 - 16 * zeta) ^ (1 / 4 : ℝ)) + Real.pi / 2 ∧
      similarity_funs.calc_psi_h (CMath.mk Real.log Real.exp Real.sqrt Real.arctan) zeta
        = 2 * Real.log ((1 + (1 - 16 * zeta) ^ (1 / 2 : ℝ)) / 2)) ∧
    similarity_funs.calc_psi_m (CMath.mk Real.log Real.exp Real.sqrt Real.arctan)
        (ERF_Constants.mk kappa grav (Real.pi / 2)) 0 = 0 ∧
    similarity_funs.calc_psi_h (CMath.mk Real.log Real.exp Real.sqrt Real.arctan) 0 = 0 := by
  refine ⟨?_, ?_, ?_, ?_⟩
  · intro zeta hz
    constructor
    · simp only [similarity_funs.calc_psi_m, gt_iff_lt, if_pos hz]
      norm_num
    · simp only [similarity_funs.calc_psi_h, gt_iff_lt, if_pos hz]
      norm_num
  · intro zeta hz
    have hy : (0 : ℝ) ≤ 1 - 16 * zeta := by linarith
    have h4 : √(√(1 - 16 * zeta)) = (1 - 16 * zeta) ^ (1 / 4 : ℝ) := by
      rw [Real.sqrt_eq_rpow, Real.sqrt_eq_rpow, ← Real.rpow_mul hy]
      norm_num
    have h2 : √(1 - 16 * zeta) = (1 - 16 * zeta) ^ (1 / 2 : ℝ) := Real.sqrt_eq_rpow _
    constructor
    · have e1 : (1.0 : ℝ) - 16.0 * zeta = 1 - 16 * zeta := by norm_num
      simp only [similarity_funs.calc_psi_m, gt_iff_lt, if_neg (not_lt.2 hz), e1, h4]
      generalize (1 - 16 * zeta) ^ (1 / 4 : ℝ) = x
      norm_num
      ring_nf
    · have e1 : (1.0 : ℝ) - 16.0 * zeta = 1 - 16 * zeta := by norm_num
      simp only [similarity_funs.calc_psi_h, gt_iff_lt, if_neg (not_lt.2 hz), e1, h2]
      generalize (1 - 16 * zeta) ^ (1 / 2 : ℝ) = y
      norm_num
      ring_nf
  · simp only [similarity_funs.calc_psi_m]
    norm_num [Real.arctan_one]
    ring
  · simp only [similarity_funs.calc_psi_h]
    norm_num

/-- Witness for C11: at `zeta = 1` both corrections are `-5`, and at `zeta = -1` the heat
correction is `2*ln((1 + 17^(1/2))/2)`. -/
theorem calc_psi_branches_witness :
    (similarity_funs.calc_psi_m (CMath.mk Real.log Real.exp Real.sqrt Real.arctan)
        (ERF_Constants.mk 0.41 9.81 (Real.pi / 2)) 1 = -5 * 1 ∧
      similarity_funs.calc_psi_h (CMath.mk Real.log Real.exp Real.sqrt Real.arctan) 1
        = -5 * 1) ∧
    similarity_funs.calc_psi_h (CMath.mk Real.log Real.exp Real.sqrt Real.arctan) (-1)
      = 2 * Real.log ((1 + (1 - 16 * (-1)) ^ (1 / 2 : ℝ)) / 2) :=
  ⟨(calc_psi_branches 0.41 9.81).1 1 (by norm_num),
   ((calc_psi_branches 0.41 9.81).2.1 (-1) (by norm_num)).2⟩

/-- One Charnock step `u ↦ 0.41 * 5 / log(10 / ((0.0185/9.81) * u^2))` on the sample column:
from `0 < u ≤ 1/2` with the next iterate below `u`, the next iterate is again positive, at most
`1/2`, and its own successor is below it (the step is increasing in `u`). -/
theorem charnock_next_lt (u : ℝ) (h0 : 0 < u) (h1 : u ≤ 1 / 2)
    (h2 : 0.41 * 5 / Real.log (10 / (0.0185 / 9.81 * u * u)) < u) :
    0 < 0.41 * 5 / Real.log (10 / (0.0185 / 9.81 * u * u)) ∧
    0.41 * 5 / Real.log (10 / (0.0185 / 9.81 * u * u)) ≤ 1 / 2 ∧
    0.41 * 5 / Real.log (10 / (0.0185 / 9.81 *
        (0.41 * 5 / Real.log (10 / (0.0185 / 9.81 * u * u))) *
        (0.41 * 5 / Real.log (10 / (0.0185 / 9.81 * u * u)))))
      < 0.41 * 5 / Real.log (10 / (0.0185 / 9.81 * u * u)) := by
  have hc : (0 : ℝ) < 0.0185 / 9.81 * u * u := by positivity
  have hc1 : 0.0185 / 9.81 * u * u < 1 := by
    have : u * u ≤ 1 / 4 := by nlinarith
    nlinarith
  have harg : (1 : ℝ) < 10 / (0.0185 / 9.81 * u * u) := by
    rw [lt_div_iff₀ hc]; linarith
  have hlog : 0 < Real.log (10 / (0.0185 / 9.81 * u * u)) := Real.log_pos harg
  have hv : 0 < 0.41 * 5 / Real.log (10 / (0.0185 / 9.81 * u * u)) := by positivity
  refine ⟨hv, le_trans (le_of_lt h2) h1, ?_⟩
  generalize hvdef : 0.41 * 5 / Real.log (10 / (0.0185 / 9.81 * u * u)) = v at h2 hv ⊢
  have hcv : (0 : ℝ) < 0.0185 / 9.81 * v * v := by positivity
  have hlt : 0.0185 / 9.81 * v * v < 0.0185 / 9.81 * u * u := by
    have : v * v < u * u := by nlinarith
    nlinarith
  have hargs : 10 / (0.0185 / 9.81 * u * u) < 10 / (0.0185 / 9.81 * v * v) :=
    div_lt_div_of_pos_left (by norm_num) hcv hlt
  have hlogs := Real.log_lt_log (lt_trans zero_lt_one harg) hargs
  have hfin := div_lt_div_of_pos_left (by norm_num : (0 : ℝ) < 0.41 * 5) hlog hlogs
  rw [hvdef] at hfin
  exact hfin


/-- C12 (counterexample): `adiabatic_charnock::iterate_flux` with `zref = 10`,
`Cnk_a = 0.0185`, `gravity = 9.81`, `kappa = 0.41`, `max_iters = 25` on the sample column
(`z0 = 0.1`, `umm = 5`): every pass lowers the friction velocity strictly, so the roughness
written to `z0_arr`, computed from the iterate before the last pass, is larger than the
Charnock roughness of the friction velocity written to `u_star_arr`. -/
theorem adiabatic_charnock_z0_lags_behind :
    (adiabatic_charnock.iterate_flux (CMath.mk Real.log Real.exp Real.sqrt Real.arctan)
        (mdata_charnock (ERF_Constants.mk 0.41 9.81 (Real.pi / 2)) 0 10 0 0.0185) 0 0 0 25
        sampleMostArrays).z0_arr 0 0 0
      ≠ 0.0185 / 9.81 *
        ((adiabatic_charnock.iterate_flux (CMath.mk Real.log Real.exp Real.sqrt Real.arctan)
          (mdata_charnock (ERF_Constants.mk 0.41 9.81 (Real.pi / 2)) 0 10 0 0.0185) 0 0 0 25
          sampleMostArrays).u_star_arr 0 0 0) ^ 2 := by
  have hinit : (fun t : IterState ℝ => 0 < t.u_star ∧ t.u_star ≤ 1 / 2 ∧
        0.41 * 5 / Real.log (10 / (0.0185 / 9.81 * t.u_star * t.u_star)) < t.u_star)
      (IterState.init (CMath.mk Real.log Real.exp Real.sqrt Real.arctan)
        (mdata_charnock (ERF_Constants.mk 0.41 9.81 (Real.pi / 2)) 0 10 0 0.0185) 0 0 0
        sampleMostArrays) := by
    have hl := log_hundred_bounds
    have h100 : (10 : ℝ) / 0.1 = 100 := by norm_num
    simp only [IterState.init, mdata_charnock, most_data.default, sampleMostArrays, h100]
    have hl0 : (0 : ℝ) < Real.log 100 := by linarith
    have hu0 : (0 : ℝ) < 0.41 * 5 / Real.log 100 := by positivity
    have hu1 : 0.41 * 5 / Real.log 100 ≤ 1 / 2 := by
      rw [div_le_iff₀ hl0]; linarith
    refine ⟨hu0, hu1, ?_⟩
    generalize hu : 0.41 * 5 / Real.log 100 = u at hu0 hu1 ⊢
    have hc : (0 : ℝ) < 0.0185 / 9.81 * u * u := by positivity
    have hc1 : 0.0185 / 9.81 * u * u < 1 / 10 := by
      have : u * u ≤ 1 / 4 := by nlinarith
      nlinarith
    have harg : (100 : ℝ) < 10 / (0.0185 / 9.81 * u * u) := by
      rw [lt_div_iff₀ hc]; linarith
    have hlogs := Real.log_lt_log (by norm_num : (0 : ℝ) < 100) harg
    have hfin := div_lt_div_of_pos_left (by norm_num : (0 : ℝ) < 0.41 * 5) hl0 hlogs
    rw [hu] at hfin
    exact hfin
  obtain ⟨s2, h1, h2, h3, h4⟩ := doWhile_invariant 25
    (adiabatic_charnock.body (CMath.mk Real.log Real.exp Real.sqrt Real.arctan)
      (mdata_charnock (ERF_Constants.mk 0.41 9.81 (Real.pi / 2)) 0 10 0 0.0185) 0 0 0
      sampleMostArrays)
    (fun t : IterState ℝ => 0 < t.u_star ∧ t.u_star ≤ 1 / 2 ∧
        0.41 * 5 / Real.log (10 / (0.0185 / 9.81 * t.u_star * t.u_star)) < t.u_star)
    (fun t ht => charnock_next_lt t.u_star ht.1 ht.2.1 ht.2.2) _ hinit
  obtain ⟨hv0, _, _⟩ := charnock_next_lt s2.u_star h2 h3 h4
  simp only [adiabatic_charnock.iterate_flux, adiabatic_charnock.loop, Array4.set_same, h1]
  simp only [IterState.pass, adiabatic_charnock.body, mdata_charnock, most_data.default,
    sampleMostArrays]
  generalize 0.41 * 5 / Real.log (10 / (0.0185 / 9.81 * s2.u_star * s2.u_star)) = v at h4 hv0 ⊢
  apply ne_of_gt
  have : v * v < s2.u_star * s2.u_star := by nlinarith
  nlinarith

end RealEvaluation

/-! ### Configuration: `ABLMost::ABLMost` and `SolverChoice::init_params` -/

section ConfigTheorems

variable {α : Type} [LinearOrderedField α]

/-- With both `most.surf_temp` and `most.surf_temp_flux` present, lines 59-78 abort. -/
theorem parse_theta_both_present (epsilon : α) (pp : MostParmParse α)
    (h1 : pp.most_surf_temp.isSome = true) (h2 : pp.most_surf_temp_flux.isSome = true) :
    ABLMost.parse_theta epsilon pp
      = Except.error "Can only specify one of surf_temp_flux or surf_heating_rate" := by
  simp [ABLMost.parse_theta, h1, h2]

/-- An abort of an earlier or later block of the constructor is an abort of the constructor;
an abort of lines 59-78 is one unless the flux type already aborted. -/
theorem construct_error_of_parse_theta_error (epsilon : α) (pp : MostParmParse α)
    (sst_valid : List Bool) (msg : String)
    (h : ABLMost.parse_theta epsilon pp = Except.error msg) :
    ∃ msg2, ABLMost.construct epsilon pp sst_valid = Except.error msg2 := by
  unfold ABLMost.construct
  cases hf : ABLMost.parse_flux_type pp with
  | error e => exact ⟨e, rfl⟩
  | ok f => exact ⟨msg, by simp [h]⟩

/-- C13: whenever `most.surf_temp` and `most.surf_temp_flux` are both present in the
parameters, the constructor of `ABLMost` aborts; and whenever it does not abort, the two
were not both given. -/
theorem ABLMost_rejects_surf_temp_with_flux (epsilon : α) (pp : MostParmParse α)
    (sst_valid : List Bool) :
    (pp.most_surf_temp.isSome = true → pp.most_surf_temp_flux.isSome = true →
      ∃ msg, ABLMost.construct epsilon pp sst_valid = Except.error msg) ∧
    (∀ m : ABLMostMembers α, ABLMost.construct epsilon pp sst_valid = Except.ok m →
      ¬(pp.most_surf_temp.isSome = true ∧ pp.most_surf_temp_flux.isSome = true)) := by
  have key : pp.most_surf_temp.isSome = true → pp.most_surf_temp_flux.isSome = true →
      ∃ msg, ABLMost.construct epsilon pp sst_valid = Except.error msg := fun h1 h2 =>
    construct_error_of_parse_theta_error epsilon pp sst_valid _
      (parse_theta_both_present epsilon pp h1 h2)
  refine ⟨key, ?_⟩
  intro m hm hboth
  obtain ⟨msg, he⟩ := key hboth.1 hboth.2
  rw [he] at hm
  cases hm

/-- Witness for C13: `most.surf_temp = 300` together with `most.surf_temp_flux = 0.1`
aborts. -/
theorem ABLMost_rejects_surf_temp_with_flux_witness :
    ∃ msg, ABLMost.construct (1 / 1000000 : ℚ)
      { emptyMostParmParse with most_surf_temp := some 300, most_surf_temp_flux := some 0.1 }
      [false] = Except.error msg :=
  (ABLMost_rejects_surf_temp_with_flux (1 / 1000000 : ℚ)
    { emptyMostParmParse with most_surf_temp := some 300, most_surf_temp_flux := some 0.1 }
    [false]).1 rfl rfl

/-- C14 (counterexample): with `most.surf_temp = 300` and `most.surf_heating_rate = 1` both
present (and nothing else), the constructor does not abort: it selects
`SURFACE_TEMPERATURE` and stores the heating rate converted to K/s. -/
theorem ABLMost_accepts_surf_temp_with_heating_rate :
    ((({ emptyMostParmParse with
          most_surf_temp := some 300, most_surf_heating_rate := some 1 } :
        MostParmParse ℚ).most_surf_temp.isSome = true ∧
      ({ emptyMostParmParse with
          most_surf_temp := some 300, most_surf_heating_rate := some 1 } :
        MostParmParse ℚ).most_surf_heating_rate.isSome = true) ∧
    ∃ m, ABLMost.construct (1 / 1000000 : ℚ)
      { emptyMostParmParse with most_surf_temp := some 300, most_surf_heating_rate := some 1 }
      [false] = Except.ok m ∧ m.theta_type = ThetaCalcType.SURFACE_TEMPERATURE ∧
      m.surf_heating_rate = 1 / 3600) := by
  refine ⟨⟨rfl, rfl⟩, ?_⟩
  simp [ABLMost.construct, ABLMost.parse_flux_type, ABLMost.parse_theta,
    ABLMost.parse_roughness, ABLMost.fill_levels, emptyMostParmParse]
  norm_num

/-- C14 (amended): `most.surf_temp_flux` excludes each of the other two keys: whenever it is
present together with `most.surf_temp` or with `most.surf_heating_rate`, the constructor
aborts.  `most.surf_temp` together with `most.surf_heating_rate` is accepted: with
`most.surf_temp` present, `most.surf_temp_flux` absent and recognised flux and roughness
strings, the constructor does not abort and stores `surf_heating_rate / 3600`. -/
theorem ABLMost_surf_temp_flux_excludes (epsilon : α) (pp : MostParmParse α)
    (sst_valid : List Bool) :
    (pp.most_surf_temp_flux.isSome = true →
      (pp.most_surf_temp.isSome = true ∨ pp.most_surf_heating_rate.isSome = true) →
      ∃ msg, ABLMost.construct epsilon pp sst_valid = Except.error msg) ∧
    (pp.most_surf_temp.isSome = true → pp.most_surf_temp_flux.isSome = false →
      pp.most_flux_type.getD "moeng" ∈ ["donelan", "moeng"] →
      pp.most_roughness_type.getD "constant" ∈ ["constant", "charnock", "modified_charnock"] →
      ∃ m, ABLMost.construct epsilon pp sst_valid = Except.ok m ∧
        m.surf_heating_rate = pp.most_surf_heating_rate.getD 0 / 3600 ∧
        m.surf_temp = pp.most_surf_temp) := by
  constructor
  · intro hflux hother
    apply construct_error_of_parse_theta_error epsilon pp sst_valid
      "Can only specify one of surf_temp_flux or surf_heating_rate"
    by_cases hst : pp.most_surf_temp.isSome = true
    · exact parse_theta_both_present epsilon pp hst hflux
    · have hh : pp.most_surf_heating_rate.isSome = true := by
        rcases hother with h | h
        · exact absurd h hst
        · exact h
      simp [ABLMost.parse_theta, hst, hh]
  · intro hst hflux hf hr
    have h3600 : (3600.0 : α) = 3600 := by norm_num
    simp only [List.mem_cons, List.mem_singleton, List.not_mem_nil, or_false] at hf hr
    rcases hf with hf | hf <;> rcases hr with hr | hr | hr <;>
      simp [ABLMost.construct, ABLMost.parse_flux_type, ABLMost.parse_theta,
        ABLMost.parse_roughness, hst, hflux, hf, hr, h3600]

/-- Witness for C14 (amended): the heat flux with a heating rate aborts, and the surface
temperature with a heating rate is accepted. -/
theorem ABLMost_surf_temp_flux_excludes_witness :
    (∃ msg, ABLMost.construct (1 / 1000000 : ℚ)
      { emptyMostParmParse with
        most_surf_temp_flux := some 0.1, most_surf_heating_rate := some 1 }
      [false] = Except.error msg) ∧
    (∃ m, ABLMost.construct (1 / 1000000 : ℚ)
      { emptyMostParmParse with most_surf_temp := some 300, most_surf_heating_rate := some 1 }
      [false] = Except.ok m ∧
      m.surf_heating_rate = (some (1 : ℚ)).getD 0 / 3600 ∧ m.surf_temp = some 300) :=
  ⟨(ABLMost_surf_temp_flux_excludes (1 / 1000000 : ℚ)
      { emptyMostParmParse with
        most_surf_temp_flux := some 0.1, most_surf_heating_rate := some 1 }
      [false]).1 rfl (Or.inr rfl),
   (ABLMost_surf_temp_flux_excludes (1 / 1000000 : ℚ)
      { emptyMostParmParse with most_surf_temp := some 300, most_surf_heating_rate := some 1 }
      [false]).2 rfl rfl (by decide) (by decide)⟩

/-- C15 (evaluation at the failing input): `init_params` with `moisture_model = "kessler"`
(not one of `"SAM"`, `"Kessler"`, `"FastEddy"`, `"None"`) and every other key absent does
not abort; it returns with `moisture_type = MoistureType::None`. -/
theorem init_params_unknown_moisture_model :
    ∃ sc, SolverChoice.init_params true sampleSolverConstants sampleSubInit
        { emptySolverParmParse with moisture_model := some "kessler" } 0 sampleSolverChoice
      = Except.ok sc ∧ sc.moisture_type = MoistureType.None := by
  refine ⟨_, rfl, ?_⟩
  decide

/-- A value that is not one of the recognised strings aborts for `terrain_type`,
`abl_driver_type`, `coupling_type`, `most.flux_type` and `most.roughness_type`; for
`moisture_model` it is mapped to `MoistureType::None`. -/
theorem enum_strings_unrecognised (s : String) :
    (s ∉ ["Moving", "moving", "Static", "static"] →
      SolverChoice.parse_terrain_type (some s) = Except.error SolverAbort.terrain_type) ∧
    (s ∉ ["PressureGradient", "GeostrophicWind", "None"] →
      SolverChoice.parse_abl_driver_type (some s) = Except.error SolverAbort.abl_driver_type) ∧
    (s ∉ ["TwoWay", "OneWay"] →
      SolverChoice.parse_coupling_type (some s) = Except.error SolverAbort.coupling_type) ∧
    (s ∉ ["donelan", "moeng"] →
      ∀ pp : MostParmParse α, pp.most_flux_type = some s →
        ABLMost.parse_flux_type pp = Except.error "Undefined MOST flux type!") ∧
    (s ∉ ["constant", "charnock", "modified_charnock"] →
      ∀ pp : MostParmParse α, pp.most_roughness_type = some s →
        ABLMost.parse_roughness pp = Except.error "Undefined MOST roughness type!") ∧
    (s ∉ ["SAM", "Kessler", "FastEddy"] →
      SolverChoice.parse_moisture_model (some s) = MoistureType.None) := by
  refine ⟨?_, ?_, ?_, ?_, ?_, ?_⟩
  · intro h
    simp only [List.mem_cons, List.mem_singleton, List.not_mem_nil, or_false, not_or] at h
    simp [SolverChoice.parse_terrain_type, h]
  · intro h
    simp only [List.mem_cons, List.mem_singleton, List.not_mem_nil, or_false, not_or] at h
    simp [SolverChoice.parse_abl_driver_type, h]
  · intro h
    simp only [List.mem_cons, List.mem_singleton, List.not_mem_nil, or_false, not_or] at h
    simp [SolverChoice.parse_coupling_type, h]
  · intro h pp hpp
    simp only [List.mem_cons, List.mem_singleton, List.not_mem_nil, or_false, not_or] at h
    simp [ABLMost.parse_flux_type, hpp, h]
  · intro h pp hpp
    simp only [List.mem_cons, List.mem_singleton, List.not_mem_nil, or_false, not_or] at h
    simp [ABLMost.parse_roughness, hpp, h]
  · intro h
    simp only [List.mem_cons, List.mem_singleton, List.not_mem_nil, or_false, not_or] at h
    simp [SolverChoice.parse_moisture_model, h]

/-- The check of lines 114-119 aborts exactly when `use_lagged_delta_rt` (after the query)
is false and the terrain is static. -/
theorem check_lagged_delta_rt_error_iff {β : Type} (pp : SolverParmParse β) (sc : SolverChoice β) :
    SolverChoice.check_lagged_delta_rt pp sc = Except.error SolverAbort.lagged_delta_rt ↔
      (pp.use_lagged_delta_rt.getD sc.use_lagged_delta_rt = false ∧
        sc.terrain_type = TerrainType.Static) := by
  unfold SolverChoice.check_lagged_delta_rt
  cases hl : pp.use_lagged_delta_rt.getD sc.use_lagged_delta_rt <;>
    cases ht : sc.terrain_type <;> simp [hl, ht]

/-- The check of lines 114-119 aborts at one place only. -/
theorem check_lagged_delta_rt_error_only {β : Type} (pp : SolverParmParse β) (sc : SolverChoice β)
    (e : SolverAbort) (h : SolverChoice.check_lagged_delta_rt pp sc = Except.error e) :
    e = SolverAbort.lagged_delta_rt := by
  unfold SolverChoice.check_lagged_delta_rt at h
  simp only at h
  split at h
  · injection h with h
    exact h.symm
  · cases h

/-- `abl_driver_type` aborts at one place only. -/
theorem parse_abl_driver_type_error (o : Option String) (e : SolverAbort)
    (h : SolverChoice.parse_abl_driver_type o = Except.error e) :
    e = SolverAbort.abl_driver_type := by
  unfold SolverChoice.parse_abl_driver_type at h
  simp only at h
  split_ifs at h
  injection h with h
  exact h.symm

/-- `coupling_type` aborts at one place only. -/
theorem parse_coupling_type_error (o : Option String) (e : SolverAbort)
    (h : SolverChoice.parse_coupling_type o = Except.error e) :
    e = SolverAbort.coupling_type := by
  unfold SolverChoice.parse_coupling_type at h
  simp only at h
  split_ifs at h
  injection h with h
  exact h.symm

/-- `terrain_type` aborts at one place only. -/
theorem parse_terrain_type_error (o : Option String) (e : SolverAbort)
    (h : SolverChoice.parse_terrain_type o = Except.error e) :
    e = SolverAbort.terrain_type := by
  unfold SolverChoice.parse_terrain_type at h
  simp only at h
  split_ifs at h
  injection h with h
  exact h.symm

/-- Lines 121-144 abort only at the check on `incompressible`. -/
theorem init_params_gravity_substepping_error (C : SolverConstants α)
    (pp : SolverParmParse α) (sc : SolverChoice α) (e : SolverAbort)
    (h : SolverChoice.init_params_gravity_substepping C pp sc = Except.error e) :
    e = SolverAbort.incompressible := by
  unfold SolverChoice.init_params_gravity_substepping at h
  simp only at h
  split at h
  · injection h with h
    exact h.symm
  · cases h

/-- Lines 146-193 abort only for an unknown `abl_driver_type`. -/
theorem init_params_forcing_error (C : SolverConstants α)
    (pp : SolverParmParse α) (sc : SolverChoice α) (e : SolverAbort)
    (h : SolverChoice.init_params_forcing C pp sc = Except.error e) :
    e = SolverAbort.abl_driver_type := by
  unfold SolverChoice.init_params_forcing at h
  simp only at h
  cases hp : SolverChoice.parse_abl_driver_type pp.abl_driver_type with
  | error e2 =>
    rw [hp] at h
    injection h with h
    rw [← h]
    exact parse_abl_driver_type_error _ _ hp
  | ok d =>
    rw [hp] at h
    cases h

/-- Lines 195-202 abort only at the assertion on `NumDiffCoeff`. -/
theorem init_params_NumDiff_error (amrex_assertions : Bool)
    (pp : SolverParmParse α) (sc : SolverChoice α) (e : SolverAbort)
    (h : SolverChoice.init_params_NumDiff amrex_assertions pp sc = Except.error e) :
    e = SolverAbort.NumDiffCoeff_assert := by
  unfold SolverChoice.init_params_NumDiff at h
  simp only at h
  split at h
  · split at h
    · injection h with h
      exact h.symm
    · cases h
  · cases h

/-- Lines 204-220 abort only inside a sub-structure or at the LES check. -/
theorem init_params_sub_error {β : Type} (sub_init_params : SubChoices → Nat → Except String SubChoices)
    (max_level : Nat) (sc : SolverChoice β) (e : SolverAbort)
    (h : SolverChoice.init_params_sub sub_init_params max_level sc = Except.error e) :
    e = SolverAbort.les_molec_diff ∨ ∃ msg, e = SolverAbort.sub_init_params msg := by
  unfold SolverChoice.init_params_sub at h
  cases hs : sub_init_params sc.subChoices max_level with
  | error msg =>
    rw [hs] at h
    injection h with h
    exact Or.inr ⟨msg, h.symm⟩
  | ok sub =>
    rw [hs] at h
    simp only at h
    split at h
    · injection h with h
      exact Or.inl h.symm
    · cases h

/-- Lines 222-231 abort only for an unknown `coupling_type`. -/
theorem init_params_coupling_error {β : Type} (pp : SolverParmParse β)
    (sc : SolverChoice β)
    (e : SolverAbort)
    (h : SolverChoice.init_params_coupling pp sc = Except.error e) :
    e = SolverAbort.coupling_type := by
  unfold SolverChoice.init_params_coupling at h
  cases hp : SolverChoice.parse_coupling_type pp.coupling_type with
  | error e2 =>
    rw [hp] at h
    injection h with h
    rw [← h]
    exact parse_coupling_type_error _ _ hp
  | ok d =>
    rw [hp] at h
    cases h

/-- Nothing after the `use_lagged_delta_rt` check raises that check's error. -/
theorem init_params_after_lagged_check_ne (amrex_assertions : Bool) (C : SolverConstants α)
    (sub_init_params : SubChoices → Nat → Except String SubChoices)
    (pp : SolverParmParse α) (max_level : Nat) (sc : SolverChoice α) :
    SolverChoice.init_params_after_lagged_check amrex_assertions C sub_init_params pp
      max_level sc ≠ Except.error SolverAbort.lagged_delta_rt := by
  unfold SolverChoice.init_params_after_lagged_check
  intro h
  cases h1 : SolverChoice.init_params_gravity_substepping C pp sc with
  | error e =>
    rw [h1] at h
    have := init_params_gravity_substepping_error C pp sc e h1
    subst this
    cases h
  | ok sc1 =>
    rw [h1] at h
    simp only at h
    cases h2 : SolverChoice.init_params_forcing C pp sc1 with
    | error e =>
      rw [h2] at h
      have := init_params_forcing_error C pp sc1 e h2
      subst this
      cases h
    | ok sc2 =>
      rw [h2] at h
      simp only at h
      cases h3 : SolverChoice.init_params_NumDiff amrex_assertions pp sc2 with
      | error e =>
        rw [h3] at h
        have := init_params_NumDiff_error amrex_assertions pp sc2 e h3
        subst this
        cases h
      | ok sc3 =>
        rw [h3] at h
        simp only at h
        cases h4 : SolverChoice.init_params_sub sub_init_params max_level sc3 with
        | error e =>
          rw [h4] at h
          rcases init_params_sub_error sub_init_params max_level sc3 e h4 with h5 | ⟨msg, h5⟩
          · subst h5
            cases h
          · subst h5
            cases h
        | ok sc4 =>
          rw [h4] at h
          simp only at h
          have := init_params_coupling_error pp sc4 _ h
          cases this

/-- Nothing before the `use_lagged_delta_rt` check raises that check's error. -/
theorem init_params_upto_terrain_type_ne (amrex_assertions : Bool)
    (pp : SolverParmParse α) (sc : SolverChoice α) :
    SolverChoice.init_params_upto_terrain_type amrex_assertions pp sc
      ≠ Except.error SolverAbort.lagged_delta_rt := by
  unfold SolverChoice.init_params_upto_terrain_type
  intro h
  simp only at h
  split at h
  · cases h
  · split at h
    · rename_i e he
      split at he
      · split at he
        · injection he with he
          subst he
          cases h
        · cases he
      · cases he
    · split at h
      · cases h
      · split at h
        · rename_i e he
          have := parse_terrain_type_error _ _ he
          subst this
          cases h
        · cases h

/-- C16: `init_params` raises the error "Can't turn off lagged_delta_rt when terrain not
moving" if and only if the blocks before the check pass, `use_lagged_delta_rt` is false and
`terrain_type` is `Static`; in particular the check never fires when `use_lagged_delta_rt`
is true or `terrain_type` is `Moving`. -/
theorem init_params_lagged_delta_rt_check (amrex_assertions : Bool) (C : SolverConstants α)
    (sub_init_params : SubChoices → Nat → Except String SubChoices)
    (pp : SolverParmParse α) (max_level : Nat) (sc : SolverChoice α) :
    (SolverChoice.init_params amrex_assertions C sub_init_params pp max_level sc
        = Except.error SolverAbort.lagged_delta_rt ↔
      ∃ sc1, SolverChoice.init_params_upto_terrain_type amrex_assertions pp sc = Except.ok sc1 ∧
        pp.use_lagged_delta_rt.getD sc1.use_lagged_delta_rt = false ∧
        sc1.terrain_type = TerrainType.Static) ∧
    (∀ sc1, SolverChoice.init_params_upto_terrain_type amrex_assertions pp sc = Except.ok sc1 →
      (pp.use_lagged_delta_rt.getD sc1.use_lagged_delta_rt = true ∨
        sc1.terrain_type = TerrainType.Moving) →
      SolverChoice.init_params amrex_assertions C sub_init_params pp max_level sc
        ≠ Except.error SolverAbort.lagged_delta_rt) := by
  have hiff : SolverChoice.init_params amrex_assertions C sub_init_params pp max_level sc
        = Except.error SolverAbort.lagged_delta_rt ↔
      ∃ sc1, SolverChoice.init_params_upto_terrain_type amrex_assertions pp sc = Except.ok sc1 ∧
        pp.use_lagged_delta_rt.getD sc1.use_lagged_delta_rt = false ∧
        sc1.terrain_type = TerrainType.Static := by
    unfold SolverChoice.init_params
    cases h1 : SolverChoice.init_params_upto_terrain_type amrex_assertions pp sc with
    | error e =>
      constructor
      · intro h
        injection h with h
        subst h
        exact absurd h1 (init_params_upto_terrain_type_ne amrex_assertions pp sc)
      · rintro ⟨sc1, h, _⟩
        cases h
    | ok sc1 =>
      simp only
      cases h2 : SolverChoice.check_lagged_delta_rt pp sc1 with
      | error e =>
        have he := check_lagged_delta_rt_error_only pp sc1 e h2
        subst he
        simp only [true_iff]
        exact ⟨sc1, rfl, (check_lagged_delta_rt_error_iff pp sc1).1 h2⟩
      | ok sc2 =>
        simp only
        constructor
        · intro h
          exact absurd h (init_params_after_lagged_check_ne _ _ _ _ _ _)
        · rintro ⟨sc3, h3, h4⟩
          injection h3 with h3
          subst h3
          rw [(check_lagged_delta_rt_error_iff pp sc1).2 h4] at h2
          cases h2
  refine ⟨hiff, ?_⟩
  intro sc1 h1 hor habs
  obtain ⟨sc2, h2, h3, h4⟩ := hiff.1 habs
  rw [h1] at h2
  injection h2 with h2
  subst h2
  rcases hor with h | h
  · rw [h] at h3
    cases h3
  · rw [h] at h4
    cases h4

/-- Witness for C16: with `use_lagged_delta_rt = false` and the default static terrain the
check fires; with `terrain_type = "Moving"` it does not. -/
theorem init_params_lagged_delta_rt_check_witness :
    SolverChoice.init_params true sampleSolverConstants sampleSubInit
        { emptySolverParmParse with use_lagged_delta_rt := some false } 0 sampleSolverChoice
      = Except.error SolverAbort.lagged_delta_rt ∧
    SolverChoice.init_params true sampleSolverConstants sampleSubInit
        { emptySolverParmParse with
          use_lagged_delta_rt := some false, terrain_type := some "Moving" }
        0 sampleSolverChoice
      ≠ Except.error SolverAbort.lagged_delta_rt :=
  ⟨(init_params_lagged_delta_rt_check true sampleSolverConstants sampleSubInit
      { emptySolverParmParse with use_lagged_delta_rt := some false } 0
      sampleSolverChoice).1.2 ⟨_, rfl, rfl, rfl⟩,
   (init_params_lagged_delta_rt_check true sampleSolverConstants sampleSubInit
      { emptySolverParmParse with
        use_lagged_delta_rt := some false, terrain_type := some "Moving" }
      0 sampleSolverChoice).2 _ rfl (Or.inr rfl)⟩

end ConfigTheorems

/-! ### `ABLMost::time_interp_tsurf` -/

section TimeInterpTheorems

variable {α : Type} [LinearOrderedField α] [FloorRing α]

/-- C17, counterexample to the claim as written: with the three sample snapshots spaced
`dT = 2` from `t0 = 0`, the time `4 = t0 + (N-1)*dT` lies in the closed range
`t0 <= time <= t0 + (N-1)*dT`, yet `time_interp_tsurf` aborts on its second assertion
(`n_time = 2` is not below `size() - 1 = 2`). -/
theorem time_interp_tsurf_aborts_at_last_snapshot :
    ((0 : ℚ) ≤ 4 ∧ (4 : ℚ) ≤ 0 + ((sampleSst.length : ℚ) - 1) * 2) ∧
    ABLMost.time_interp_tsurf 0 2 sampleSst [sampleBox] unitField 4
      = Except.error TimeInterpAbort.n_time_range := by
  refine ⟨by norm_num [sampleSst], ?_⟩
  have hn : ABLMost.n_time (0 : ℚ) 2 4 = 2 := by
    simp only [ABLMost.n_time, static_cast_int]
    norm_num
  have ha : ABLMost.alpha (0 : ℚ) 2 4 = 0 := by
    simp only [ABLMost.alpha, hn]
    norm_num
  norm_num [ABLMost.time_interp_tsurf, hn, ha, sampleSst]

/-- Truncation of a non-negative real is its floor. -/
theorem static_cast_int_of_nonneg (x : α) (h : 0 ≤ x) : static_cast_int x = ⌊x⌋ := by
  simp [static_cast_int, h]

/-- The local `alpha` is the quotient `(time - t0) / dT` minus `n_time`. -/
theorem alpha_eq (t0 dT time : α) (hdT : dT ≠ 0) :
    ABLMost.alpha t0 dT time = (time - t0) / dT - (ABLMost.n_time t0 dT time : α) := by
  simp only [ABLMost.alpha]
  field_simp
  ring

/-- With the quotient `(time - t0)/dT` and the product `n_time*dT` exact, both assertions of
`time_interp_tsurf` pass if and only if `t0 <= time < t0 + (N-1)*dT`. -/
theorem time_interp_tsurf_exact_range (t0 dT : α) (m_sst_lev : List (Array4 α))
    (gtbx : List Box) (t_surf : Array4 α) (time : α) (hdT : 0 < dT) :
    (∃ ts, ABLMost.time_interp_tsurf t0 dT m_sst_lev gtbx t_surf time = Except.ok ts) ↔
      (t0 ≤ time ∧ time < t0 + ((m_sst_lev.length : α) - 1) * dT) := by
  have hne : dT ≠ 0 := ne_of_gt hdT
  have halpha := alpha_eq t0 dT time hne
  constructor
  · rintro ⟨ts, h⟩
    unfold ABLMost.time_interp_tsurf at h
    simp only at h
    split at h
    · cases h
    · rename_i h1
      split at h
      · cases h
      · rename_i h2
        rw [not_not] at h1 h2
        obtain ⟨ha0, ha1⟩ := h1
        obtain ⟨hn0, hn1⟩ := h2
        rw [halpha] at ha0
        have hx0 : (0 : α) ≤ (time - t0) / dT := by
          have : (0 : α) ≤ (ABLMost.n_time t0 dT time : α) := by exact_mod_cast hn0
          linarith
        have hfl : ABLMost.n_time t0 dT time = ⌊(time - t0) / dT⌋ := by
          simp only [ABLMost.n_time]
          exact static_cast_int_of_nonneg _ hx0
        have hlt : (time - t0) / dT < (ABLMost.n_time t0 dT time : α) + 1 := by
          rw [hfl]
          exact Int.lt_floor_add_one _
        have hN : ((ABLMost.n_time t0 dT time : Int) : α) + 1 ≤ (m_sst_lev.length : α) - 1 := by
          have : ABLMost.n_time t0 dT time + 1 ≤ (m_sst_lev.length : Int) - 1 := by omega
          exact_mod_cast this
        constructor
        · have := mul_nonneg hx0 (le_of_lt hdT)
          rw [div_mul_cancel₀ _ hne] at this
          linarith
        · have hq : (time - t0) / dT < (m_sst_lev.length : α) - 1 := lt_of_lt_of_le hlt hN
          rw [div_lt_iff₀ hdT] at hq
          linarith
  · rintro ⟨h1, h2⟩
    have hx0 : (0 : α) ≤ (time - t0) / dT := div_nonneg (by linarith) (le_of_lt hdT)
    have hxN : (time - t0) / dT < (m_sst_lev.length : α) - 1 := by
      rw [div_lt_iff₀ hdT]; linarith
    have hfl : ABLMost.n_time t0 dT time = ⌊(time - t0) / dT⌋ := by
      simp only [ABLMost.n_time]
      exact static_cast_int_of_nonneg _ hx0
    have hn0 : (0 : Int) ≤ ABLMost.n_time t0 dT time := by
      rw [hfl]; exact Int.floor_nonneg.2 hx0
    have hn1 : ABLMost.n_time t0 dT time < (m_sst_lev.length : Int) - 1 := by
      have hle : ((ABLMost.n_time t0 dT time : Int) : α) ≤ (time - t0) / dT := by
        rw [hfl]; exact Int.floor_le _
      have : ((ABLMost.n_time t0 dT time : Int) : α) < (((m_sst_lev.length : Int) - 1 : Int) : α) := by
        push_cast
        linarith
      exact_mod_cast this
    have ha0 : (0 : α) ≤ ABLMost.alpha t0 dT time := by
      rw [halpha, hfl]
      linarith [Int.floor_le ((time - t0) / dT)]
    have ha1 : ABLMost.alpha t0 dT time ≤ 1.0 := by
      have hone : (1.0 : α) = 1 := by norm_num
      rw [halpha, hfl, hone]
      have := Int.lt_floor_add_one ((time - t0) / dT)
      linarith
    unfold ABLMost.time_interp_tsurf
    simp only
    rw [if_neg (not_not.2 ⟨ha0, ha1⟩), if_neg (not_not.2 ⟨hn0, hn1⟩)]
    exact ⟨_, rfl⟩

/-- The call returns exactly when the two assertions hold of the `alpha` and `n_time` it
has computed. -/
theorem time_interp_tsurf_returns_iff_assertions (t0 dT : α) (m_sst_lev : List (Array4 α))
    (gtbx : List Box) (t_surf : Array4 α) (time : α) :
    (∃ ts, ABLMost.time_interp_tsurf t0 dT m_sst_lev gtbx t_surf time = Except.ok ts) ↔
      ((0 ≤ ABLMost.alpha t0 dT time ∧ ABLMost.alpha t0 dT time ≤ 1) ∧
       (0 ≤ ABLMost.n_time t0 dT time ∧
        ABLMost.n_time t0 dT time < (m_sst_lev.length : Int) - 1)) := by
  have hone : (1.0 : α) = 1 := by norm_num
  unfold ABLMost.time_interp_tsurf
  simp only [ge_iff_le, hone]
  constructor
  · rintro ⟨ts, h⟩
    split at h
    · cases h
    · rename_i h1
      split at h
      · cases h
      · rename_i h2
        exact ⟨not_not.1 h1, not_not.1 h2⟩
  · rintro ⟨h1, h2⟩
    rw [if_neg (not_not.2 h1), if_neg (not_not.2 h2)]
    exact ⟨_, rfl⟩

/-- C17, amended: `time_interp_tsurf` returns exactly when its two assertions hold of the
computed values, `0 <= alpha <= 1` and `0 <= n_time < N-1`, and aborts otherwise.  With `N`
snapshots spaced `dT > 0` from start time `t0`, and in exact arithmetic (the rounding of
`(time - t0)/dT` and of `n_time*dT` in the routine's doubles is left out), that is the case
if and only if `t0 <= time < t0 + (N-1)*dT`: the right end of the snapshot range is
excluded, because the routine reads snapshot `n_time + 1`.  (`int` is taken as an unbounded
integer, and `size()` is the signed `amrex::Vector::size`.) -/
theorem time_interp_tsurf_succeeds_iff (t0 dT : α) (m_sst_lev : List (Array4 α))
    (gtbx : List Box) (t_surf : Array4 α) (time : α) (hdT : 0 < dT) :
    ((∃ ts, ABLMost.time_interp_tsurf t0 dT m_sst_lev gtbx t_surf time = Except.ok ts) ↔
      ((0 ≤ ABLMost.alpha t0 dT time ∧ ABLMost.alpha t0 dT time ≤ 1) ∧
       (0 ≤ ABLMost.n_time t0 dT time ∧
        ABLMost.n_time t0 dT time < (m_sst_lev.length : Int) - 1))) ∧
    (((0 ≤ ABLMost.alpha t0 dT time ∧ ABLMost.alpha t0 dT time ≤ 1) ∧
       (0 ≤ ABLMost.n_time t0 dT time ∧
        ABLMost.n_time t0 dT time < (m_sst_lev.length : Int) - 1)) ↔
      (t0 ≤ time ∧ time < t0 + ((m_sst_lev.length : α) - 1) * dT)) ∧
    ((∃ ts, ABLMost.time_interp_tsurf t0 dT m_sst_lev gtbx t_surf time = Except.ok ts) ↔
      (t0 ≤ time ∧ time < t0 + ((m_sst_lev.length : α) - 1) * dT)) ∧
    (¬(t0 ≤ time ∧ time < t0 + ((m_sst_lev.length : α) - 1) * dT) →
      ∃ e, ABLMost.time_interp_tsurf t0 dT m_sst_lev gtbx t_surf time = Except.error e) := by
  have h1 := time_interp_tsurf_returns_iff_assertions t0 dT m_sst_lev gtbx t_surf time
  have h2 := time_interp_tsurf_exact_range t0 dT m_sst_lev gtbx t_surf time hdT
  refine ⟨h1, h1.symm.trans h2, h2, ?_⟩
  intro hout
  cases h : ABLMost.time_interp_tsurf t0 dT m_sst_lev gtbx t_surf time with
  | error e => exact ⟨e, rfl⟩
  | ok ts => exact absurd (h2.1 ⟨ts, h⟩) hout

/-- Witness for C17 (amended): three snapshots spaced `dT = 2` from `t0 = 0`, at
`time = 3`. -/
theorem time_interp_tsurf_succeeds_iff_witness :
    (0 : ℚ) < 2 ∧
    ((∃ ts, ABLMost.time_interp_tsurf 0 2 sampleSst [sampleBox] unitField 3 = Except.ok ts) ↔
      ((0 : ℚ) ≤ 3 ∧ (3 : ℚ) < 0 + ((sampleSst.length : ℚ) - 1) * 2)) :=
  ⟨by norm_num,
    (time_interp_tsurf_succeeds_iff 0 2 sampleSst [sampleBox] unitField 3
      (by norm_num)).2.2.1⟩

end TimeInterpTheorems

/-! ### `fast_rhs_fun` -/

section FastRhsTheorems

variable {α : Type} [LinearOrderedField α]

/-- C19, counterexample to the claim as written: with moving terrain, the sub-step
`fast_step = 1` calls `make_fast_coeffs` again. -/
theorem fast_rhs_fun_moving_terrain_recomputes :
    (fast_rhs_fun (sampleTerrainChoice TerrainType.Moving) 0 0 1 0 (1 / 4) 1 (1 / 4) (1 / 2)).any
      FastCall.is_make_fast_coeffs = true := by
  decide

/-- Without moving terrain, a sub-step other than the first leaves `fast_coeffs` alone. -/
theorem fast_rhs_fun_keeps_fast_coeffs {Coeffs : Type} (build : FastCall α → Coeffs)
    (fast_coeffs : Coeffs) (solverChoice : SolverChoice α)
    (level finest_level : Int) (fast_step nrk : Int)
    (dtau inv_fac old_substep_time new_substep_time : α)
    (hnm : ¬(solverChoice.use_terrain = true ∧
      solverChoice.terrain_type = TerrainType.Moving))
    (hf : fast_step ≠ 0) :
    fast_coeffs_after build fast_coeffs
      (fast_rhs_fun solverChoice level finest_level fast_step nrk dtau inv_fac
        old_substep_time new_substep_time) = fast_coeffs := by
  by_cases hst : solverChoice.use_terrain = true ∧
      solverChoice.terrain_type = TerrainType.Static
  · simp [fast_rhs_fun, hnm, hst, hf, FastCall.is_make_fast_coeffs, fast_coeffs_after]
  · simp [fast_rhs_fun, hnm, hst, hf, FastCall.is_make_fast_coeffs, fast_coeffs_after]

/-- What one call of `fast_rhs_fun` leaves in `fast_coeffs` whenever it calls
`make_fast_coeffs`: with moving terrain always, otherwise on the first sub-step. -/
theorem fast_rhs_fun_builds_fast_coeffs {Coeffs : Type} (build : FastCall α → Coeffs)
    (fast_coeffs : Coeffs) (solverChoice : SolverChoice α)
    (level finest_level : Int) (fast_step nrk : Int)
    (dtau inv_fac old_substep_time new_substep_time : α)
    (h : (solverChoice.use_terrain = true ∧
      solverChoice.terrain_type = TerrainType.Moving) ∨ fast_step = 0) :
    fast_coeffs_after build fast_coeffs
      (fast_rhs_fun solverChoice level finest_level fast_step nrk dtau inv_fac
        old_substep_time new_substep_time)
      = build (FastCall.make_fast_coeffs
          (decide (solverChoice.moisture_type ≠ MoistureType.None))
          solverChoice.use_terrain solverChoice.gravity solverChoice.c_p dtau 0.1) := by
  by_cases hm : solverChoice.use_terrain = true ∧
      solverChoice.terrain_type = TerrainType.Moving
  · by_cases hf : fast_step = 0
    · simp [fast_rhs_fun, hm, hf, FastCall.is_make_fast_coeffs, fast_coeffs_after]
    · simp [fast_rhs_fun, hm, hf, FastCall.is_make_fast_coeffs, fast_coeffs_after]
  · have hf : fast_step = 0 := h.resolve_left hm
    by_cases hst : solverChoice.use_terrain = true ∧
        solverChoice.terrain_type = TerrainType.Static
    · simp [fast_rhs_fun, hm, hst, hf, FastCall.is_make_fast_coeffs, fast_coeffs_after]
    · simp [fast_rhs_fun, hm, hst, hf, FastCall.is_make_fast_coeffs, fast_coeffs_after]

/-- C19, amended: with static terrain or no terrain, `fast_rhs_fun` calls
`make_fast_coeffs` exactly when `fast_step = 0`; a sub-step with `fast_step ≠ 0` leaves
`fast_coeffs` as it found it, so that after the first sub-step and any sequence `later` of
further sub-steps (each given by its `fast_step ≠ 0` and its two sub-step times)
`fast_coeffs` is still what `make_fast_coeffs` built at `fast_step = 0`.  With moving
terrain, `make_fast_coeffs` is called once on every sub-step, and `fast_coeffs` is rebuilt
each time. -/
theorem fast_rhs_fun_make_fast_coeffs (solverChoice : SolverChoice α)
    (level finest_level : Int) (fast_step nrk : Int)
    (dtau inv_fac old_substep_time new_substep_time : α) :
    (¬(solverChoice.use_terrain = true ∧ solverChoice.terrain_type = TerrainType.Moving) →
      ((fast_rhs_fun solverChoice level finest_level fast_step nrk dtau inv_fac
          old_substep_time new_substep_time).any FastCall.is_make_fast_coeffs = true ↔
        fast_step = 0) ∧
      (fast_step ≠ 0 →
        ∀ (Coeffs : Type) (build : FastCall α → Coeffs) (fast_coeffs : Coeffs),
          fast_coeffs_after build fast_coeffs
            (fast_rhs_fun solverChoice level finest_level fast_step nrk dtau inv_fac
              old_substep_time new_substep_time) = fast_coeffs) ∧
      (∀ (Coeffs : Type) (build : FastCall α → Coeffs) (fast_coeffs : Coeffs)
          (later : List (Int × α × α)), (∀ p ∈ later, p.1 ≠ 0) →
          later.foldl
            (fun cs p => fast_coeffs_after build cs
              (fast_rhs_fun solverChoice level finest_level p.1 nrk dtau inv_fac p.2.1 p.2.2))
            (fast_coeffs_after build fast_coeffs
              (fast_rhs_fun solverChoice level finest_level 0 nrk dtau inv_fac
                old_substep_time new_substep_time))
          = build (FastCall.make_fast_coeffs
              (decide (solverChoice.moisture_type ≠ MoistureType.None))
              solverChoice.use_terrain solverChoice.gravity solverChoice.c_p dtau 0.1))) ∧
    ((solverChoice.use_terrain = true ∧ solverChoice.terrain_type = TerrainType.Moving) →
      (fast_rhs_fun solverChoice level finest_level fast_step nrk dtau inv_fac
          old_substep_time new_substep_time).countP FastCall.is_make_fast_coeffs = 1 ∧
      ∀ (Coeffs : Type) (build : FastCall α → Coeffs) (fast_coeffs : Coeffs),
        fast_coeffs_after build fast_coeffs
          (fast_rhs_fun solverChoice level finest_level fast_step nrk dtau inv_fac
            old_substep_time new_substep_time)
        = build (FastCall.make_fast_coeffs
            (decide (solverChoice.moisture_type ≠ MoistureType.None))
            solverChoice.use_terrain solverChoice.gravity solverChoice.c_p dtau 0.1)) := by
  constructor
  · intro hnm
    refine ⟨?_, ?_, ?_⟩
    · by_cases hst : solverChoice.use_terrain = true ∧
          solverChoice.terrain_type = TerrainType.Static
      · by_cases hf : fast_step = 0
        · simp [fast_rhs_fun, hnm, hst, hf, FastCall.is_make_fast_coeffs]
        · simp [fast_rhs_fun, hnm, hst, hf, FastCall.is_make_fast_coeffs]
      · by_cases hf : fast_step = 0
        · simp [fast_rhs_fun, hnm, hst, hf, FastCall.is_make_fast_coeffs]
        · simp [fast_rhs_fun, hnm, hst, hf, FastCall.is_make_fast_coeffs]
    · intro hf Coeffs build fast_coeffs
      exact fast_rhs_fun_keeps_fast_coeffs build fast_coeffs solverChoice level finest_level
        fast_step nrk dtau inv_fac old_substep_time new_substep_time hnm hf
    · intro Coeffs build fast_coeffs later
      rw [fast_rhs_fun_builds_fast_coeffs build fast_coeffs solverChoice level finest_level
        0 nrk dtau inv_fac old_substep_time new_substep_time (Or.inr rfl)]
      generalize build (FastCall.make_fast_coeffs
        (decide (solverChoice.moisture_type ≠ MoistureType.None))
        solverChoice.use_terrain solverChoice.gravity solverChoice.c_p dtau 0.1) = cs
      induction later with
      | nil => intro _; rfl
      | cons p rest ih =>
        intro hp
        rw [List.foldl_cons, fast_rhs_fun_keeps_fast_coeffs build cs solverChoice level
          finest_level p.1 nrk dtau inv_fac p.2.1 p.2.2 hnm (hp p (List.mem_cons_self _ _))]
        exact ih (fun q hq => hp q (List.mem_cons_of_mem _ hq))
  · intro hm
    refine ⟨?_, ?_⟩
    · by_cases hf : fast_step = 0
      · simp [fast_rhs_fun, hm, hf, FastCall.is_make_fast_coeffs]
      · simp [fast_rhs_fun, hm, hf, FastCall.is_make_fast_coeffs]
    · intro Coeffs build fast_coeffs
      exact fast_rhs_fun_builds_fast_coeffs build fast_coeffs solverChoice level finest_level
        fast_step nrk dtau inv_fac old_substep_time new_substep_time (Or.inl hm)

/-- Witness for C19 (amended): at `fast_step = 1`, static terrain makes no call of
`make_fast_coeffs` and moving terrain makes one. -/
theorem fast_rhs_fun_make_fast_coeffs_witness :
    ¬((sampleTerrainChoice TerrainType.Static).use_terrain = true ∧
      (sampleTerrainChoice TerrainType.Static).terrain_type = TerrainType.Moving) ∧
    (((fast_rhs_fun (sampleTerrainChoice TerrainType.Static) 0 0 1 0 (1 / 4) 1 (1 / 4)
        (1 / 2)).any FastCall.is_make_fast_coeffs = true ↔ (1 : Int) = 0) ∧
    ((sampleTerrainChoice TerrainType.Moving).use_terrain = true ∧
      (sampleTerrainChoice TerrainType.Moving).terrain_type = TerrainType.Moving) ∧
    (fast_rhs_fun (sampleTerrainChoice TerrainType.Moving) 0 0 1 0 (1 / 4) 1 (1 / 4)
        (1 / 2)).countP FastCall.is_make_fast_coeffs = 1) :=
  ⟨by decide,
    ((fast_rhs_fun_make_fast_coeffs (sampleTerrainChoice TerrainType.Static) 0 0 1 0 (1 / 4) 1
      (1 / 4) (1 / 2)).1 (by decide)).1,
    ⟨rfl, rfl⟩,
    ((fast_rhs_fun_make_fast_coeffs (sampleTerrainChoice TerrainType.Moving) 0 0 1 0 (1 / 4) 1
      (1 / 4) (1 / 2)).2 ⟨rfl, rfl⟩).1⟩

/-- C20: in every terrain regime `fast_rhs_fun` calls exactly one fast RHS kernel
(`erf_fast_rhs_MT` with moving terrain, `erf_fast_rhs_T` with static terrain,
`erf_fast_rhs_N` without terrain), its "previous solution" argument is `S_old` when
`fast_step = 0` and `S_data` otherwise, and the call right after the kernel, the last one
of the sub-step, is `apply_bcs` on `S_data` at the new sub-step time with
`fast_only = true`. -/
theorem fast_rhs_fun_previous_solution (solverChoice : SolverChoice α)
    (level finest_level : Int) (fast_step nrk : Int)
    (dtau inv_fac old_substep_time new_substep_time : α) :
    (fast_rhs_fun solverChoice level finest_level fast_step nrk dtau inv_fac
        old_substep_time new_substep_time).filterMap FastCall.kernel_prev
      = [if fast_step = 0 then SolutionArg.S_old else SolutionArg.S_data] ∧
    (∃ calls kernel,
      fast_rhs_fun solverChoice level finest_level fast_step nrk dtau inv_fac
          old_substep_time new_substep_time
        = calls ++ [kernel,
            FastCall.apply_bcs SolutionArg.S_data new_substep_time 1 1 true false] ∧
      kernel.kernel_prev
        = some (if fast_step = 0 then SolutionArg.S_old else SolutionArg.S_data) ∧
      ((solverChoice.use_terrain = true ∧ solverChoice.terrain_type = TerrainType.Moving) →
        ∃ a b c d e f g h i j, kernel = FastCall.erf_fast_rhs_MT a b c d e f g h i j) ∧
      ((solverChoice.use_terrain = true ∧ solverChoice.terrain_type = TerrainType.Static) →
        ∃ a b c d e f g h i j, kernel = FastCall.erf_fast_rhs_T a b c d e f g h i j) ∧
      (solverChoice.use_terrain = false →
        ∃ a b c d e f g h i j, kernel = FastCall.erf_fast_rhs_N a b c d e f g h i j)) := by
  have hsplit : ∀ (l : List (FastCall α)) (x y : FastCall α),
      (l ++ [x]) ++ [y] = l ++ [x, y] := by
    intro l x y
    simp
  by_cases hm : solverChoice.use_terrain = true ∧ solverChoice.terrain_type = TerrainType.Moving
  · have hns : ¬ (solverChoice.terrain_type = TerrainType.Static) := by
      rw [hm.2]; decide
    by_cases hf : fast_step = 0
    · refine ⟨by simp [fast_rhs_fun, hm, hf, FastCall.kernel_prev], ?_⟩
      simp only [fast_rhs_fun, hm, hf, and_self, if_true, hsplit]
      exact ⟨_, _, rfl, rfl, fun _ => ⟨_, _, _, _, _, _, _, _, _, _, rfl⟩,
        fun h => by simp at h, fun h => by simp [hm.1] at h⟩
    · refine ⟨by simp [fast_rhs_fun, hm, hf, FastCall.kernel_prev], ?_⟩
      simp only [fast_rhs_fun, hm, hf, and_self, if_true, if_false, hsplit]
      exact ⟨_, _, rfl, rfl, fun _ => ⟨_, _, _, _, _, _, _, _, _, _, rfl⟩,
        fun h => by simp at h, fun h => by simp [hm.1] at h⟩
  · by_cases hst : solverChoice.use_terrain = true ∧
        solverChoice.terrain_type = TerrainType.Static
    · by_cases hf : fast_step = 0
      · refine ⟨by simp [fast_rhs_fun, hm, hst, hf, FastCall.kernel_prev], ?_⟩
        simp only [fast_rhs_fun, hm, hst, hf, and_self, if_true, if_false]
        exact ⟨[_], _, rfl, rfl, fun h => by simp at h,
          fun _ => ⟨_, _, _, _, _, _, _, _, _, _, rfl⟩, fun h => by simp [hst.1] at h⟩
      · refine ⟨by simp [fast_rhs_fun, hm, hst, hf, FastCall.kernel_prev], ?_⟩
        simp only [fast_rhs_fun, hm, hst, hf, and_self, if_true, if_false]
        exact ⟨[], _, rfl, rfl, fun h => by simp at h,
          fun _ => ⟨_, _, _, _, _, _, _, _, _, _, rfl⟩, fun h => by simp [hst.1] at h⟩
    · by_cases hf : fast_step = 0
      · refine ⟨by simp [fast_rhs_fun, hm, hst, hf, FastCall.kernel_prev], ?_⟩
        simp only [fast_rhs_fun, hm, hst, hf, if_true, if_false]
        exact ⟨[_], _, rfl, rfl, fun h => by simp at h, fun h => by simp at h,
          fun _ => ⟨_, _, _, _, _, _, _, _, _, _, rfl⟩⟩
      · refine ⟨by simp [fast_rhs_fun, hm, hst, hf, FastCall.kernel_prev], ?_⟩
        simp only [fast_rhs_fun, hm, hst, hf, if_true, if_false]
        exact ⟨[], _, rfl, rfl, fun h => by simp at h, fun h => by simp at h,
          fun _ => ⟨_, _, _, _, _, _, _, _, _, _, rfl⟩⟩

/-- Witness for C20: static terrain at `fast_step = 1`. -/
theorem fast_rhs_fun_previous_solution_witness :
    (fast_rhs_fun (sampleTerrainChoice TerrainType.Static) 0 0 1 0 (1 / 4) 1 (1 / 4)
        (1 / 2)).filterMap FastCall.kernel_prev
      = [if (1 : Int) = 0 then SolutionArg.S_old else SolutionArg.S_data] :=
  (fast_rhs_fun_previous_solution (sampleTerrainChoice TerrainType.Static) 0 0 1 0 (1 / 4) 1
    (1 / 4) (1 / 2)).1

end FastRhsTheorems

/-! ### Ghost cells, terrain velocity, flux telescoping -/

section KernelTheorems

variable {α : Type} [LinearOrderedField α]

/-- `ComputeGhostCells` returns 2 or 3, and it returns what the selectors call for unless
the vertical selector of the moist scalars is `Centered_6th` or `Upwind_5th`. -/
theorem ComputeGhostCells_values (advChoice : AdvChoice) (use_num_diff : Bool) :
    (ComputeGhostCells advChoice use_num_diff = 2 ∨
      ComputeGhostCells advChoice use_num_diff = 3) ∧
    (advChoice.moistscal_vert_adv_type ≠ AdvType.Centered_6th →
      advChoice.moistscal_vert_adv_type ≠ AdvType.Upwind_5th →
      ComputeGhostCells advChoice use_num_diff = ghostCellsRequired advChoice use_num_diff) := by
  constructor
  · unfold ComputeGhostCells
    split
    · exact Or.inr rfl
    · split
      · exact Or.inr rfl
      · split
        · exact Or.inr rfl
        · split
          · exact Or.inr rfl
          · exact Or.inl rfl
  · intro h6 h5
    cases use_num_diff
    · have hA : ghostCellsRequired advChoice false = 3 ↔
          ((advChoice.dycore_horiz_adv_type = AdvType.Centered_6th
            ∨ advChoice.dycore_vert_adv_type = AdvType.Centered_6th
            ∨ advChoice.moistscal_horiz_adv_type = AdvType.Centered_6th
            ∨ advChoice.moistscal_horiz_adv_type = AdvType.Centered_6th
            ∨ advChoice.dryscal_horiz_adv_type = AdvType.Centered_6th
            ∨ advChoice.dryscal_vert_adv_type = AdvType.Centered_6th)
          ∨ (advChoice.dycore_horiz_adv_type = AdvType.Upwind_5th
            ∨ advChoice.dycore_vert_adv_type = AdvType.Upwind_5th
            ∨ advChoice.moistscal_horiz_adv_type = AdvType.Upwind_5th
            ∨ advChoice.moistscal_horiz_adv_type = AdvType.Upwind_5th
            ∨ advChoice.dryscal_horiz_adv_type = AdvType.Upwind_5th
            ∨ advChoice.dryscal_vert_adv_type = AdvType.Upwind_5th)
          ∨ (advChoice.dryscal_horiz_adv_type = AdvType.Weno_5
            ∨ advChoice.dryscal_vert_adv_type = AdvType.Weno_5
            ∨ advChoice.moistscal_horiz_adv_type = AdvType.Weno_5
            ∨ advChoice.moistscal_vert_adv_type = AdvType.Weno_5
            ∨ advChoice.moistscal_horiz_adv_type = AdvType.Weno_5Z
            ∨ advChoice.moistscal_vert_adv_type = AdvType.Weno_5Z
            ∨ advChoice.dryscal_horiz_adv_type = AdvType.Weno_5Z
            ∨ advChoice.dryscal_vert_adv_type = AdvType.Weno_5Z)) := by
        unfold ghostCellsRequired
        simp only [Bool.false_eq_true, false_or, List.mem_cons, List.mem_singleton,
          List.not_mem_nil, or_false, exists_eq_or_imp, exists_eq_left]
        split
        · rename_i h
          simp only [true_iff]
          tauto
        · rename_i h
          simp only [show ((2 : Int) = 3) = False by decide, false_iff]
          tauto
      unfold ComputeGhostCells
      simp only [Bool.false_eq_true, if_false]
      split
      · rename_i h
        exact (hA.2 (Or.inl h)).symm
      · split
        · rename_i h
          exact (hA.2 (Or.inr (Or.inl h))).symm
        · split
          · rename_i h
            exact (hA.2 (Or.inr (Or.inr h))).symm
          · rename_i h1 h2 h3
            have h23 : ghostCellsRequired advChoice false = 2 ∨
                ghostCellsRequired advChoice false = 3 := by
              unfold ghostCellsRequired
              split
              · exact Or.inr rfl
              · exact Or.inl rfl
            rcases h23 with h | h
            · exact h.symm
            · rcases hA.1 h with h4 | h4 | h4
              · exact absurd h4 h1
              · exact absurd h4 h2
              · exact absurd h4 h3
    · unfold ComputeGhostCells ghostCellsRequired
      simp only [if_true, true_or]

/-- C27 (evaluation at the failing input): with numerical diffusion off, the vertical
selector of the moist scalars `Centered_6th` and every other selector `Centered_2nd`,
`ComputeGhostCells` returns 2, although a selector is `Centered_6th`; with the same
scheme on the horizontal selector of the moist scalars it returns 3. -/
theorem ComputeGhostCells_misses_moistscal_vert :
    sampleAdvChoice.moistscal_vert_adv_type = AdvType.Centered_6th ∧
    ComputeGhostCells sampleAdvChoice false = 2 ∧
    ghostCellsRequired sampleAdvChoice false = 3 ∧
    ComputeGhostCells { sampleAdvChoice with moistscal_vert_adv_type := AdvType.Upwind_5th }
      false = 2 ∧
    ComputeGhostCells { sampleAdvChoice with
      moistscal_vert_adv_type := AdvType.Centered_2nd,
      moistscal_horiz_adv_type := AdvType.Centered_6th } false = 3 := by
  decide

/-- C23: with moving terrain, for every `(i,j,k)` of the grown tile boxes `slow_rhs_fun_pre`
sets `z_t(i,j,k)` to the average over the four nodes `(i,j)`, `(i+1,j)`, `(i,j+1)`,
`(i+1,j+1)` at level `k` of `(z_new - z_old)/slow_dt`, `slow_dt = new_stage_time -
old_step_time`; so `z_t` is 0 there when the new and old node heights coincide; and
`fast_rhs_fun` sets `z_t_pert(i,j,k)` to the same average taken with `dtau`, minus
`z_t(i,j,k)`. -/
theorem terrain_velocity_node_average (solverChoice : SolverChoice α) (gbx : List Box)
    (old_step_time new_stage_time dtau : α)
    (z_nd_new_arr z_nd_old_arr z_t_arr zp_t_arr : Array4 α) (i j k : Int)
    (hmoving : solverChoice.use_terrain = true ∧
      solverChoice.terrain_type = TerrainType.Moving)
    (hbox : gbx.any (fun bx => bx.contains i j k) = true) :
    slow_rhs_fun_pre.z_t_rk solverChoice gbx old_step_time new_stage_time
        z_nd_new_arr z_nd_old_arr z_t_arr i j k
      = nodeAverageTerrainVelocity (new_stage_time - old_step_time)
          z_nd_new_arr z_nd_old_arr i j k ∧
    ((∀ i2 j2 : Int, z_nd_new_arr i2 j2 k = z_nd_old_arr i2 j2 k) →
      slow_rhs_fun_pre.z_t_rk solverChoice gbx old_step_time new_stage_time
        z_nd_new_arr z_nd_old_arr z_t_arr i j k = 0) ∧
    fast_rhs_fun.z_t_pert gbx dtau z_nd_new_arr z_nd_old_arr z_t_arr zp_t_arr i j k
      = nodeAverageTerrainVelocity dtau z_nd_new_arr z_nd_old_arr i j k - z_t_arr i j k := by
  have h25 : (0.25 : α) = 1 / 4 := by norm_num
  have h10 : (1.0 : α) = 1 := by norm_num
  have hslow : slow_rhs_fun_pre.z_t_rk solverChoice gbx old_step_time new_stage_time
        z_nd_new_arr z_nd_old_arr z_t_arr i j k
      = nodeAverageTerrainVelocity (new_stage_time - old_step_time)
          z_nd_new_arr z_nd_old_arr i j k := by
    simp only [slow_rhs_fun_pre.z_t_rk, slow_rhs_fun_pre.z_t, nodeAverageTerrainVelocity,
      hmoving, and_self, if_true, hbox, h25, h10]
    ring
  refine ⟨hslow, ?_, ?_⟩
  · intro hsame
    rw [hslow]
    simp [nodeAverageTerrainVelocity, hsame]
  · simp only [fast_rhs_fun.z_t_pert, nodeAverageTerrainVelocity, hbox, if_true, h25, h10]
    ring

/-- Witness for C23: a moving-terrain column whose node heights rise between times 0 and
1/2. -/
theorem terrain_velocity_node_average_witness :
    slow_rhs_fun_pre.z_t_rk (sampleTerrainChoice TerrainType.Moving) [sampleBox] 0 (1 / 2)
        (risingField (1 / 2)) (risingField 0) zeroField 0 0 1
      = nodeAverageTerrainVelocity ((1 / 2 : ℚ) - 0) (risingField (1 / 2)) (risingField 0) 0 0 1 :=
  (terrain_velocity_node_average (sampleTerrainChoice TerrainType.Moving) [sampleBox] 0 (1 / 2)
    (1 / 4) (risingField (1 / 2)) (risingField 0) zeroField zeroField 0 0 1
    ⟨rfl, rfl⟩ (by decide)).1

/-- Outside the grown tile boxes, and without moving terrain, `slow_rhs_fun_pre` leaves
`z_t` as it was. -/
theorem terrain_velocity_frame (solverChoice : SolverChoice α) (gbx : List Box)
    (old_step_time new_stage_time : α)
    (z_nd_new_arr z_nd_old_arr z_t_arr : Array4 α) (i j k : Int)
    (h : ¬(solverChoice.use_terrain = true ∧
        solverChoice.terrain_type = TerrainType.Moving) ∨
      gbx.any (fun bx => bx.contains i j k) = false) :
    slow_rhs_fun_pre.z_t_rk solverChoice gbx old_step_time new_stage_time
        z_nd_new_arr z_nd_old_arr z_t_arr i j k = z_t_arr i j k := by
  unfold slow_rhs_fun_pre.z_t_rk slow_rhs_fun_pre.z_t
  split
  · rename_i hm
    rcases h with h | h
    · exact absurd hm h
    · simp only [h, Bool.false_eq_true, if_false]
  · rfl

/-- Both horizontal momentum kernels are the flux differences of their six fluxes. -/
theorem AdvectionSrcForMom_T_of_fluxes (tm : TerrainMetrics α) (i j k : Int)
    (rho_u rho_v Omega z_nd detJ : Array4 α)
    (interp_h : InterpType_H α) (interp_v : InterpType_V α)
    (cellSizeInv : GpuArray3 α) (mf_u_inv mf_v_inv : Array4 α) :
    AdvectionSrcForXMom_T tm i j k rho_u rho_v Omega z_nd detJ interp_h interp_v
        cellSizeInv mf_u_inv mf_v_inv
      = (AdvectionSrcForXMom_T.fluxes tm i j k rho_u rho_v Omega z_nd interp_h interp_v
          cellSizeInv mf_u_inv mf_v_inv).advectionSrc cellSizeInv (mf_u_inv i j 0)
          (detJ i j k + detJ (i-1) j k) ∧
    AdvectionSrcForYMom_T tm i j k rho_u rho_v Omega z_nd detJ interp_h interp_v
        cellSizeInv mf_u_inv mf_v_inv
      = (AdvectionSrcForYMom_T.fluxes tm i j k rho_u rho_v Omega z_nd interp_h interp_v
          cellSizeInv mf_u_inv mf_v_inv).advectionSrc cellSizeInv (mf_v_inv i j 0)
          (detJ i j k + detJ i (j-1) k) :=
  ⟨rfl, rfl⟩

/-- C26: in `AdvectionSrcForXMom_T` the `Next` flux of a face is the `Prev` flux of its
neighbour in that direction: `centFluxXXNext` at `(i,j,k)` is `centFluxXXPrev` at
`(i+1,j,k)`, `edgeFluxXYNext` at `(i,j,k)` is `edgeFluxXYPrev` at `(i,j+1,k)` and
`edgeFluxXZNext` at `(i,j,k)` is `edgeFluxXZPrev` at `(i,j,k+1)`; likewise for the three
directions of `AdvectionSrcForYMom_T`.  The interpolators assign their reference argument
`val` without reading it (`hY`, `hZ`); the x-direction needs no such assumption. -/
theorem momentum_fluxes_telescope (tm : TerrainMetrics α) (i j k : Int)
    (rho_u rho_v Omega z_nd : Array4 α)
    (interp_h : InterpType_H α) (interp_v : InterpType_V α)
    (cellSizeInv : GpuArray3 α) (mf_u_inv mf_v_inv : Array4 α)
    (hY : ∀ (i j k q : Int) (val val2 upw : α),
      interp_h.InterpolateInY i j k q val upw = interp_h.InterpolateInY i j k q val2 upw)
    (hZ : ∀ (i j k q : Int) (val val2 upw : α),
      interp_v.InterpolateInZ i j k q val upw = interp_v.InterpolateInZ i j k q val2 upw) :
    ((AdvectionSrcForXMom_T.fluxes tm i j k rho_u rho_v Omega z_nd interp_h interp_v
        cellSizeInv mf_u_inv mf_v_inv).xNext
      = (AdvectionSrcForXMom_T.fluxes tm (i+1) j k rho_u rho_v Omega z_nd interp_h interp_v
        cellSizeInv mf_u_inv mf_v_inv).xPrev ∧
    (AdvectionSrcForXMom_T.fluxes tm i j k rho_u rho_v Omega z_nd interp_h interp_v
        cellSizeInv mf_u_inv mf_v_inv).yNext
      = (AdvectionSrcForXMom_T.fluxes tm i (j+1) k rho_u rho_v Omega z_nd interp_h interp_v
        cellSizeInv mf_u_inv mf_v_inv).yPrev ∧
    (AdvectionSrcForXMom_T.fluxes tm i j k rho_u rho_v Omega z_nd interp_h interp_v
        cellSizeInv mf_u_inv mf_v_inv).zNext
      = (AdvectionSrcForXMom_T.fluxes tm i j (k+1) rho_u rho_v Omega z_nd interp_h interp_v
        cellSizeInv mf_u_inv mf_v_inv).zPrev) ∧
    ((AdvectionSrcForYMom_T.fluxes tm i j k rho_u rho_v Omega z_nd interp_h interp_v
        cellSizeInv mf_u_inv mf_v_inv).xNext
      = (AdvectionSrcForYMom_T.fluxes tm (i+1) j k rho_u rho_v Omega z_nd interp_h interp_v
        cellSizeInv mf_u_inv mf_v_inv).xPrev ∧
    (AdvectionSrcForYMom_T.fluxes tm i j k rho_u rho_v Omega z_nd interp_h interp_v
        cellSizeInv mf_u_inv mf_v_inv).yNext
      = (AdvectionSrcForYMom_T.fluxes tm i (j+1) k rho_u rho_v Omega z_nd interp_h interp_v
        cellSizeInv mf_u_inv mf_v_inv).yPrev ∧
    (AdvectionSrcForYMom_T.fluxes tm i j k rho_u rho_v Omega z_nd interp_h interp_v
        cellSizeInv mf_u_inv mf_v_inv).zNext
      = (AdvectionSrcForYMom_T.fluxes tm i j (k+1) rho_u rho_v Omega z_nd interp_h interp_v
        cellSizeInv mf_u_inv mf_v_inv).zPrev) := by
  have hi : i + 1 - 1 = i := by ring
  have hj : j + 1 - 1 = j := by ring
  refine ⟨⟨?_, ?_, ?_⟩, ?_, ?_, ?_⟩
  · simp only [AdvectionSrcForXMom_T.fluxes, hi]
    rw [add_comm (rho_u (i+1) j k * mf_u_inv (i+1) j 0)]
  · simp only [AdvectionSrcForXMom_T.fluxes]
    rw [hY i (j+1) k 0 _ 0, hY i (j+1) k 0
      (interp_h.InterpolateInX i (j+1) k 0 0 _) 0]
  · simp only [AdvectionSrcForXMom_T.fluxes]
    rw [hZ i j (k+1) 0 _ 0, hZ i j (k+1) 0
      (interp_h.InterpolateInY i j (k+1) 0 _ _) 0]
  · simp only [AdvectionSrcForYMom_T.fluxes]
  · simp only [AdvectionSrcForYMom_T.fluxes, hj]
    rw [add_comm (rho_v i (j+1) k * mf_v_inv i (j+1) 0)]
    rw [hY i (j+1) k 0 _ 0, hY i (j+1) k 0
      (interp_h.InterpolateInX i (j+1) k 0 0 _) 0]
  · simp only [AdvectionSrcForYMom_T.fluxes]
    rw [hZ i j (k+1) 0 _ 0, hZ i j (k+1) 0
      (interp_h.InterpolateInY i j (k+1) 0 _ _) 0]

/-- Witness for C26: second-order centred sample interpolators, which do not read `val`, on
the sample field. -/
theorem momentum_fluxes_telescope_witness :
    (AdvectionSrcForXMom_T.fluxes flatMetrics 0 0 1 sampleField sampleField sampleField
        sampleField (sampleInterpH sampleField) (sampleInterpV sampleField) sampleCellSizeInv
        unitField unitField).yNext
      = (AdvectionSrcForXMom_T.fluxes flatMetrics 0 (0+1) 1 sampleField sampleField sampleField
        sampleField (sampleInterpH sampleField) (sampleInterpV sampleField) sampleCellSizeInv
        unitField unitField).yPrev :=
  (momentum_fluxes_telescope flatMetrics 0 0 1 sampleField sampleField sampleField
    sampleField (sampleInterpH sampleField) (sampleInterpV sampleField) sampleCellSizeInv
    unitField unitField (fun _ _ _ _ _ _ _ => rfl) (fun _ _ _ _ _ _ _ => rfl)).1.2.1

/-- C22: in `AdvectionSrcForZMom_T`, for `1 ≤ k ≤ domhi_z`: the upper z-flux uses the wall
interpolator with `Centered_2nd` when `k = domhi_z`, and otherwise when `k = domhi_z-1` or
`k = 1` with `Centered_4th` if the requested scheme is neither `Centered_2nd` nor
`Upwind_3rd` and with the requested scheme if it is; the lower z-flux uses the wall
interpolator with `Centered_2nd` when `k = 1`, and otherwise when `k = 2` or `k = domhi_z`
by the same rule; every other level uses `interp_omega_v`.  For the five schemes
`AdvectionSrcForMomVert_T` instantiates, the order used is at most the requested order. -/
theorem zStencil_near_boundary (i j k domhi_z : Int) (vert_adv_type : AdvType)
    (Omega w : Array4 α) (interp_omega_v : InterpType_V α)
    (interp_omega_wall : WallInterpType α) (interp_hi interp_lo : α)
    (h1 : 1 ≤ k) (h2 : k ≤ domhi_z) :
    (k = domhi_z →
      zStencilNext k vert_adv_type domhi_z = ZStencil.wall AdvType.Centered_2nd) ∧
    (k ≠ domhi_z → (k = domhi_z - 1 ∨ k = 1) →
      zStencilNext k vert_adv_type domhi_z
        = ZStencil.wall
            (if vert_adv_type ≠ AdvType.Centered_2nd ∧ vert_adv_type ≠ AdvType.Upwind_3rd
             then AdvType.Centered_4th else vert_adv_type)) ∧
    (k ≠ domhi_z → ¬(k = domhi_z - 1 ∨ k = 1) →
      zStencilNext k vert_adv_type domhi_z = ZStencil.full) ∧
    (k = 1 →
      zStencilPrev k vert_adv_type domhi_z = ZStencil.wall AdvType.Centered_2nd) ∧
    (k ≠ 1 → (k = 2 ∨ k = domhi_z) →
      zStencilPrev k vert_adv_type domhi_z
        = ZStencil.wall
            (if vert_adv_type ≠ AdvType.Centered_2nd ∧ vert_adv_type ≠ AdvType.Upwind_3rd
             then AdvType.Centered_4th else vert_adv_type)) ∧
    (k ≠ 1 → ¬(k = 2 ∨ k = domhi_z) →
      zStencilPrev k vert_adv_type domhi_z = ZStencil.full) ∧
    (∀ adv_type, zStencilNext k vert_adv_type domhi_z = ZStencil.wall adv_type →
      centFluxZZNext i j k Omega w interp_omega_v interp_omega_wall vert_adv_type domhi_z
          interp_hi
        = 0.5 * (Omega i j k + Omega i j (k+1))
          * interp_omega_wall.InterpolateInZ i j (k+1) 0 interp_hi
              (0.5 * (Omega i j k + Omega i j (k+1))) adv_type) ∧
    (∀ adv_type, zStencilPrev k vert_adv_type domhi_z = ZStencil.wall adv_type →
      centFluxZZPrev i j k Omega w interp_omega_v interp_omega_wall vert_adv_type domhi_z
          interp_lo
        = 0.5 * (Omega i j k + Omega i j (k-1))
          * interp_omega_wall.InterpolateInZ i j k 0 interp_lo
              (0.5 * (Omega i j k + Omega i j (k-1))) adv_type) ∧
    (vert_adv_type ∈ [AdvType.Centered_2nd, AdvType.Upwind_3rd, AdvType.Centered_4th,
        AdvType.Upwind_5th, AdvType.Centered_6th] →
      (zStencilNext k vert_adv_type domhi_z).order vert_adv_type ≤ vert_adv_type.order ∧
      (zStencilPrev k vert_adv_type domhi_z).order vert_adv_type ≤ vert_adv_type.order) := by
  have hk0 : k ≠ 0 := by omega
  have hk1 : k ≠ domhi_z + 1 := by omega
  refine ⟨?_, ?_, ?_, ?_, ?_, ?_, ?_, ?_, ?_⟩
  · intro h
    unfold zStencilNext
    rw [if_neg hk1, if_pos h]
  · intro ha hb
    simp only [zStencilNext, hk1, ha, hb, if_true, if_false]
    split <;> rfl
  · intro ha hb
    simp only [zStencilNext, hk1, ha, hb, if_false]
  · intro h
    unfold zStencilPrev
    rw [if_neg hk0, if_pos h]
  · intro ha hb
    simp only [zStencilPrev, hk0, ha, hb, if_true, if_false]
    split <;> rfl
  · intro ha hb
    simp only [zStencilPrev, hk0, ha, hb, if_false]
  · intro adv_type h
    simp only [centFluxZZNext, h, hk1, if_false]
  · intro adv_type h
    simp only [centFluxZZPrev, h, hk0, if_false]
  · intro ht
    have hint := zStencil_order_interior k domhi_z vert_adv_type ht h1 h2
    constructor
    · have h := hint.1
      unfold l_spatial_order_hi at h
      have := min_le_left (min (vert_adv_type.order : Int) (2 * (domhi_z + 1 - k))) (2 * (k + 1))
      have := min_le_left (vert_adv_type.order : Int) (2 * (domhi_z + 1 - k))
      omega
    · have h := hint.2
      unfold l_spatial_order_lo at h
      have := min_le_left (min (vert_adv_type.order : Int) (2 * (domhi_z + 2 - k))) (2 * k)
      have := min_le_left (vert_adv_type.order : Int) (2 * (domhi_z + 2 - k))
      omega

/-- Witness for C22: `domhi_z = 10`, `Upwind_5th` requested, at `k = 9 = domhi_z - 1`: the
upper z-flux uses the wall interpolator with `Centered_4th`. -/
theorem zStencil_near_boundary_witness :
    zStencilNext 9 AdvType.Upwind_5th 10 = ZStencil.wall AdvType.Centered_4th ∧
    (zStencilNext 9 AdvType.Upwind_5th 10).order AdvType.Upwind_5th
      ≤ AdvType.Upwind_5th.order :=
  ⟨(zStencil_near_boundary 0 0 9 10 AdvType.Upwind_5th sampleField sampleField
      (sampleInterpV sampleField) (sampleInterpWall sampleField) 0 0
      (by decide) (by decide)).2.1 (by decide) (by decide),
   ((zStencil_near_boundary 0 0 9 10 AdvType.Upwind_5th sampleField sampleField
      (sampleInterpV sampleField) (sampleInterpWall sampleField) 0 0
      (by decide) (by decide)).2.2.2.2.2.2.2.2 (by decide)).1⟩

end KernelTheorems

/-! ### `moeng_flux` and `donelan_flux` -/

section MOSTFluxTheorems

variable {α : Type} [LinearOrderedField α]

/-- C29: the drag coefficient of `donelan_flux::compute_u_flux` and `compute_v_flux`, as a
function of the mean wind speed `w`, is `0.001` for `w ≤ 5`, `0.001 + 0.00007*(w-5)` for
`5 < w < 25` and `0.0024` for `w ≥ 25`; in exact arithmetic it is non-decreasing in `w`,
lies in `[0.001, 0.0024]`, and changes by at most `0.00007 * |w1 - w2|` between any two
speeds, so that it has no jump at `w = 5` or `w = 25`. -/
theorem donelan_Cd_piecewise (w : α) :
    (w ≤ 5 → donelan_flux.Cd w = 0.001) ∧
    (5 < w → w < 25 → donelan_flux.Cd w = 0.001 + 0.00007 * (w - 5)) ∧
    (25 ≤ w → donelan_flux.Cd w = 0.0024) ∧
    (0.001 ≤ donelan_flux.Cd w ∧ donelan_flux.Cd w ≤ 0.0024) ∧
    (∀ w2 : α, w ≤ w2 → donelan_flux.Cd w ≤ donelan_flux.Cd w2) ∧
    (∀ w2 : α, |donelan_flux.Cd w - donelan_flux.Cd w2| ≤ 0.00007 * |w - w2|) := by
  have h5 : (5.0 : α) = 5 := by norm_num
  have h25 : (25.0 : α) = 25 := by norm_num
  have hc : (7e-5 : α) = 0.00007 := by norm_num
  have hform : ∀ x : α, donelan_flux.Cd x
      = if x ≤ 5 then 0.001 else if x < 25 then 0.001 + 0.00007 * (x - 5) else 0.0024 := by
    intro x
    unfold donelan_flux.Cd
    simp only [h5, h25, hc]
    by_cases h1 : x ≤ 5
    · simp only [h1, if_true]
    · have h1b : x > 5 := lt_of_not_le h1
      simp only [h1, if_false, h1b, and_true]
  have hbounds : ∀ x : α, 0.001 ≤ donelan_flux.Cd x ∧ donelan_flux.Cd x ≤ 0.0024 := by
    intro x
    rw [hform x]
    split
    · constructor <;> norm_num
    · rename_i h1
      have h1b : 5 < x := lt_of_not_le h1
      split
      · rename_i h2
        constructor
        · linarith
        · linarith
      · constructor <;> norm_num
  have hmono : ∀ x y : α, x ≤ y → donelan_flux.Cd x ≤ donelan_flux.Cd y ∧
      donelan_flux.Cd y - donelan_flux.Cd x ≤ 0.00007 * (y - x) := by
    intro x y hxy
    rw [hform x, hform y]
    by_cases hx1 : x ≤ 5
    · by_cases hy1 : y ≤ 5
      · simp only [hx1, hy1, if_true]
        constructor <;> linarith
      · have hy1b : 5 < y := lt_of_not_le hy1
        by_cases hy2 : y < 25
        · simp only [hx1, hy1, hy2, if_true, if_false]
          constructor <;> linarith
        · have hy2b : 25 ≤ y := le_of_not_lt hy2
          simp only [hx1, hy1, hy2, if_true, if_false]
          constructor
          · norm_num
          · linarith
    · have hx1b : 5 < x := lt_of_not_le hx1
      have hy1 : ¬ y ≤ 5 := by intro h; linarith
      by_cases hx2 : x < 25
      · by_cases hy2 : y < 25
        · simp only [hx1, hy1, hx2, hy2, if_true, if_false]
          constructor <;> linarith
        · have hy2b : 25 ≤ y := le_of_not_lt hy2
          simp only [hx1, hy1, hx2, hy2, if_true, if_false]
          constructor <;> linarith
      · have hx2b : 25 ≤ x := le_of_not_lt hx2
        have hy2 : ¬ y < 25 := by intro h; linarith
        simp only [hx1, hy1, hx2, hy2, if_false]
        constructor
        · exact le_refl _
        · linarith
  refine ⟨?_, ?_, ?_, hbounds w, fun w2 h => (hmono w w2 h).1, ?_⟩
  · intro h
    rw [hform w, if_pos h]
  · intro h1 h2
    rw [hform w, if_neg (not_le.2 h1), if_pos h2]
  · intro h
    rw [hform w, if_neg (by intro h1; linarith), if_neg (not_lt.2 h)]
  · intro w2
    rcases le_total w w2 with h | h
    · have hm := hmono w w2 h
      rw [abs_sub_comm, abs_of_nonneg (by linarith : 0 ≤ donelan_flux.Cd w2 - donelan_flux.Cd w),
        abs_sub_comm, abs_of_nonneg (by linarith : 0 ≤ w2 - w)]
      exact hm.2
    · have hm := hmono w2 w h
      rw [abs_of_nonneg (by linarith : 0 ≤ donelan_flux.Cd w - donelan_flux.Cd w2),
        abs_of_nonneg (by linarith : 0 ≤ w - w2)]
      exact hm.2

/-- Witness for C29: at a mean wind speed of 15 the coefficient is `0.001 + 0.00007 * 10`. -/
theorem donelan_Cd_piecewise_witness :
    donelan_flux.Cd (15 : ℚ) = 0.001 + 0.00007 * (15 - 5) :=
  (donelan_Cd_piecewise (15 : ℚ)).2.1 (by norm_num) (by norm_num)

/-- C21: the value `donelan_flux::compute_t_flux`, `compute_u_flux` and `compute_v_flux` write
to `dest_arr` is the same for any two `u_star_arr`, `t_star_arr` and mean-velocity arrays
(`um_arr`, `vm_arr`), all other inputs equal; and the stress is the drag coefficient of the
face-averaged mean wind speed `wsp_mean` times the velocity component times the local wind
speed `wsp`, which is computed from `velx_arr` and `vely_arr` alone. -/
theorem donelan_flux_ignores_similarity_scales (c : CMath α) (zlo i j k n icomp var_idx : Int)
    (dz : α) (cons_bd velx_bd vely_bd eta_bd : ArrayBounds)
    (cons_arr : Array4C α) (velx_arr vely_arr : Array4 α) (eta_arr : Array4C α)
    (umm_arr tm_arr t_surf_arr : Array4 α) (dest_arr : Array4C α)
    (u_star_arr t_star_arr um_arr vm_arr u_star_arr2 t_star_arr2 um_arr2 vm_arr2 : Array4 α) :
    donelan_flux.compute_t_flux zlo i j k n icomp dz cons_bd eta_bd cons_arr velx_arr vely_arr
        eta_arr umm_arr tm_arr u_star_arr t_star_arr t_surf_arr dest_arr
      = donelan_flux.compute_t_flux zlo i j k n icomp dz cons_bd eta_bd cons_arr velx_arr
        vely_arr eta_arr umm_arr tm_arr u_star_arr2 t_star_arr2 t_surf_arr dest_arr ∧
    donelan_flux.compute_u_flux c zlo i j k icomp var_idx dz cons_bd vely_bd eta_bd cons_arr
        velx_arr vely_arr eta_arr umm_arr um_arr u_star_arr dest_arr
      = donelan_flux.compute_u_flux c zlo i j k icomp var_idx dz cons_bd vely_bd eta_bd
        cons_arr velx_arr vely_arr eta_arr umm_arr um_arr2 u_star_arr2 dest_arr ∧
    donelan_flux.compute_v_flux c zlo i j k icomp var_idx dz cons_bd velx_bd eta_bd cons_arr
        velx_arr vely_arr eta_arr umm_arr vm_arr u_star_arr dest_arr
      = donelan_flux.compute_v_flux c zlo i j k icomp var_idx dz cons_bd velx_bd eta_bd
        cons_arr velx_arr vely_arr eta_arr umm_arr vm_arr2 u_star_arr2 dest_arr ∧
    (donelan_flux.compute_u_flux_locals c zlo i j cons_bd vely_bd eta_bd cons_arr velx_arr
        vely_arr eta_arr umm_arr).stress
      = donelan_flux.Cd
          (donelan_flux.compute_u_flux_wsp_mean zlo i j cons_bd vely_bd eta_bd umm_arr)
        * velx_arr i j zlo
        * donelan_flux.compute_u_flux_wsp c zlo i j cons_bd vely_bd eta_bd velx_arr vely_arr ∧
    (donelan_flux.compute_v_flux_locals c zlo i j cons_bd velx_bd eta_bd cons_arr velx_arr
        vely_arr eta_arr umm_arr).stress
      = donelan_flux.Cd
          (donelan_flux.compute_v_flux_wsp_mean zlo i j cons_bd velx_bd eta_bd umm_arr)
        * vely_arr i j zlo
        * donelan_flux.compute_v_flux_wsp c zlo i j cons_bd velx_bd eta_bd velx_arr vely_arr :=
  ⟨rfl, rfl, rfl, rfl, rfl⟩

/-- Reading the entry just written. -/
theorem Array4C.read_written {β : Type} (a : Array4C β) (i j k n : Int) (x : β) :
    a.set i j k n x i j k n = x := by
  simp [Array4C.set]

/-- Reading any other entry. -/
theorem Array4C.read_unwritten {β : Type} (a : Array4C β) (i j k n i2 j2 k2 n2 : Int) (x : β)
    (h : ¬(i2 = i ∧ j2 = j ∧ k2 = k ∧ n2 = n)) :
    a.set i j k n x i2 j2 k2 n2 = a i2 j2 k2 n2 := by
  simp only [Array4C.set, h, if_false]

/-- The floor `eps = 1e-16` of the eddy diffusivity is positive. -/
theorem flux_eps_pos : (0 : α) < flux_eps := by
  unfold flux_eps
  norm_num

/-- In `moeng_flux`, `eta` after `amrex::max(eta,eps)` is positive. -/
theorem moeng_flux_eta_pos (c : CMath α) (zlo i j : Int)
    (cons_bd velx_bd vely_bd eta_bd : ArrayBounds)
    (cons_arr : Array4C α) (velx_arr vely_arr : Array4 α) (eta_arr : Array4C α)
    (umm_arr tm_arr um_arr vm_arr u_star_arr t_star_arr t_surf_arr : Array4 α) :
    0 < (moeng_flux.compute_t_flux_locals c zlo i j cons_bd velx_bd vely_bd eta_bd cons_arr
          velx_arr vely_arr eta_arr umm_arr tm_arr u_star_arr t_star_arr t_surf_arr).eta ∧
    0 < (moeng_flux.compute_u_flux_locals c zlo i j cons_bd vely_bd eta_bd cons_arr
          velx_arr vely_arr eta_arr umm_arr um_arr u_star_arr).eta ∧
    0 < (moeng_flux.compute_v_flux_locals c zlo i j cons_bd velx_bd eta_bd cons_arr
          velx_arr vely_arr eta_arr umm_arr vm_arr u_star_arr).eta :=
  ⟨lt_max_of_lt_right flux_eps_pos, lt_max_of_lt_right flux_eps_pos,
    lt_max_of_lt_right flux_eps_pos⟩

/-- Inside the bounds of `cons_arr` the clamped indices `ic`, `jc` of
`moeng_flux::compute_t_flux` are `i`, `j`. -/
theorem compute_t_flux_indices_inside (i j : Int)
    (cons_bd velx_bd vely_bd eta_bd : ArrayBounds)
    (hi : cons_bd.lbound.x ≤ i ∧ i ≤ cons_bd.ubound.x)
    (hj : cons_bd.lbound.y ≤ j ∧ j ≤ cons_bd.ubound.y) :
    (moeng_flux.compute_t_flux_indices i j cons_bd velx_bd vely_bd eta_bd).ic = i ∧
    (moeng_flux.compute_t_flux_indices i j cons_bd velx_bd vely_bd eta_bd).jc = j := by
  simp only [moeng_flux.compute_t_flux_indices]
  constructor
  · rw [if_neg (not_lt.2 hi.1), if_neg (not_lt.2 hi.2)]
  · rw [if_neg (not_lt.2 hj.1), if_neg (not_lt.2 hj.2)]

/-- The ghost-cell value a `compute_u_flux` or `compute_v_flux` writes, and what it leaves
alone: with the slope factor `f` (`rho` or `rho*rho`) the written value is linear in
`zlo - k`. -/
theorem stress_ghost_fill (dest_arr : Array4C α) (i j k zlo icomp : Int) (dz s f eta : α)
    (hk : k < zlo) :
    dest_arr.set i j k icomp (dest_arr i j zlo icomp - s * f / eta * (dz * ((zlo - k : Int) : α)))
        i j k icomp
      = dest_arr i j zlo icomp - s * (f / eta) * dz * ((zlo - k : Int) : α) ∧
    dest_arr.set i j k icomp (dest_arr i j zlo icomp - s * f / eta * (dz * ((zlo - k : Int) : α)))
        i j k icomp
      - dest_arr.set i j k icomp
          (dest_arr i j zlo icomp - s * f / eta * (dz * ((zlo - k : Int) : α))) i j zlo icomp
      = -(s * (f / eta) * dz) * ((zlo - k : Int) : α) ∧
    ∀ i2 j2 k2 n2 : Int, ¬(i2 = i ∧ j2 = j ∧ k2 = k ∧ n2 = icomp) →
      dest_arr.set i j k icomp
          (dest_arr i j zlo icomp - s * f / eta * (dz * ((zlo - k : Int) : α))) i2 j2 k2 n2
        = dest_arr i2 j2 k2 n2 := by
  have hz : ¬(i = i ∧ j = j ∧ zlo = k ∧ icomp = icomp) := by
    intro h
    omega
  refine ⟨?_, ?_, ?_⟩
  · rw [Array4C.read_written]
    ring
  · rw [Array4C.read_written, Array4C.read_unwritten _ _ _ _ _ _ _ _ _ _ hz]
    ring
  · intro i2 j2 k2 n2 h
    exact Array4C.read_unwritten _ _ _ _ _ _ _ _ _ _ h

/-- C24: in `moeng_flux`, for a ghost level `k < zlo`: `compute_t_flux` writes
`rho*(theta - moflux*(rho/eta)*dz*(zlo-k))` to `dest(i,j,k,icomp+n)`; `compute_u_flux` writes
`dest(i,j,zlo) - stressx*(rho/eta)*dz*(zlo-k)` for `xvel` and the same with `rho^2/eta` for
`xmom`, `compute_v_flux` likewise for `yvel` and `ymom`; `rho`, `theta`, `eta`, `moflux` and
the stresses are read at level `zlo` and do not depend on `k`, so `dest(k) - dest(zlo)` is
`(zlo - k)` times a factor free of `k`; `eta`, after `max(eta,1e-16)`, is positive; no other
entry of `dest`, in particular none at level `zlo`, is modified; and a `var_idx` other than
the velocity or momentum of the direction fails the assertion. -/
theorem moeng_flux_ghost_fill (c : CMath α) (zlo i j k n icomp var_idx : Int) (dz : α)
    (cons_bd velx_bd vely_bd eta_bd : ArrayBounds)
    (cons_arr : Array4C α) (velx_arr vely_arr : Array4 α) (eta_arr : Array4C α)
    (umm_arr tm_arr um_arr vm_arr u_star_arr t_star_arr t_surf_arr : Array4 α)
    (dest_arr : Array4C α) (lt : ThetaFluxLocals α) (lu lv : StressLocals α)
    (hlt : lt = moeng_flux.compute_t_flux_locals c zlo i j cons_bd velx_bd vely_bd eta_bd
      cons_arr velx_arr vely_arr eta_arr umm_arr tm_arr u_star_arr t_star_arr t_surf_arr)
    (hlu : lu = moeng_flux.compute_u_flux_locals c zlo i j cons_bd vely_bd eta_bd
      cons_arr velx_arr vely_arr eta_arr umm_arr um_arr u_star_arr)
    (hlv : lv = moeng_flux.compute_v_flux_locals c zlo i j cons_bd velx_bd eta_bd
      cons_arr velx_arr vely_arr eta_arr umm_arr vm_arr u_star_arr)
    (hk : k < zlo) :
    ((moeng_flux.compute_t_flux c zlo i j k n icomp dz cons_bd velx_bd vely_bd eta_bd cons_arr
        velx_arr vely_arr eta_arr umm_arr tm_arr u_star_arr t_star_arr t_surf_arr dest_arr) i j k (icomp + n)
      = lt.rho * (lt.theta - lt.moflux * (lt.rho / lt.eta) * dz * ((zlo - k : Int) : α)) ∧
    (moeng_flux.compute_t_flux c zlo i j k n icomp dz cons_bd velx_bd vely_bd eta_bd cons_arr
        velx_arr vely_arr eta_arr umm_arr tm_arr u_star_arr t_star_arr t_surf_arr dest_arr) i j k (icomp + n) - lt.rho * lt.theta
      = -(lt.rho * lt.moflux * (lt.rho / lt.eta) * dz) * ((zlo - k : Int) : α) ∧
    (∀ i2 j2 k2 n2 : Int, ¬(i2 = i ∧ j2 = j ∧ k2 = k ∧ n2 = icomp + n) →
      (moeng_flux.compute_t_flux c zlo i j k n icomp dz cons_bd velx_bd vely_bd eta_bd cons_arr
        velx_arr vely_arr eta_arr umm_arr tm_arr u_star_arr t_star_arr t_surf_arr dest_arr) i2 j2 k2 n2 = dest_arr i2 j2 k2 n2) ∧
    (cons_bd.lbound.x ≤ i ∧ i ≤ cons_bd.ubound.x →
      cons_bd.lbound.y ≤ j ∧ j ≤ cons_bd.ubound.y →
      dest_arr = cons_arr → icomp + n = RhoTheta_comp → cons_arr i j zlo Rho_comp ≠ 0 →
      lt.rho * lt.theta = dest_arr i j zlo (icomp + n))) ∧
    ((var_idx = Vars.xvel →
      ∃ d, moeng_flux.compute_u_flux c zlo i j k icomp var_idx dz cons_bd vely_bd eta_bd cons_arr
          velx_arr vely_arr eta_arr umm_arr um_arr u_star_arr dest_arr = Except.ok d ∧
        d i j k icomp
          = dest_arr i j zlo icomp - lu.stress * (lu.rho / lu.eta) * dz * ((zlo - k : Int) : α) ∧
        d i j k icomp - d i j zlo icomp
          = -(lu.stress * (lu.rho / lu.eta) * dz) * ((zlo - k : Int) : α) ∧
        ∀ i2 j2 k2 n2 : Int, ¬(i2 = i ∧ j2 = j ∧ k2 = k ∧ n2 = icomp) →
          d i2 j2 k2 n2 = dest_arr i2 j2 k2 n2) ∧
    (var_idx = Vars.xmom →
      ∃ d, moeng_flux.compute_u_flux c zlo i j k icomp var_idx dz cons_bd vely_bd eta_bd cons_arr
          velx_arr vely_arr eta_arr umm_arr um_arr u_star_arr dest_arr = Except.ok d ∧
        d i j k icomp
          = dest_arr i j zlo icomp
            - lu.stress * (lu.rho ^ 2 / lu.eta) * dz * ((zlo - k : Int) : α) ∧
        d i j k icomp - d i j zlo icomp
          = -(lu.stress * (lu.rho ^ 2 / lu.eta) * dz) * ((zlo - k : Int) : α) ∧
        ∀ i2 j2 k2 n2 : Int, ¬(i2 = i ∧ j2 = j ∧ k2 = k ∧ n2 = icomp) →
          d i2 j2 k2 n2 = dest_arr i2 j2 k2 n2) ∧
    (var_idx ≠ Vars.xvel → var_idx ≠ Vars.xmom →
      moeng_flux.compute_u_flux c zlo i j k icomp var_idx dz cons_bd vely_bd eta_bd cons_arr
          velx_arr vely_arr eta_arr umm_arr um_arr u_star_arr dest_arr = Except.error MostBCAbort.var_idx_assertion)) ∧
    ((var_idx = Vars.yvel →
      ∃ d, moeng_flux.compute_v_flux c zlo i j k icomp var_idx dz cons_bd velx_bd eta_bd cons_arr
          velx_arr vely_arr eta_arr umm_arr vm_arr u_star_arr dest_arr = Except.ok d ∧
        d i j k icomp
          = dest_arr i j zlo icomp - lv.stress * (lv.rho / lv.eta) * dz * ((zlo - k : Int) : α) ∧
        d i j k icomp - d i j zlo icomp
          = -(lv.stress * (lv.rho / lv.eta) * dz) * ((zlo - k : Int) : α) ∧
        ∀ i2 j2 k2 n2 : Int, ¬(i2 = i ∧ j2 = j ∧ k2 = k ∧ n2 = icomp) →
          d i2 j2 k2 n2 = dest_arr i2 j2 k2 n2) ∧
    (var_idx = Vars.ymom →
      ∃ d, moeng_flux.compute_v_flux c zlo i j k icomp var_idx dz cons_bd velx_bd eta_bd cons_arr
          velx_arr vely_arr eta_arr umm_arr vm_arr u_star_arr dest_arr = Except.ok d ∧
        d i j k icomp
          = dest_arr i j zlo icomp
            - lv.stress * (lv.rho ^ 2 / lv.eta) * dz * ((zlo - k : Int) : α) ∧
        d i j k icomp - d i j zlo icomp
          = -(lv.stress * (lv.rho ^ 2 / lv.eta) * dz) * ((zlo - k : Int) : α) ∧
        ∀ i2 j2 k2 n2 : Int, ¬(i2 = i ∧ j2 = j ∧ k2 = k ∧ n2 = icomp) →
          d i2 j2 k2 n2 = dest_arr i2 j2 k2 n2) ∧
    (var_idx ≠ Vars.yvel → var_idx ≠ Vars.ymom →
      moeng_flux.compute_v_flux c zlo i j k icomp var_idx dz cons_bd velx_bd eta_bd cons_arr
          velx_arr vely_arr eta_arr umm_arr vm_arr u_star_arr dest_arr = Except.error MostBCAbort.var_idx_assertion)) ∧
    (0 < lt.eta ∧ 0 < lu.eta ∧ 0 < lv.eta) := by
  have hpos := moeng_flux_eta_pos c zlo i j cons_bd velx_bd vely_bd eta_bd cons_arr velx_arr
    vely_arr eta_arr umm_arr tm_arr um_arr vm_arr u_star_arr t_star_arr t_surf_arr
  rw [← hlt, ← hlu, ← hlv] at hpos
  have hxv : Vars.xvel ≠ Vars.xmom := by decide
  have hyv : Vars.yvel ≠ Vars.ymom := by decide
  refine ⟨⟨?_, ?_, ?_, ?_⟩, ⟨?_, ?_, ?_⟩, ⟨?_, ?_, ?_⟩, hpos⟩
  · simp only [moeng_flux.compute_t_flux, ← hlt, Array4C.read_written]
    ring
  · simp only [moeng_flux.compute_t_flux, ← hlt, Array4C.read_written]
    ring
  · intro i2 j2 k2 n2 h
    simp only [moeng_flux.compute_t_flux]
    exact Array4C.read_unwritten _ _ _ _ _ _ _ _ _ _ h
  · intro hi hj hd hn hrho
    obtain ⟨hic, hjc⟩ := compute_t_flux_indices_inside i j cons_bd velx_bd vely_bd eta_bd hi hj
    have hr : lt.rho = cons_arr i j zlo Rho_comp := by
      rw [hlt]
      simp only [moeng_flux.compute_t_flux_locals, hic, hjc]
    have ht : lt.theta = cons_arr i j zlo RhoTheta_comp / cons_arr i j zlo Rho_comp := by
      rw [hlt]
      simp only [moeng_flux.compute_t_flux_locals, hic, hjc]
    rw [hr, ht, hd, hn, mul_div_cancel₀ _ hrho]
  · intro hv
    have h := stress_ghost_fill dest_arr i j k zlo icomp dz lu.stress lu.rho lu.eta hk
    refine ⟨_, ?_, h⟩
    simp only [moeng_flux.compute_u_flux, ← hlu, hv, hxv, if_false, if_true, mul_div_assoc]
  · intro hv
    have h := stress_ghost_fill dest_arr i j k zlo icomp dz lu.stress (lu.rho ^ 2) lu.eta hk
    refine ⟨_, ?_, h⟩
    simp only [moeng_flux.compute_u_flux, ← hlu, hv, if_true, mul_div_assoc, pow_two, mul_assoc]
  · intro h1 h2
    simp only [moeng_flux.compute_u_flux, h1, h2, if_false]
  · intro hv
    have h := stress_ghost_fill dest_arr i j k zlo icomp dz lv.stress lv.rho lv.eta hk
    refine ⟨_, ?_, h⟩
    simp only [moeng_flux.compute_v_flux, ← hlv, hv, hyv, if_false, if_true, mul_div_assoc]
  · intro hv
    have h := stress_ghost_fill dest_arr i j k zlo icomp dz lv.stress (lv.rho ^ 2) lv.eta hk
    refine ⟨_, ?_, h⟩
    simp only [moeng_flux.compute_v_flux, ← hlv, hv, if_true, mul_div_assoc, pow_two, mul_assoc]
  · intro h1 h2
    simp only [moeng_flux.compute_v_flux, h1, h2, if_false]

/-- Witness for C24: the sample arrays with `zlo = 0`, ghost level `k = -1`, `xvel`: the
call returns and the level `zlo` is as before. -/
theorem moeng_flux_ghost_fill_witness :
    ∃ d, moeng_flux.compute_u_flux sampleCMath 0 1 1 (-1) 0 Vars.xvel (1 / 2) sampleBounds
        sampleBounds sampleBounds sampleFieldC sampleField sampleField sampleFieldC
        sampleField sampleField sampleField sampleFieldC = Except.ok d ∧
      ∀ n2 : Int, d 1 1 0 n2 = sampleFieldC 1 1 0 n2 := by
  obtain ⟨d, hd, _, _, hframe⟩ :=
    (moeng_flux_ghost_fill sampleCMath 0 1 1 (-1) 1 0 Vars.xvel (1 / 2) sampleBounds
      sampleBounds sampleBounds sampleBounds sampleFieldC sampleField sampleField sampleFieldC
      sampleField sampleField sampleField sampleField sampleField sampleField sampleField
      sampleFieldC _ _ _ rfl rfl rfl (by decide)).2.1.1 rfl
  exact ⟨d, hd, fun n2 => hframe 1 1 0 n2 (by omega)⟩

/-- The neighbour reads of `moeng_flux` that the clamping keeps in bounds, for arrays at
least two cells wide in x and y: all of `compute_t_flux` and `compute_u_flux`, and those of
`compute_v_flux` other than `velx_arr(ix+1, .)`, for which only `ix` itself is in bounds. -/
theorem moeng_flux_clamped_indices_in_bounds (i j : Int)
    (cons_bd velx_bd vely_bd eta_bd : ArrayBounds)
    (hcx : cons_bd.lbound.x + 1 ≤ cons_bd.ubound.x)
    (hcy : cons_bd.lbound.y + 1 ≤ cons_bd.ubound.y)
    (hux : velx_bd.lbound.x + 1 ≤ velx_bd.ubound.x)
    (huy : velx_bd.lbound.y + 1 ≤ velx_bd.ubound.y)
    (hvx : vely_bd.lbound.x + 1 ≤ vely_bd.ubound.x)
    (hvy : vely_bd.lbound.y + 1 ≤ vely_bd.ubound.y)
    (hex : eta_bd.lbound.x + 1 ≤ eta_bd.ubound.x)
    (hey : eta_bd.lbound.y + 1 ≤ eta_bd.ubound.y) :
    ((velx_bd.lbound.x ≤ (moeng_flux.compute_t_flux_indices i j cons_bd velx_bd vely_bd eta_bd).ix ∧
      (moeng_flux.compute_t_flux_indices i j cons_bd velx_bd vely_bd eta_bd).ix + 1
        ≤ velx_bd.ubound.x) ∧
     (velx_bd.lbound.y ≤ (moeng_flux.compute_t_flux_indices i j cons_bd velx_bd vely_bd eta_bd).jx ∧
      (moeng_flux.compute_t_flux_indices i j cons_bd velx_bd vely_bd eta_bd).jx
        ≤ velx_bd.ubound.y) ∧
     (vely_bd.lbound.x ≤ (moeng_flux.compute_t_flux_indices i j cons_bd velx_bd vely_bd eta_bd).iy ∧
      (moeng_flux.compute_t_flux_indices i j cons_bd velx_bd vely_bd eta_bd).iy
        ≤ vely_bd.ubound.x) ∧
     (vely_bd.lbound.y ≤ (moeng_flux.compute_t_flux_indices i j cons_bd velx_bd vely_bd eta_bd).jy ∧
      (moeng_flux.compute_t_flux_indices i j cons_bd velx_bd vely_bd eta_bd).jy + 1
        ≤ vely_bd.ubound.y) ∧
     (eta_bd.lbound.x ≤ (moeng_flux.compute_t_flux_indices i j cons_bd velx_bd vely_bd eta_bd).ie ∧
      (moeng_flux.compute_t_flux_indices i j cons_bd velx_bd vely_bd eta_bd).ie
        ≤ eta_bd.ubound.x) ∧
     (eta_bd.lbound.y ≤ (moeng_flux.compute_t_flux_indices i j cons_bd velx_bd vely_bd eta_bd).je ∧
      (moeng_flux.compute_t_flux_indices i j cons_bd velx_bd vely_bd eta_bd).je
        ≤ eta_bd.ubound.y) ∧
     (cons_bd.lbound.x ≤ (moeng_flux.compute_t_flux_indices i j cons_bd velx_bd vely_bd eta_bd).ic ∧
      (moeng_flux.compute_t_flux_indices i j cons_bd velx_bd vely_bd eta_bd).ic
        ≤ cons_bd.ubound.x) ∧
     (cons_bd.lbound.y ≤ (moeng_flux.compute_t_flux_indices i j cons_bd velx_bd vely_bd eta_bd).jc ∧
      (moeng_flux.compute_t_flux_indices i j cons_bd velx_bd vely_bd eta_bd).jc
        ≤ cons_bd.ubound.y)) ∧
    ((vely_bd.lbound.y ≤ (compute_u_flux_indices i j cons_bd vely_bd eta_bd).jy ∧
      (compute_u_flux_indices i j cons_bd vely_bd eta_bd).jy + 1 ≤ vely_bd.ubound.y) ∧
     (eta_bd.lbound.x ≤ (compute_u_flux_indices i j cons_bd vely_bd eta_bd).ie - 1 ∧
      (compute_u_flux_indices i j cons_bd vely_bd eta_bd).ie ≤ eta_bd.ubound.x) ∧
     (eta_bd.lbound.y ≤ (compute_u_flux_indices i j cons_bd vely_bd eta_bd).je ∧
      (compute_u_flux_indices i j cons_bd vely_bd eta_bd).je ≤ eta_bd.ubound.y) ∧
     (cons_bd.lbound.x ≤ (compute_u_flux_indices i j cons_bd vely_bd eta_bd).ic - 1 ∧
      (compute_u_flux_indices i j cons_bd vely_bd eta_bd).ic ≤ cons_bd.ubound.x) ∧
     (cons_bd.lbound.y ≤ (compute_u_flux_indices i j cons_bd vely_bd eta_bd).jc ∧
      (compute_u_flux_indices i j cons_bd vely_bd eta_bd).jc ≤ cons_bd.ubound.y) ∧
     (vely_bd.lbound.x ≤ i → i ≤ vely_bd.ubound.x + 1 →
      (vely_bd.lbound.x ≤ (compute_u_flux_indices i j cons_bd vely_bd eta_bd).iylo ∧
       (compute_u_flux_indices i j cons_bd vely_bd eta_bd).iylo ≤ vely_bd.ubound.x) ∧
      (vely_bd.lbound.x ≤ (compute_u_flux_indices i j cons_bd vely_bd eta_bd).iyhi ∧
       (compute_u_flux_indices i j cons_bd vely_bd eta_bd).iyhi ≤ vely_bd.ubound.x))) ∧
    ((velx_bd.lbound.x ≤ (compute_v_flux_indices i j cons_bd velx_bd eta_bd).ix ∧
      (compute_v_flux_indices i j cons_bd velx_bd eta_bd).ix ≤ velx_bd.ubound.x) ∧
     (eta_bd.lbound.x ≤ (compute_v_flux_indices i j cons_bd velx_bd eta_bd).ie ∧
      (compute_v_flux_indices i j cons_bd velx_bd eta_bd).ie ≤ eta_bd.ubound.x) ∧
     (eta_bd.lbound.y ≤ (compute_v_flux_indices i j cons_bd velx_bd eta_bd).je - 1 ∧
      (compute_v_flux_indices i j cons_bd velx_bd eta_bd).je ≤ eta_bd.ubound.y) ∧
     (cons_bd.lbound.x ≤ (compute_v_flux_indices i j cons_bd velx_bd eta_bd).ic ∧
      (compute_v_flux_indices i j cons_bd velx_bd eta_bd).ic ≤ cons_bd.ubound.x) ∧
     (cons_bd.lbound.y ≤ (compute_v_flux_indices i j cons_bd velx_bd eta_bd).jc - 1 ∧
      (compute_v_flux_indices i j cons_bd velx_bd eta_bd).jc ≤ cons_bd.ubound.y) ∧
     (velx_bd.lbound.y ≤ j → j ≤ velx_bd.ubound.y + 1 →
      (velx_bd.lbound.y ≤ (compute_v_flux_indices i j cons_bd velx_bd eta_bd).jxlo ∧
       (compute_v_flux_indices i j cons_bd velx_bd eta_bd).jxlo ≤ velx_bd.ubound.y) ∧
      (velx_bd.lbound.y ≤ (compute_v_flux_indices i j cons_bd velx_bd eta_bd).jxhi ∧
       (compute_v_flux_indices i j cons_bd velx_bd eta_bd).jxhi ≤ velx_bd.ubound.y)) ∧
     ((compute_v_flux_indices i j cons_bd velx_bd eta_bd).ix + 1 ≤ velx_bd.ubound.x ↔
       i < velx_bd.ubound.x)) := by
  refine ⟨⟨?_, ?_, ?_, ?_, ?_, ?_, ?_, ?_⟩, ⟨?_, ?_, ?_, ?_, ?_, ?_⟩,
    ⟨?_, ?_, ?_, ?_, ?_, ?_, ?_⟩⟩
  all_goals simp only [moeng_flux.compute_t_flux_indices, compute_u_flux_indices,
    compute_v_flux_indices]
  all_goals split_ifs <;> omega

/-- C25 (evaluation at the failing input): with `velx_arr` bounded by `0 ≤ i ≤ 4` and
`i = 4`, `compute_v_flux` keeps `ix = 4` and reads `velx_arr(ix+1, .) = velx_arr(5, .)`,
past the upper bound; its stress differs between two `velx_arr` that agree everywhere
inside the bounds.  `compute_t_flux` clamps the same index to `ubound.x - 1 = 3`, and
`compute_u_flux` clamps the transposed index `jy` to `ubound.y - 1 = 3`. -/
theorem compute_v_flux_reads_past_velx_bound :
    (compute_v_flux_indices 4 2 sampleBounds sampleBounds sampleBounds).ix = 4 ∧
    ¬((compute_v_flux_indices 4 2 sampleBounds sampleBounds sampleBounds).ix + 1
        ≤ sampleBounds.ubound.x) ∧
    (moeng_flux.compute_t_flux_indices 4 2 sampleBounds sampleBounds sampleBounds
        sampleBounds).ix = 3 ∧
    (compute_u_flux_indices 2 4 sampleBounds sampleBounds sampleBounds).jy = 3 ∧
    (∀ i j k : Int, i ≤ sampleBounds.ubound.x →
      sampleFieldClipped i j k = sampleField i j k) ∧
    (moeng_flux.compute_v_flux_locals sampleCMath 0 4 2 sampleBounds sampleBounds sampleBounds
        sampleFieldC sampleField sampleField sampleFieldC unitField unitField
        unitField).stress
      ≠ (moeng_flux.compute_v_flux_locals sampleCMath 0 4 2 sampleBounds sampleBounds
        sampleBounds sampleFieldC sampleFieldClipped sampleField sampleFieldC unitField
        unitField unitField).stress := by
  refine ⟨by decide, by decide, by decide, by decide, ?_, ?_⟩
  · intro i j k h
    have h4 : i ≤ 4 := h
    simp only [sampleFieldClipped, h4, if_true]
  · have hx : compute_v_flux_indices 4 2 sampleBounds sampleBounds sampleBounds
        = ⟨4, 1, 2, 4, 2, 4, 2⟩ := by decide
    simp only [moeng_flux.compute_v_flux_locals, hx]
    norm_num [sampleCMath, sampleField, sampleFieldClipped, unitField]

end MOSTFluxTheorems

/-! ### `ABLMost::update_fluxes` -/

section UpdateFluxesTheorems

variable {α : Type} [LinearOrderedField α] [FloorRing α]

/-- Overwriting an entry of a list with itself changes nothing. -/
theorem set_of_getElem? {β : Type} (l : List β) (n : Nat) (x : β) (h : l[n]? = some x) :
    l.set n x = l := by
  apply List.ext_getElem?
  intro m
  rw [List.getElem?_set]
  by_cases hnm : n = m
  · subst hnm
    have hlt : n < l.length := by
      by_contra hge
      rw [List.getElem?_eq_none (not_lt.1 hge)] at h
      cases h
    simp only [if_true, hlt, h]
  · simp only [hnm, if_false]

/-- Overwriting an entry with one that has the same image leaves the image of the list. -/
theorem map_set_same {β γ : Type} (f : β → γ) (l : List β) (n : Nat) (x y : β)
    (h : l[n]? = some y) (hf : f x = f y) : (l.set n x).map f = l.map f := by
  rw [List.map_set, hf]
  apply set_of_getElem?
  rw [List.getElem?_map, h]
  rfl

/-- C30: with `flux_type = DONELAN`, `update_fluxes` runs no similarity iteration: whatever
the level, the time and `max_iters`, a call that returns leaves the members, the SST
snapshots and, on every level, `z_0`, `u_star`, `t_star` and `olen` exactly as they were; the
levels other than `lev` are unchanged, and on `lev` only the plane averages and, when SST
data is present, `t_surf` are updated.  The result does not depend on `max_iters`, and
without SST data on `lev` the call does return. -/
theorem update_fluxes_donelan_frame (c : CMath α) (K : ERF_Constants α)
    (Cnk_b indet zref : α) (tm_avg umm_avg : Array4 α) (gtbx : List Box)
    (gtbx_cells : List (Int × Int × Int)) (st : ABLMostState α) (lev : Nat) (time : α)
    (max_iters : Int) (hd : st.members.flux_type = FluxCalcType.DONELAN) :
    (∀ st2, ABLMost.update_fluxes c K Cnk_b indet zref tm_avg umm_avg gtbx gtbx_cells st lev
        time max_iters = Except.ok st2 →
      st2.members = st.members ∧
      st2.levels.map ABLMostLevel.similarity_fields
        = st.levels.map ABLMostLevel.similarity_fields ∧
      st2.levels.map ABLMostLevel.m_sst_lev = st.levels.map ABLMostLevel.m_sst_lev ∧
      (∀ l : Nat, l ≠ lev → st2.levels[l]? = st.levels[l]?) ∧
      (∀ L, st.levels[lev]? = some L →
        ∃ L2, st2.levels[lev]? = some L2 ∧
          L2.arrays.tm_arr = tm_avg ∧ L2.arrays.umm_arr = umm_avg ∧
          (L.m_sst_lev = none → L2.arrays.t_surf_arr = L.arrays.t_surf_arr))) ∧
    (∀ max_iters2 : Int,
      ABLMost.update_fluxes c K Cnk_b indet zref tm_avg umm_avg gtbx gtbx_cells st lev time
          max_iters2
        = ABLMost.update_fluxes c K Cnk_b indet zref tm_avg umm_avg gtbx gtbx_cells st lev
          time max_iters) ∧
    ((∀ L, st.levels[lev]? = some L → L.m_sst_lev = none) →
      ∃ st2, ABLMost.update_fluxes c K Cnk_b indet zref tm_avg umm_avg gtbx gtbx_cells st lev
        time max_iters = Except.ok st2) := by
  have hne : ¬(st.members.flux_type = FluxCalcType.MOENG) := by
    rw [hd]
    decide
  refine ⟨?_, ?_, ?_⟩
  · intro st2 h
    unfold ABLMost.update_fluxes at h
    cases hL : st.levels[lev]? with
    | none =>
      rw [hL] at h
      simp only at h
      injection h with h
      subst h
      refine ⟨rfl, rfl, rfl, fun _ _ => rfl, ?_⟩
      intro L hL2
      cases hL2
    | some L =>
      rw [hL] at h
      simp only [hne, if_false] at h
      split at h
      · cases h
      · rename_i t_surf_arr ht
        injection h with h
        subst h
        have hlt : lev < st.levels.length := by
          by_contra hge
          rw [List.getElem?_eq_none (not_lt.1 hge)] at hL
          cases hL
        refine ⟨rfl, map_set_same _ _ _ _ _ hL rfl, map_set_same _ _ _ _ _ hL rfl, ?_, ?_⟩
        · intro l hl
          exact List.getElem?_set_ne (Ne.symm hl)
        · intro L' hL'
          injection hL' with hL'
          subst hL'
          refine ⟨_, List.getElem?_set_self hlt, rfl, rfl, ?_⟩
          intro hnone
          rw [hnone] at ht
          simp only at ht
          injection ht with ht
          exact ht.symm
  · intro max_iters2
    unfold ABLMost.update_fluxes
    simp only [hne, if_false]
  · intro hnone
    unfold ABLMost.update_fluxes
    cases hL : st.levels[lev]? with
    | none => exact ⟨_, rfl⟩
    | some L =>
      simp only [hne, if_false, hnone L hL]
      exact ⟨_, rfl⟩

/-- Witness for C30: the sample Donelan state, level 0, time 10, `max_iters = 25`. -/
theorem update_fluxes_donelan_frame_witness :
    ∃ st2, ABLMost.update_fluxes sampleCMath sampleConstants 0 0 10 unitField unitField
        [sampleBox] [(0, 0, 0)] sampleDonelanState 0 10 25 = Except.ok st2 :=
  (update_fluxes_donelan_frame sampleCMath sampleConstants 0 0 10 unitField unitField
    [sampleBox] [(0, 0, 0)] sampleDonelanState 0 10 25 rfl).2.2
    (fun L hL => by
      have h : sampleDonelanState.levels[0]? = some ⟨sampleMostArrays, none⟩ := rfl
      rw [h] at hL
      injection hL with hL
      rw [← hL])

/-- What a constructor call that returns has gone through: `parse_theta` returned, and the
level loop started from its `theta_type`. -/
theorem construct_ok_parts {β : Type} [LinearOrderedField β] (epsilon : β)
    (pp : MostParmParse β) (sst_valid : List Bool) (m : ABLMostMembers β)
    (hok : ABLMost.construct epsilon pp sst_valid = Except.ok m) :
    ∃ th, ABLMost.parse_theta epsilon pp = Except.ok th ∧
      m.theta_type = (ABLMost.fill_levels th sst_valid th.theta_type).1 ∧
      m.surf_temp_flux = th.surf_temp_flux := by
  unfold ABLMost.construct at hok
  split at hok
  · cases hok
  · split at hok
    · cases hok
    · rename_i th hth
      split at hok
      · cases hok
      · injection hok with hok
        subst hok
        exact ⟨th, hth, rfl, rfl⟩

/-- What `parse_theta` settles when it returns. -/
theorem parse_theta_ok {β : Type} [LinearOrderedField β] (epsilon : β)
    (pp : MostParmParse β) (th : ThetaMembers β)
    (hth : ABLMost.parse_theta epsilon pp = Except.ok th) :
    (pp.most_surf_temp.isSome = true →
      th.theta_type = ThetaCalcType.SURFACE_TEMPERATURE ∧ th.surf_temp_flux = 0) ∧
    (pp.most_surf_temp.isSome = false →
      th.theta_type = (if |pp.most_surf_temp_flux.getD 0| > epsilon
        then ThetaCalcType.HEAT_FLUX else ThetaCalcType.ADIABATIC) ∧
      th.surf_temp_flux = pp.most_surf_temp_flux.getD 0) := by
  unfold ABLMost.parse_theta at hth
  simp only at hth
  constructor
  · intro hs
    rw [if_pos hs] at hth
    split at hth
    · cases hth
    · injection hth with hth
      subst hth
      exact ⟨rfl, rfl⟩
  · intro hs
    rw [if_neg (by rw [hs]; decide)] at hth
    split at hth
    · cases hth
    · injection hth with hth
      subst hth
      exact ⟨rfl, rfl⟩

/-- The level loop of the constructor leaves `theta_type` as it was or switches it to
`SURFACE_TEMPERATURE`; without SST data it leaves it as it was. -/
theorem fill_levels_theta_type {β : Type} [LinearOrderedField β] (th : ThetaMembers β)
    (sst_valid : List Bool) (theta_type : ThetaCalcType) :
    ((ABLMost.fill_levels th sst_valid theta_type).1 = theta_type ∨
      (ABLMost.fill_levels th sst_valid theta_type).1 = ThetaCalcType.SURFACE_TEMPERATURE) ∧
    ((∀ b ∈ sst_valid, b = false) →
      (ABLMost.fill_levels th sst_valid theta_type).1 = theta_type) := by
  induction sst_valid generalizing theta_type with
  | nil => exact ⟨Or.inl rfl, fun _ => rfl⟩
  | cons b rest ih =>
    cases b with
    | true =>
      constructor
      · simp only [ABLMost.fill_levels, if_true]
        rcases (ih ThetaCalcType.SURFACE_TEMPERATURE).1 with h | h <;> exact Or.inr h
      · intro h
        have := h true (List.mem_cons_self _ _)
        cases this
    | false =>
      have hrest := ih theta_type
      constructor
      · simp only [ABLMost.fill_levels, Bool.false_eq_true, if_false]
        split <;> exact hrest.1
      · intro h
        simp only [ABLMost.fill_levels, Bool.false_eq_true, if_false]
        split <;> exact hrest.2 (fun b hb => h b (List.mem_cons_of_mem _ hb))

/-- What `update_fluxes` does once the SST step has returned `t_surf_arr`, `L1` being the
level `lev` with the new `t_surf` and plane averages and `levels1` the levels after
`update_surf_temp` (run when `flux_type = MOENG` and `theta_type = SURFACE_TEMPERATURE`):
with `flux_type = MOENG` it runs `compute_fluxes` on level `lev` with the `iterate_flux` of
the one struct `most_flux_struct theta_type rough_type`, built on `most_flux_mdata`; with any
other `flux_type` it runs no iterator. -/
theorem update_fluxes_dispatch (c : CMath α) (K : ERF_Constants α) (Cnk_b indet zref : α)
    (tm_avg umm_avg : Array4 α) (gtbx : List Box) (gtbx_cells : List (Int × Int × Int))
    (st : ABLMostState α) (lev : Nat) (time : α) (max_iters : Int)
    (L L1 : ABLMostLevel α) (t_surf_arr : Array4 α) (levels1 : List (ABLMostLevel α))
    (hL : st.levels[lev]? = some L)
    (hsst : (match L.m_sst_lev with
      | some sst =>
          ABLMost.time_interp_tsurf st.m_start_bdy_time st.m_bdy_time_interval sst gtbx
            L.arrays.t_surf_arr time
      | none => Except.ok L.arrays.t_surf_arr) = Except.ok t_surf_arr)
    (hL1 : L1 = { L with arrays :=
      { L.arrays with t_surf_arr := t_surf_arr, tm_arr := tm_avg, umm_arr := umm_avg } })
    (hlevels1 : levels1 =
      if st.members.theta_type = ThetaCalcType.SURFACE_TEMPERATURE then
        ABLMost.update_surf_temp indet st.members time (st.levels.set lev L1)
      else st.levels.set lev L1) :
    (st.members.flux_type = FluxCalcType.MOENG →
      ∃ L2 : ABLMostLevel α, levels1[lev]? = some L2 ∧
        ABLMost.update_fluxes c K Cnk_b indet zref tm_avg umm_avg gtbx gtbx_cells st lev time
            max_iters
          = Except.ok
              { st with
                levels :=
                  levels1.set lev
                    { L2 with
                      arrays :=
                        ABLMost.compute_fluxes
                          ((ABLMost.most_flux_struct st.members.theta_type
                              st.members.rough_type).iterate_flux c K
                            (ABLMost.most_flux_mdata c K Cnk_b zref st.members))
                          gtbx_cells max_iters L2.arrays } }) ∧
    (st.members.flux_type ≠ FluxCalcType.MOENG →
      ABLMost.update_fluxes c K Cnk_b indet zref tm_avg umm_avg gtbx gtbx_cells st lev time
          max_iters
        = Except.ok { st with levels := st.levels.set lev L1 }) := by
  have hlt : lev < st.levels.length := by
    by_contra hge
    rw [List.getElem?_eq_none (not_lt.1 hge)] at hL
    cases hL
  constructor
  · intro hm
    have hlen : lev < levels1.length := by
      rw [hlevels1]
      unfold ABLMost.update_surf_temp
      split
      · split
        · simpa using hlt
        · simpa using hlt
      · simpa using hlt
    refine ⟨levels1[lev], List.getElem?_eq_getElem hlen, ?_⟩
    unfold ABLMost.update_fluxes
    rw [hL]
    simp only
    rw [hsst]
    simp only [hm, if_true, ← hL1, ← hlevels1]
    rw [List.getElem?_eq_getElem hlen]
  · intro hm
    unfold ABLMost.update_fluxes
    rw [hL]
    simp only
    rw [hsst]
    simp only [hm, if_false, ← hL1]

/-- C28: when the constructor of `ABLMost` returns and no SST data is present,
`theta_type` is `SURFACE_TEMPERATURE` iff `most.surf_temp` is given, and otherwise
`HEAT_FLUX` iff `|surf_temp_flux| > epsilon` and `ADIABATIC` iff not.  Hence, with or
without SST data, whenever `theta_type` is `HEAT_FLUX`, which is exactly when the struct of
`update_fluxes` is a `surface_flux*` one, the `surf_temp_flux` handed to that struct is
non-zero, and so is the divisor `kappa * gravity * surf_temp_flux` of `Olen` for non-zero
`KAPPA` and `CONST_GRAV`.  On an object with these members, once the SST step has returned,
`update_fluxes` with `flux_type = MOENG` runs `compute_fluxes` with the `iterate_flux` of
exactly one struct, `most_flux_struct theta_type rough_type`, a function of that pair taking
different values at different pairs; with any other `flux_type` it runs no iterator. -/
theorem ABLMost_theta_type_selection {β : Type} [LinearOrderedField β] [FloorRing β]
    (epsilon : β)
    (pp : MostParmParse β) (sst_valid : List Bool) (m : ABLMostMembers β)
    (hok : ABLMost.construct epsilon pp sst_valid = Except.ok m) :
    ((∀ b ∈ sst_valid, b = false) →
      (m.theta_type = ThetaCalcType.SURFACE_TEMPERATURE ↔ pp.most_surf_temp.isSome = true) ∧
      (pp.most_surf_temp.isSome = false →
        (m.theta_type = ThetaCalcType.HEAT_FLUX ↔ |m.surf_temp_flux| > epsilon) ∧
        (m.theta_type = ThetaCalcType.ADIABATIC ↔ ¬(|m.surf_temp_flux| > epsilon)) ∧
        m.surf_temp_flux = pp.most_surf_temp_flux.getD 0)) ∧
    (0 ≤ epsilon → m.theta_type = ThetaCalcType.HEAT_FLUX →
      m.surf_temp_flux ≠ 0 ∧
      ∀ (c : CMath β) (K : ERF_Constants β) (Cnk_b zref : β),
        (ABLMost.most_flux_mdata c K Cnk_b zref m).surf_temp_flux = m.surf_temp_flux ∧
        (K.KAPPA ≠ 0 → K.CONST_GRAV ≠ 0 →
          (ABLMost.most_flux_mdata c K Cnk_b zref m).kappa
            * (ABLMost.most_flux_mdata c K Cnk_b zref m).gravity
            * (ABLMost.most_flux_mdata c K Cnk_b zref m).surf_temp_flux ≠ 0)) ∧
    (∀ rough_type : RoughCalcType,
      ABLMost.most_flux_struct m.theta_type rough_type
          ∈ [MostFluxStruct.iterative IterativeFlux.surface_flux,
             MostFluxStruct.iterative IterativeFlux.surface_flux_charnock,
             MostFluxStruct.iterative IterativeFlux.surface_flux_mod_charnock]
        ↔ m.theta_type = ThetaCalcType.HEAT_FLUX) ∧
    (∀ (t1 t2 : ThetaCalcType) (r1 r2 : RoughCalcType),
      ABLMost.most_flux_struct t1 r1 = ABLMost.most_flux_struct t2 r2 → t1 = t2 ∧ r1 = r2) ∧
    (∀ (c : CMath β) (K : ERF_Constants β) (Cnk_b indet zref : β)
        (tm_avg umm_avg : Array4 β) (gtbx : List Box) (gtbx_cells : List (Int × Int × Int))
        (st : ABLMostState β) (lev : Nat) (time : β) (max_iters : Int)
        (L L1 : ABLMostLevel β) (t_surf_arr : Array4 β) (levels1 : List (ABLMostLevel β)),
      st.members = m →
      st.levels[lev]? = some L →
      (match L.m_sst_lev with
        | some sst =>
            ABLMost.time_interp_tsurf st.m_start_bdy_time st.m_bdy_time_interval sst gtbx
              L.arrays.t_surf_arr time
        | none => Except.ok L.arrays.t_surf_arr) = Except.ok t_surf_arr →
      L1 = { L with arrays :=
        { L.arrays with t_surf_arr := t_surf_arr, tm_arr := tm_avg, umm_arr := umm_avg } } →
      levels1 =
        (if m.theta_type = ThetaCalcType.SURFACE_TEMPERATURE then
          ABLMost.update_surf_temp indet m time (st.levels.set lev L1)
        else st.levels.set lev L1) →
      (m.flux_type = FluxCalcType.MOENG →
        ∃ L2 : ABLMostLevel β, levels1[lev]? = some L2 ∧
          ABLMost.update_fluxes c K Cnk_b indet zref tm_avg umm_avg gtbx gtbx_cells st lev
              time max_iters
            = Except.ok
                { st with
                  levels :=
                    levels1.set lev
                      { L2 with
                        arrays :=
                          ABLMost.compute_fluxes
                            ((ABLMost.most_flux_struct m.theta_type
                                m.rough_type).iterate_flux c K
                              (ABLMost.most_flux_mdata c K Cnk_b zref m))
                            gtbx_cells max_iters L2.arrays } }) ∧
      (m.flux_type ≠ FluxCalcType.MOENG →
        ABLMost.update_fluxes c K Cnk_b indet zref tm_avg umm_avg gtbx gtbx_cells st lev time
            max_iters
          = Except.ok { st with levels := st.levels.set lev L1 })) := by
  obtain ⟨th, hth, htheta, hflux⟩ := construct_ok_parts epsilon pp sst_valid m hok
  obtain ⟨hsome, hnone⟩ := parse_theta_ok epsilon pp th hth
  have hfill := fill_levels_theta_type th sst_valid th.theta_type
  have hmdata : ∀ (c : CMath β) (K : ERF_Constants β) (Cnk_b zref : β),
      (ABLMost.most_flux_mdata c K Cnk_b zref m).surf_temp_flux = m.surf_temp_flux ∧
      (ABLMost.most_flux_mdata c K Cnk_b zref m).kappa = K.KAPPA ∧
      (ABLMost.most_flux_mdata c K Cnk_b zref m).gravity = K.CONST_GRAV := by
    intro c K Cnk_b zref
    unfold ABLMost.most_flux_mdata
    split
    · exact ⟨rfl, rfl, rfl⟩
    · split
      · exact ⟨rfl, rfl, rfl⟩
      · exact ⟨rfl, rfl, rfl⟩
  refine ⟨?_, ?_, ?_, ?_, ?_⟩
  · intro hno
    have hm : m.theta_type = th.theta_type := by rw [htheta, hfill.2 hno]
    cases hst : pp.most_surf_temp.isSome with
    | true =>
      refine ⟨?_, fun h => by cases h⟩
      rw [hm, (hsome hst).1]
      exact ⟨fun _ => rfl, fun _ => rfl⟩
    | false =>
      obtain ⟨h1, h2⟩ := hnone hst
      have hf : m.surf_temp_flux = pp.most_surf_temp_flux.getD 0 := by rw [hflux, h2]
      rw [hm, h1, hf]
      refine ⟨?_, fun _ => ⟨?_, ?_, rfl⟩⟩
      · split <;> simp
      · split <;> simp [*]
      · split <;> simp [*]
  · intro heps hheat
    have hth_heat : th.theta_type = ThetaCalcType.HEAT_FLUX := by
      rcases hfill.1 with h | h
      · rw [← h, ← htheta, hheat]
      · rw [htheta, h] at hheat
        cases hheat
    have hfl : m.surf_temp_flux ≠ 0 := by
      cases hst : pp.most_surf_temp.isSome with
      | true =>
        rw [(hsome hst).1] at hth_heat
        cases hth_heat
      | false =>
        obtain ⟨h1, h2⟩ := hnone hst
        rw [hflux, h2]
        rw [h1] at hth_heat
        intro h0
        rw [h0, abs_zero] at hth_heat
        rw [if_neg (not_lt.2 heps)] at hth_heat
        cases hth_heat
    refine ⟨hfl, fun c K Cnk_b zref => ⟨(hmdata c K Cnk_b zref).1, fun hk hg => ?_⟩⟩
    obtain ⟨h1, h2, h3⟩ := hmdata c K Cnk_b zref
    rw [h1, h2, h3]
    exact mul_ne_zero (mul_ne_zero hk hg) hfl
  · intro rough_type
    cases m.theta_type <;> cases rough_type <;> decide
  · intro t1 t2 r1 r2
    cases t1 <;> cases t2 <;> cases r1 <;> cases r2 <;> decide
  · intro c K Cnk_b indet zref tm_avg umm_avg gtbx gtbx_cells st lev time max_iters L L1
      t_surf_arr levels1 hst hL hsst hL1 hlevels1
    subst hst
    exact update_fluxes_dispatch c K Cnk_b indet zref tm_avg umm_avg gtbx gtbx_cells st lev
      time max_iters L L1 t_surf_arr levels1 hL hsst hL1 hlevels1

/-- Witness for C28: `most.surf_temp_flux = 0.1` and nothing else, one level without SST
data: the constructor returns, with `theta_type = HEAT_FLUX` and a non-zero flux. -/
theorem ABLMost_theta_type_selection_witness :
    ∃ m : ABLMostMembers ℚ,
      ABLMost.construct (1 / 1000000 : ℚ)
        { emptyMostParmParse with most_surf_temp_flux := some 0.1 } [false] = Except.ok m ∧
      m.theta_type = ThetaCalcType.HEAT_FLUX ∧ m.surf_temp_flux ≠ 0 := by
  have hok : ∃ m : ABLMostMembers ℚ, ABLMost.construct (1 / 1000000 : ℚ)
      { emptyMostParmParse with most_surf_temp_flux := some 0.1 } [false] = Except.ok m ∧
      m.theta_type = ThetaCalcType.HEAT_FLUX := by
    refine ⟨_, rfl, ?_⟩
    simp [ABLMost.parse_theta, ABLMost.fill_levels, emptyMostParmParse]
    norm_num [abs_of_pos]
  obtain ⟨m, hm, hheat⟩ := hok
  exact ⟨m, hm, hheat,
    ((ABLMost_theta_type_selection (1 / 1000000 : ℚ)
      { emptyMostParmParse with most_surf_temp_flux := some 0.1 } [false] m hm).2.1
      (by norm_num) hheat).1⟩

end UpdateFluxesTheorems

end ERF
